import Mathlib

/-!
Verification of the ClearOps tabular ingestion normalization engine
(`src/core/normalize_mod/{helpers,orders,shipments,tracking}.py`).

The engine is embedded shallowly: a pandas `DataFrame` becomes a
column-major table (an ordered list of labelled value columns, labels not
necessarily unique, exactly as pandas allows), scalar cells become the
`Value` type, and the free-form `dateutil` / `pd.to_numeric` string
parsers — external libraries whose exact accepted language no claim
depends on — are parameters of the pipelines (any total
`String → Option _` function).  Points where the pandas code would raise
(selecting a duplicated label and then applying a Series-only operation
such as the `.str` accessor, `Series.apply`, or `pd.to_numeric`) are
modelled with `Except`.
-/

set_option maxHeartbeats 1000000

namespace ClearOps

/-- A scalar cell: pandas NA/NaN/NaT, a string, an integer, a float
(modelled as a rational; no claim depends on binary rounding), or a
timezone-aware UTC timestamp (an instant, e.g. epoch nanoseconds). -/
inductive Value where
  | na
  | str (s : String)
  | int (n : Int)
  | float (q : Rat)
  | ts (t : Int)
deriving DecidableEq, Repr

/-- Column-major table: ordered labelled columns (labels may repeat, as in
pandas) plus the row count (the index length). -/
structure DataFrame where
  cols : List (String × List Value)
  nrows : Nat
deriving DecidableEq, Repr

/-- Well-formedness: every column has exactly `nrows` cells. -/
def DataFrame.WF (df : DataFrame) : Prop :=
  ∀ c ∈ df.cols, (Prod.snd c).length = df.nrows

instance (df : DataFrame) : Decidable df.WF := by
  unfold DataFrame.WF; infer_instance

/-- `pd.DataFrame()`: no columns, no rows. -/
def emptyDF : DataFrame := ⟨[], 0⟩

/-- `df.empty`: true when either axis has length 0. -/
def pdEmpty (df : DataFrame) : Bool := df.nrows == 0 || df.cols.isEmpty

-- ---------------------------------------------------------------
-- Python string primitives (ASCII model of str.strip/lower/upper)
-- ---------------------------------------------------------------

/-- `str.strip()` on the character list: drop whitespace at both ends. -/
def pyStripList (l : List Char) : List Char :=
  ((l.dropWhile Char.isWhitespace).reverse.dropWhile Char.isWhitespace).reverse

def pyStrip (s : String) : String := ⟨pyStripList s.data⟩

/-- ASCII uppercase of one character (as CPython does for ASCII input;
no claim involves non-ASCII case mapping). -/
def upChar (c : Char) : Char :=
  if h : 97 ≤ c.toNat ∧ c.toNat ≤ 122 then
    ⟨⟨c.toNat - 32, by omega⟩, by
      have : c.toNat - 32 < 55296 := by omega
      simp only [UInt32.isValidChar, Nat.isValidChar]
      left
      simpa using this⟩
  else c

/-- ASCII lowercase of one character. -/
def lowChar (c : Char) : Char :=
  if h : 65 ≤ c.toNat ∧ c.toNat ≤ 90 then
    ⟨⟨c.toNat + 32, by omega⟩, by
      have : c.toNat + 32 < 55296 := by omega
      simp only [UInt32.isValidChar, Nat.isValidChar]
      left
      simpa using this⟩
  else c

def pyUpper (s : String) : String := ⟨s.data.map upChar⟩

def pyLower (s : String) : String := ⟨s.data.map lowChar⟩

/-- `s[:n]` on a Python string. -/
def strTake (n : Nat) (s : String) : String := ⟨s.data.take n⟩

/-- Python `a or b` on strings: `b` when `a` is empty (falsy). -/
def pyOr (a b : String) : String := if a = "" then b else a

-- ---------------------------------------------------------------
-- DataFrame operations used by the pipelines
-- ---------------------------------------------------------------

def colNames (df : DataFrame) : List String := df.cols.map Prod.fst

def hasCol (df : DataFrame) (l : String) : Bool := (colNames df).contains l

def countLabel (df : DataFrame) (l : String) : Nat := (colNames df).count l

/-- `_clean_cols`: copy with every label stripped. -/
def cleanCols (df : DataFrame) : DataFrame :=
  { df with cols := df.cols.map (fun c => (pyStrip c.1, c.2)) }

/-- `_lower_cols`: copy with every label stripped and lowercased. -/
def lowerCols (df : DataFrame) : DataFrame :=
  { df with cols := df.cols.map (fun c => (pyLower (pyStrip c.1), c.2)) }

/-- `df[l]` as a Series.  Pandas returns a single column when the label is
unique; with a duplicated label it returns a two-or-more-column DataFrame,
on which every Series-only operation the pipelines then perform
(`.str` accessor, `Series.apply` inside `_to_utc`, `pd.to_numeric`)
raises.  We surface that failure at the selection. -/
def getSeries (df : DataFrame) (l : String) : Except String (List Value) :=
  match df.cols.filter (fun c => c.1 == l) with
  | [] => .error ("KeyError: " ++ l)
  | [c] => .ok c.2
  | _ => .error ("Series operation on duplicated label: " ++ l)

/-- `df[l] = column`: replace the values of every existing column labelled
`l` (in place), or append a new column at the right end. -/
def setCol (df : DataFrame) (l : String) (vals : List Value) : DataFrame :=
  if df.cols.any (fun c => c.1 == l) then
    { df with cols := df.cols.map (fun c => if c.1 == l then (c.1, vals) else c) }
  else
    { df with cols := df.cols ++ [(l, vals)] }

/-- `df[l] = scalar`: broadcast a scalar over the index. -/
def setScalar (df : DataFrame) (l : String) (v : Value) : DataFrame :=
  setCol df l (List.replicate df.nrows v)

/-- `for col in names: if col not in df.columns: df[col] = pd.NA`. -/
def ensureCols (names : List String) (df : DataFrame) : DataFrame :=
  names.foldl (fun d nm => if hasCol d nm then d else setCol d nm (List.replicate d.nrows .na)) df

/-- Keep the cells whose mask entry is true (positional boolean mask). -/
def applyMask (mask : List Bool) (xs : List Value) : List Value :=
  (mask.zip xs).filterMap (fun p => if p.1 then some p.2 else none)

/-- `df[mask]`: keep the rows whose mask entry is true. -/
def maskRows (mask : List Bool) (df : DataFrame) : DataFrame :=
  { cols := df.cols.map (fun c => (c.1, applyMask mask c.2)), nrows := mask.count true }

/-- `df[names]`: column projection; a label matching several columns
yields all of them, in frame order, as pandas does. -/
def project (names : List String) (df : DataFrame) : DataFrame :=
  { cols := names.flatMap (fun l => df.cols.filter (fun c => c.1 == l)), nrows := df.nrows }

/-- `df.rename(columns={c: M[c] for c in df.columns if c in M})`: every
label is pushed through the alias table; unmapped labels survive.  Two
distinct labels mapping to the same canonical name yield two columns with
the same label (pandas does not merge them). -/
def aliasOf (m : List (String × String)) (l : String) : String :=
  (List.lookup l m).getD l

def applyAlias (m : List (String × String)) (df : DataFrame) : DataFrame :=
  { df with cols := df.cols.map (fun c => (aliasOf m c.1, c.2)) }

-- ---------------------------------------------------------------
-- helpers.py: column rules, validator, type coercion
-- ---------------------------------------------------------------

/-- `ColumnRule` from helpers.py. -/
structure ColumnRule where
  name : String
  required : Bool := true
deriving DecidableEq, Repr

/-- `_require_cols`: one advisory message per required rule whose field is
absent from the columns. -/
def requireCols (df : DataFrame) (rules : List ColumnRule) (table : String) : List String :=
  rules.filterMap (fun r =>
    if r.required && !(hasCol df r.name) then
      some ("[" ++ table ++ "] Missing required column: " ++ r.name)
    else none)

/-- `str(x)` combined with `.astype("string").fillna("")`: the string
representation of a cell, NA becoming the empty string.  The exact
spelling of floats and timestamps is irrelevant to every claim. -/
def pySafeStr : Value → String
  | .na => ""
  | .str s => s
  | .int n => toString n
  | .float q => toString q
  | .ts t => "ts " ++ toString t

/-- `_safe_str(col).str.strip()`. -/
def stripCol (xs : List Value) : List Value :=
  xs.map (fun v => .str (pyStrip (pySafeStr v)))

/-- `_safe_str(col).str.strip().str.upper()`. -/
def stripUpperCol (xs : List Value) : List Value :=
  xs.map (fun v => .str (pyUpper (pyStrip (pySafeStr v))))

/-- `_to_utc`'s `parse_one`: NA/blank parses to NaT; an existing
timezone-aware UTC timestamp stringifies and re-parses to the same
instant; anything else goes through the (total, caller-supplied) free-form
date parse, failure giving NaT.  The surrounding `try/except` of the
source is what makes the string case total. -/
def toUtc (dparse : String → Option Int) : Value → Value
  | .na => .na
  | .ts t => .ts t
  | v =>
    let s := pySafeStr v
    if pyStrip s = "" then .na
    else match dparse s with
      | some t => .ts t
      | none => .na

/-- `pd.to_numeric(_, errors="coerce")` on one cell: NA for
unparseable/missing, the number otherwise (datetimes coerce to their epoch
integer). -/
def toNumeric (nparse : String → Option Rat) : Value → Option Rat
  | .na => none
  | .int n => some (n : Rat)
  | .float q => some q
  | .str s => nparse s
  | .ts t => some (t : Rat)

/-- `float → int` truncation toward zero, as numpy `astype(int)` does. -/
def ratTrunc (q : Rat) : Int := if 0 ≤ q then ⌊q⌋ else ⌈q⌉

/-- `_to_int`: numeric-coerce, fill NA with the default, cast to int. -/
def toIntVal (nparse : String → Option Rat) (dflt : Int) (v : Value) : Value :=
  .int (match toNumeric nparse v with
        | none => dflt
        | some q => ratTrunc q)

/-- `_to_float`: numeric-coerce; NA stays NA. -/
def toFloatVal (nparse : String → Option Rat) (v : Value) : Value :=
  match toNumeric nparse v with
  | none => .na
  | some q => .float q

/-- `df[col] = _safe_str(df.get(col, empty_series)).str.strip()` (and its
variants with a different scalar clean `f`): with a unique column the
cells are cleaned; with the column absent, the cleaned empty default
Series aligns against the frame's index, leaving an all-NA column; a
duplicated label makes the `.str` accessor raise. -/
def optStrColWith (f : String → String) (df : DataFrame) (l : String) :
    Except String DataFrame :=
  match df.cols.filter (fun c => c.1 == l) with
  | [] => .ok (setCol df l (List.replicate df.nrows .na))
  | [c] => .ok (setCol df l (c.2.map (fun v => .str (f (pySafeStr v)))))
  | _ => .error (".str accessor on duplicated label: " ++ l)

/-- `if col in df.columns: df[col] = coerce(df[col]) else: df[col] = scalar`
(orders: order_revenue/currency/shipping_method; tracking: the two date
fields).  A present-but-duplicated column makes the Series-only coercion
raise. -/
def optCleanOrScalar (clean : List Value → List Value) (dflt : Value)
    (df : DataFrame) (l : String) : Except String DataFrame :=
  if hasCol df l then do
    let xs ← getSeries df l
    pure (setCol df l (clean xs))
  else pure (setScalar df l dflt)

/-- `col.str.len() > 0` on one cell (the cells are strings by the time the
pipelines filter; any other shape keeps the row out). -/
def keepNonEmptyStr (v : Value) : Bool :=
  match v with
  | .str s => decide (0 < s.length)
  | _ => false

/-- `df = df[df[l].str.len() > 0]`. -/
def filterNonEmptyStr (df : DataFrame) (l : String) : Except String DataFrame := do
  let vals ← getSeries df l
  pure (maskRows (vals.map keepNonEmptyStr) df)

-- ---------------------------------------------------------------
-- orders.py: Shopify detection, alias table, pipeline
-- ---------------------------------------------------------------

/-- The fixed 9-member Shopify signal set (orders.py lines 16-26). -/
def SHOPIFY_SIGNALS : List String :=
  ["name", "created at", "lineitem sku", "lineitem quantity", "variant sku",
   "shipping country", "shipping province", "financial status", "fulfillment status"]

/-- `detect_shopify_orders`: lowercase/trim the headers, score the overlap
with the signal set (set intersection, so duplicated headers count once),
succeed at score ≥ 3. -/
def detect_shopify_orders (raw_df : DataFrame) : Bool :=
  let df := lowerCols (cleanCols raw_df)
  let score := (SHOPIFY_SIGNALS.filter (fun s => (colNames df).contains s)).length
  decide (3 ≤ score)

/-- `SHOPIFY_COLUMN_MAP` (orders.py lines 31-60), in source order. -/
def SHOPIFY_COLUMN_MAP : List (String × String) :=
  [("name", "order_id"),
   ("order id", "order_id"),
   ("created at", "order_datetime_utc"),
   ("lineitem sku", "sku"),
   ("variant sku", "sku"),
   ("lineitem name", "sku"),
   ("lineitem quantity", "quantity_ordered"),
   ("quantity", "quantity_ordered"),
   ("shipping country", "customer_country"),
   ("shipping province", "customer_state"),
   ("total", "order_revenue"),
   ("subtotal", "order_revenue"),
   ("currency", "currency"),
   ("shipping method", "shipping_method"),
   ("shipping line title", "shipping_method")]

def ordersRequired : List ColumnRule :=
  [⟨"order_id", true⟩, ⟨"order_datetime_utc", true⟩, ⟨"sku", true⟩,
   ⟨"quantity_ordered", true⟩, ⟨"customer_country", true⟩]

def ORDERS_OUT_COLS : List String :=
  ["account_id", "store_id", "platform", "order_id", "order_datetime_utc",
   "sku", "quantity_ordered", "customer_country", "customer_state",
   "order_revenue", "currency", "shipping_method", "promised_ship_days"]

/-- `df.loc[df["quantity_ordered"] <= 0, "quantity_ordered"] = 1`. -/
def clampPos (v : Value) : Value :=
  match v with
  | .int n => .int (if n ≤ 0 then 1 else n)
  | x => x

/-- orders.py line 127: `col.str[:2].where(col.str.len() >= 2, col)`. -/
def condTrunc2 (v : Value) : Value :=
  match v with
  | .str s => .str (if 2 ≤ s.length then strTake 2 s else s)
  | x => x

/-- `normalize_orders` (orders.py lines 66-176), step for step.  `dparse`
and `nparse` are the free-form date and number parsers. -/
def normalize_orders (dparse : String → Option Int) (nparse : String → Option Rat)
    (raw_orders : Option DataFrame) (account_id store_id : String)
    (platform_hint : String := "shopify") (default_currency : String := "USD")
    (default_promised_ship_days : Int := 3) :
    Except String (DataFrame × List String) :=
  match raw_orders with
  | none => .ok (emptyDF, ["[orders] Input orders dataframe is empty."])
  | some raw =>
    if pdEmpty raw then
      .ok (emptyDF, ["[orders] Input orders dataframe is empty."])
    else do
      let df := lowerCols (cleanCols raw)
      let is_shopify := detect_shopify_orders raw || (pyLower platform_hint == "shopify")
      let df := if is_shopify then applyAlias SHOPIFY_COLUMN_MAP df else df
      let df := ensureCols (ordersRequired.map ColumnRule.name) df
      let df := setScalar df "account_id" (.str account_id)
      let df := setScalar df "store_id" (.str store_id)
      let df := setScalar df "platform"
        (.str (if is_shopify then "shopify" else pyOr platform_hint "other"))
      let oid ← getSeries df "order_id"
      let df := setCol df "order_id" (stripCol oid)
      let sk ← getSeries df "sku"
      let df := setCol df "sku" (stripUpperCol sk)
      let dt ← getSeries df "order_datetime_utc"
      let df := setCol df "order_datetime_utc" (dt.map (toUtc dparse))
      let qty ← getSeries df "quantity_ordered"
      let df := setCol df "quantity_ordered" (qty.map (toIntVal nparse 1))
      let qty2 ← getSeries df "quantity_ordered"
      let df := setCol df "quantity_ordered" (qty2.map clampPos)
      let cc ← getSeries df "customer_country"
      let df := setCol df "customer_country" (stripUpperCol cc)
      let cc2 ← getSeries df "customer_country"
      let df := setCol df "customer_country" (cc2.map condTrunc2)
      let df ← optStrColWith pyStrip df "customer_state"
      let df ← optCleanOrScalar (fun rv => rv.map (toFloatVal nparse)) .na df "order_revenue"
      let df ← optCleanOrScalar stripUpperCol (.str default_currency) df "currency"
      let df ← optCleanOrScalar stripCol (.str "") df "shipping_method"
      let df := setScalar df "promised_ship_days" (.int default_promised_ship_days)
      let errors : List String := [] ++ requireCols df ordersRequired "orders"
      let df ← filterNonEmptyStr df "order_id"
      let df ← filterNonEmptyStr df "sku"
      let df := ensureCols ORDERS_OUT_COLS df
      pure (project ORDERS_OUT_COLS df, errors)

-- ---------------------------------------------------------------
-- shipments.py
-- ---------------------------------------------------------------

/-- `rename_candidates` (shipments.py lines 28-65), in source order. -/
def shipmentsRenameCandidates : List (String × String) :=
  [("supplier", "supplier_name"),
   ("supplier name", "supplier_name"),
   ("vendor", "supplier_name"),
   ("supplier order id", "supplier_order_id"),
   ("supplier_order_id", "supplier_order_id"),
   ("po", "supplier_order_id"),
   ("purchase order", "supplier_order_id"),
   ("order id", "order_id"),
   ("order_id", "order_id"),
   ("shopify order id", "order_id"),
   ("name", "order_id"),
   ("sku", "sku"),
   ("item sku", "sku"),
   ("lineitem sku", "sku"),
   ("quantity", "quantity_shipped"),
   ("qty", "quantity_shipped"),
   ("quantity shipped", "quantity_shipped"),
   ("ship date", "ship_datetime_utc"),
   ("shipped at", "ship_datetime_utc"),
   ("ship_datetime_utc", "ship_datetime_utc"),
   ("shipment date", "ship_datetime_utc"),
   ("carrier", "carrier"),
   ("tracking", "tracking_number"),
   ("tracking number", "tracking_number"),
   ("tracking_number", "tracking_number"),
   ("from country", "ship_from_country"),
   ("ship from country", "ship_from_country"),
   ("to country", "ship_to_country"),
   ("ship to country", "ship_to_country")]

def shipmentsRequired : List ColumnRule :=
  [⟨"supplier_name", true⟩, ⟨"supplier_order_id", true⟩, ⟨"sku", true⟩,
   ⟨"quantity_shipped", true⟩, ⟨"ship_datetime_utc", true⟩]

def SHIPMENTS_OUT_COLS : List String :=
  ["account_id", "store_id", "supplier_name", "supplier_order_id", "order_id",
   "sku", "quantity_shipped", "ship_datetime_utc", "carrier", "tracking_number",
   "ship_from_country", "ship_to_country"]

/-- shipments.py lines 98-99: strip, uppercase, unconditional `[:2]`. -/
def shipCountryClean (s : String) : String := strTake 2 (pyUpper (pyStrip s))

/-- shipments.py line 87: strip, then `Series.replace("", "Unknown Supplier")`. -/
def supplierNameClean (s : String) : String :=
  if pyStrip s = "" then "Unknown Supplier" else pyStrip s

/-- `normalize_shipments` (shipments.py lines 9-126), step for step. -/
def normalize_shipments (dparse : String → Option Int) (nparse : String → Option Rat)
    (raw_shipments : Option DataFrame) (account_id store_id : String) :
    Except String (DataFrame × List String) :=
  match raw_shipments with
  | none => .ok (emptyDF, ["[shipments] Input shipments dataframe is empty."])
  | some raw =>
    if pdEmpty raw then
      .ok (emptyDF, ["[shipments] Input shipments dataframe is empty."])
    else do
      let df := lowerCols (cleanCols raw)
      let df := applyAlias shipmentsRenameCandidates df
      let df := ensureCols (shipmentsRequired.map ColumnRule.name) df
      let df := setScalar df "account_id" (.str account_id)
      let df := setScalar df "store_id" (.str store_id)
      let sn ← getSeries df "supplier_name"
      let df := setCol df "supplier_name"
        (sn.map (fun v => .str (supplierNameClean (pySafeStr v))))
      let so ← getSeries df "supplier_order_id"
      let df := setCol df "supplier_order_id" (stripCol so)
      let df ← optStrColWith pyStrip df "order_id"
      let sk ← getSeries df "sku"
      let df := setCol df "sku" (stripUpperCol sk)
      let qs ← getSeries df "quantity_shipped"
      let df := setCol df "quantity_shipped" (qs.map (toIntVal nparse 0))
      let sd ← getSeries df "ship_datetime_utc"
      let df := setCol df "ship_datetime_utc" (sd.map (toUtc dparse))
      let df ← optStrColWith pyStrip df "carrier"
      let df ← optStrColWith pyStrip df "tracking_number"
      let df ← optStrColWith shipCountryClean df "ship_from_country"
      let df ← optStrColWith shipCountryClean df "ship_to_country"
      let errors : List String := [] ++ requireCols df shipmentsRequired "shipments"
      let df ← filterNonEmptyStr df "supplier_order_id"
      let df ← filterNonEmptyStr df "sku"
      let df := ensureCols SHIPMENTS_OUT_COLS df
      pure (project SHIPMENTS_OUT_COLS df, errors)

-- ---------------------------------------------------------------
-- tracking.py
-- ---------------------------------------------------------------

/-- `rename_candidates` (tracking.py lines 28-52), in source order. -/
def trackingRenameCandidates : List (String × String) :=
  [("carrier", "carrier"),
   ("tracking number", "tracking_number"),
   ("tracking", "tracking_number"),
   ("tracking_number", "tracking_number"),
   ("order id", "order_id"),
   ("supplier order id", "supplier_order_id"),
   ("status", "tracking_status_raw"),
   ("tracking status", "tracking_status_raw"),
   ("tracking_status_raw", "tracking_status_raw"),
   ("last update", "last_update_utc"),
   ("last updated", "last_update_utc"),
   ("last_update_utc", "last_update_utc"),
   ("delivered at", "delivery_date_utc"),
   ("delivered", "delivery_date_utc"),
   ("delivery date", "delivery_date_utc"),
   ("delivery_date_utc", "delivery_date_utc"),
   ("exception", "delivery_exception"),
   ("delivery exception", "delivery_exception")]

def trackingRequired : List ColumnRule := [⟨"tracking_number", true⟩]

def TRACKING_OUT_COLS : List String :=
  ["account_id", "store_id", "carrier", "tracking_number", "order_id",
   "supplier_order_id", "tracking_status_raw", "tracking_status_normalized",
   "last_update_utc", "delivery_date_utc", "delivery_exception"]

/-- `normalize_tracking` (tracking.py lines 9-111), step for step.  Note
the empty-input short-circuit returns an empty validation report. -/
def normalize_tracking (dparse : String → Option Int)
    (raw_tracking : Option DataFrame) (account_id store_id : String) :
    Except String (DataFrame × List String) :=
  match raw_tracking with
  | none => .ok (emptyDF, [])
  | some raw =>
    if pdEmpty raw then
      .ok (emptyDF, [])
    else do
      let df := lowerCols (cleanCols raw)
      let df := applyAlias trackingRenameCandidates df
      let df := ensureCols (trackingRequired.map ColumnRule.name) df
      let df := setScalar df "account_id" (.str account_id)
      let df := setScalar df "store_id" (.str store_id)
      let df ← optStrColWith pyStrip df "carrier"
      let tn ← getSeries df "tracking_number"
      let df := setCol df "tracking_number" (stripCol tn)
      let df ← optStrColWith pyStrip df "order_id"
      let df ← optStrColWith pyStrip df "supplier_order_id"
      let df ← optStrColWith pyStrip df "tracking_status_raw"
      let df ← optStrColWith pyStrip df "tracking_status_normalized"
      let df ← optCleanOrScalar (fun lu => lu.map (toUtc dparse)) .na df "last_update_utc"
      let df ← optCleanOrScalar (fun dd => dd.map (toUtc dparse)) .na df "delivery_date_utc"
      let df ← optStrColWith pyStrip df "delivery_exception"
      let errors : List String := [] ++ requireCols df trackingRequired "tracking"
      let df ← filterNonEmptyStr df "tracking_number"
      let df := ensureCols TRACKING_OUT_COLS df
      pure (project TRACKING_OUT_COLS df, errors)

-- ---------------------------------------------------------------
-- Concrete parser instances for closed evaluations (any total
-- functions are admissible instantiations of the free-form parsers)
-- ---------------------------------------------------------------

def noDate : String → Option Int := fun _ => none

def noNum : String → Option Rat := fun _ => none

/-- The label `l` selects exactly the single column `(l, xs)`. -/
def SCol (df : DataFrame) (l : String) (xs : List Value) : Prop :=
  df.cols.filter (fun c => c.1 == l) = [(l, xs)]

/-- The label `l` selects no column. -/
def NoColL (df : DataFrame) (l : String) : Prop :=
  df.cols.filter (fun c => c.1 == l) = []

/-- Spec-side restatement of Shopify detection (spec section 4.2): the
header set is intersected, as a finite set, with the fixed signal set and
the intersection's cardinality compared with 3. -/
def specShopifyDetect (raw_df : DataFrame) : Bool :=
  let hs : Finset String := (colNames (lowerCols (cleanCols raw_df))).toFinset
  decide (3 ≤ (SHOPIFY_SIGNALS.toFinset ∩ hs).card)

/-- A label admits at most one column. -/
def UniqueLab (df : DataFrame) (l : String) : Prop :=
  (∃ xs, SCol df l xs) ∨ NoColL df l

/-- The exact shape of a successful orders run's output: the canonical 13
columns in canonical order, tenant/config columns broadcast. -/
def ordersOut (a s p : String) (days : Int) (n : Nat)
    (oid dt sk qty cc cs rev curv sm : List Value) : DataFrame :=
  ⟨[("account_id", List.replicate n (.str a)),
    ("store_id", List.replicate n (.str s)),
    ("platform", List.replicate n (.str p)),
    ("order_id", oid),
    ("order_datetime_utc", dt),
    ("sku", sk),
    ("quantity_ordered", qty),
    ("customer_country", cc),
    ("customer_state", cs),
    ("order_revenue", rev),
    ("currency", curv),
    ("shipping_method", sm),
    ("promised_ship_days", List.replicate n (.int days))], n⟩

/-- The exact shape of a successful shipments run's output. -/
def shipmentsOut (a s : String) (n : Nat)
    (sn so oid sk qty sdt carr tn fc tc : List Value) : DataFrame :=
  ⟨[("account_id", List.replicate n (.str a)),
    ("store_id", List.replicate n (.str s)),
    ("supplier_name", sn),
    ("supplier_order_id", so),
    ("order_id", oid),
    ("sku", sk),
    ("quantity_shipped", qty),
    ("ship_datetime_utc", sdt),
    ("carrier", carr),
    ("tracking_number", tn),
    ("ship_from_country", fc),
    ("ship_to_country", tc)], n⟩

/-- The exact shape of a successful tracking run's output. -/
def trackingOut (a s : String) (n : Nat)
    (carr tn oid so traw tnorm lu dd de : List Value) : DataFrame :=
  ⟨[("account_id", List.replicate n (.str a)),
    ("store_id", List.replicate n (.str s)),
    ("carrier", carr),
    ("tracking_number", tn),
    ("order_id", oid),
    ("supplier_order_id", so),
    ("tracking_status_raw", traw),
    ("tracking_status_normalized", tnorm),
    ("last_update_utc", lu),
    ("delivery_date_utc", dd),
    ("delivery_exception", de)], n⟩

-- ---------------------------------------------------------------
-- Lemma kit: Python string primitives
-- ---------------------------------------------------------------

theorem dropWhile_idem (p : α → Bool) (l : List α) :
    (l.dropWhile p).dropWhile p = l.dropWhile p := by
  induction l with
  | nil => rfl
  | cons a t ih =>
    rw [List.dropWhile_cons]
    split
    · exact ih
    · rename_i h
      rw [List.dropWhile_cons, if_neg h]

theorem dropWhile_head_false {p : α → Bool} {l : List α} {a : α} {t : List α}
    (h : l.dropWhile p = a :: t) : p a = false := by
  induction l with
  | nil => simp at h
  | cons x xs ih =>
    rw [List.dropWhile_cons] at h
    split at h
    · exact ih h
    · rename_i hx
      cases h
      simpa using hx

theorem pyStripList_idem (l : List Char) : pyStripList (pyStripList l) = pyStripList l := by
  unfold pyStripList
  set w := Char.isWhitespace
  set A := l.dropWhile w with hA
  set B := A.reverse.dropWhile w with hB
  have hdropB : B.reverse.dropWhile w = B.reverse := by
    cases hBr : B.reverse with
    | nil => simp
    | cons a t =>
      have hsuff : B <:+ A.reverse := hB ▸ List.dropWhile_suffix w
      obtain ⟨u, hu⟩ := hsuff
      have hAeq : A = a :: (t ++ u.reverse) := by
        have : A = B.reverse ++ u.reverse := by
          have := congrArg List.reverse hu
          simpa [List.reverse_append] using this.symm
        rw [this, hBr]; simp
      have : w a = false := dropWhile_head_false (hA.symm ▸ hAeq)
      rw [List.dropWhile_cons, if_neg (by simp [this])]
  rw [hdropB, List.reverse_reverse, hB, dropWhile_idem]

theorem pyStrip_idem (s : String) : pyStrip (pyStrip s) = pyStrip s :=
  String.ext (pyStripList_idem s.data)

theorem pyStrip_empty : pyStrip "" = "" := rfl

theorem upChar_toNat (c : Char) :
    (upChar c).toNat = if 97 ≤ c.toNat ∧ c.toNat ≤ 122 then c.toNat - 32 else c.toNat := by
  unfold upChar
  split <;> rfl

theorem upChar_eq_self {c : Char} (h : ¬(97 ≤ c.toNat ∧ c.toNat ≤ 122)) : upChar c = c := by
  unfold upChar
  rw [dif_neg h]

theorem upChar_idem (c : Char) : upChar (upChar c) = upChar c := by
  by_cases h : 97 ≤ c.toNat ∧ c.toNat ≤ 122
  · apply upChar_eq_self
    rw [upChar_toNat, if_pos h]
    omega
  · simp [upChar_eq_self h]

theorem char_ne_of_toNat_ne {c d : Char} (h : c.toNat ≠ d.toNat) : c ≠ d :=
  fun e => h (by rw [e])

theorem isWhitespace_upChar (c : Char) : (upChar c).isWhitespace = c.isWhitespace := by
  by_cases h : 97 ≤ c.toNat ∧ c.toNat ≤ 122
  · have hc : (upChar c).toNat = c.toNat - 32 := by rw [upChar_toNat, if_pos h]
    have h1 : upChar c ≠ ' ' := char_ne_of_toNat_ne (by rw [hc]; show _ ≠ 32; omega)
    have h2 : upChar c ≠ '\t' := char_ne_of_toNat_ne (by rw [hc]; show _ ≠ 9; omega)
    have h3 : upChar c ≠ '\x0d' := char_ne_of_toNat_ne (by rw [hc]; show _ ≠ 13; omega)
    have h4 : upChar c ≠ '\n' := char_ne_of_toNat_ne (by rw [hc]; show _ ≠ 10; omega)
    have g1 : c ≠ ' ' := char_ne_of_toNat_ne (by show _ ≠ 32; omega)
    have g2 : c ≠ '\t' := char_ne_of_toNat_ne (by show _ ≠ 9; omega)
    have g3 : c ≠ '\x0d' := char_ne_of_toNat_ne (by show _ ≠ 13; omega)
    have g4 : c ≠ '\n' := char_ne_of_toNat_ne (by show _ ≠ 10; omega)
    simp [Char.isWhitespace, h1, h2, h3, h4, g1, g2, g3, g4]
  · rw [upChar_eq_self h]

theorem pyUpper_idem (s : String) : pyUpper (pyUpper s) = pyUpper s := by
  apply String.ext
  show (s.data.map upChar).map upChar = s.data.map upChar
  rw [List.map_map]
  exact List.map_congr_left (fun a _ => upChar_idem a)

theorem pyStripList_map_upChar (l : List Char) :
    pyStripList (l.map upChar) = (pyStripList l).map upChar := by
  unfold pyStripList
  have hdw : ∀ m : List Char,
      (m.map upChar).dropWhile Char.isWhitespace =
      (m.dropWhile Char.isWhitespace).map upChar := by
    intro m
    rw [List.dropWhile_map]
    have : (Char.isWhitespace ∘ upChar) = Char.isWhitespace :=
      funext fun c => isWhitespace_upChar c
    rw [this]
  rw [hdw, ← List.map_reverse, hdw, List.map_reverse]

theorem pyStrip_pyUpper (s : String) : pyStrip (pyUpper s) = pyUpper (pyStrip s) :=
  String.ext (pyStripList_map_upChar s.data)

theorem pyUpper_strTake (n : Nat) (s : String) :
    pyUpper (strTake n s) = strTake n (pyUpper s) :=
  String.ext (List.map_take upChar s.data n)

theorem strTake_length (n : Nat) (s : String) :
    (strTake n s).length = min n s.length := by
  show (s.data.take n).length = _
  simp

theorem strTake_of_le {n : Nat} {s : String} (h : s.length ≤ n) : strTake n s = s :=
  String.ext (List.take_of_length_le h)

theorem pyUpper_length (s : String) : (pyUpper s).length = s.length := by
  show (s.data.map upChar).length = s.data.length
  simp

-- ---------------------------------------------------------------
-- Lemma kit: DataFrame operations
-- ---------------------------------------------------------------

theorem getSeries_of_SCol {df : DataFrame} {l : String} {xs : List Value}
    (h : SCol df l xs) : getSeries df l = .ok xs := by
  unfold getSeries
  rw [h]

theorem getSeries_ok_SCol {df : DataFrame} {l : String} {xs : List Value}
    (h : getSeries df l = .ok xs) : SCol df l xs := by
  unfold getSeries at h
  unfold SCol
  rcases hf : df.cols.filter (fun c => c.1 == l) with _ | ⟨c, _ | ⟨d, t⟩⟩ <;> rw [hf] at h
  · simp at h
  · have hc : c ∈ df.cols.filter (fun c => c.1 == l) := by rw [hf]; simp
    have hcl : c.1 = l := by simpa using (List.mem_filter.mp hc).2
    have hc2 : c = (l, c.2) := by rw [← hcl]
    cases h
    rw [hf, hc2]
  · simp at h

theorem mem_colNames_iff {df : DataFrame} {l : String} :
    l ∈ colNames df ↔ ∃ c ∈ df.cols, c.1 = l := by
  unfold colNames
  simp [List.mem_map]

theorem hasCol_of_SCol {df : DataFrame} {l : String} {xs : List Value}
    (h : SCol df l xs) : hasCol df l = true := by
  have hm : (l, xs) ∈ df.cols.filter (fun c => c.1 == l) := by rw [h]; simp
  have hmem : (l, xs) ∈ df.cols := (List.mem_filter.mp hm).1
  have : l ∈ colNames df := mem_colNames_iff.mpr ⟨(l, xs), hmem, rfl⟩
  simpa [hasCol] using this

theorem hasCol_of_NoColL {df : DataFrame} {l : String}
    (h : NoColL df l) : hasCol df l = false := by
  have : l ∉ colNames df := by
    intro hmem
    obtain ⟨c, hc, hcl⟩ := mem_colNames_iff.mp hmem
    have : c ∈ df.cols.filter (fun c => c.1 == l) := List.mem_filter.mpr ⟨hc, by simp [hcl]⟩
    rw [h] at this
    simp at this
  simpa [hasCol] using this

theorem anyLabel_of_SCol {df : DataFrame} {l : String} {xs : List Value}
    (h : SCol df l xs) : df.cols.any (fun c => c.1 == l) = true := by
  have hm : (l, xs) ∈ df.cols.filter (fun c => c.1 == l) := by rw [h]; simp
  have hmem : (l, xs) ∈ df.cols := (List.mem_filter.mp hm).1
  exact List.any_eq_true.mpr ⟨(l, xs), hmem, by simp⟩

theorem anyLabel_of_NoColL {df : DataFrame} {l : String}
    (h : NoColL df l) : df.cols.any (fun c => c.1 == l) = false := by
  rw [List.any_eq_false]
  intro c hc hcl
  have : c ∈ df.cols.filter (fun c => c.1 == l) := List.mem_filter.mpr ⟨hc, hcl⟩
  rw [h] at this
  simp at this

theorem filter_label_map {cols : List (String × List Value)} {l : String}
    (f : String × List Value → String × List Value) (hf : ∀ c, (f c).1 = c.1) :
    (cols.map f).filter (fun c => c.1 == l) = (cols.filter (fun c => c.1 == l)).map f := by
  rw [List.filter_map]
  have : ((fun c : String × List Value => c.1 == l) ∘ f) =
      (fun c : String × List Value => c.1 == l) := by
    funext c
    simp [Function.comp, hf]
  rw [this]

theorem SCol_setCol_self {df : DataFrame} {l : String} {xs : List Value}
    (h : SCol df l xs) (ys : List Value) : SCol (setCol df l ys) l ys := by
  unfold SCol setCol
  rw [if_pos (anyLabel_of_SCol h)]
  show (df.cols.map (fun c => if c.1 == l then (c.1, ys) else c)).filter (fun c => c.1 == l) = _
  rw [filter_label_map _ (fun c => by by_cases hc : c.1 = l <;> simp [hc]), h]
  simp

theorem NoColL_setCol_self {df : DataFrame} {l : String}
    (h : NoColL df l) (ys : List Value) : SCol (setCol df l ys) l ys := by
  unfold SCol setCol
  rw [if_neg (by simp [anyLabel_of_NoColL h])]
  show (df.cols ++ [(l, ys)]).filter (fun c => c.1 == l) = _
  rw [List.filter_append, h]
  simp

theorem SCol_setCol_ne {df : DataFrame} {l l' : String} {xs : List Value}
    (hne : l' ≠ l) (h : SCol df l xs) (ys : List Value) : SCol (setCol df l' ys) l xs := by
  unfold SCol setCol
  split
  · show (df.cols.map (fun c => if c.1 == l' then (c.1, ys) else c)).filter (fun c => c.1 == l) = _
    rw [filter_label_map _ (fun c => by by_cases hc : c.1 = l' <;> simp [hc]), h]
    have hll : ¬((l : String) == l') = true := by simpa using fun e => hne e.symm
    simp [hll]
    exact fun e => (hne e.symm).elim
  · show (df.cols ++ [(l', ys)]).filter (fun c => c.1 == l) = _
    rw [List.filter_append, h]
    have hll : ¬((l' : String) == l) = true := by simpa using hne
    simp [hll]

theorem NoColL_setCol_ne {df : DataFrame} {l l' : String}
    (hne : l' ≠ l) (h : NoColL df l) (ys : List Value) : NoColL (setCol df l' ys) l := by
  unfold NoColL setCol
  split
  · show (df.cols.map (fun c => if c.1 == l' then (c.1, ys) else c)).filter (fun c => c.1 == l) = _
    rw [filter_label_map _ (fun c => by by_cases hc : c.1 = l' <;> simp [hc]), h]
    simp
  · show (df.cols ++ [(l', ys)]).filter (fun c => c.1 == l) = _
    rw [List.filter_append, h]
    have hll : ¬((l' : String) == l) = true := by simpa using hne
    simp [hll]

theorem nrows_setCol (df : DataFrame) (l : String) (ys : List Value) :
    (setCol df l ys).nrows = df.nrows := by
  unfold setCol
  split <;> rfl

theorem nrows_setScalar (df : DataFrame) (l : String) (v : Value) :
    (setScalar df l v).nrows = df.nrows := nrows_setCol ..

theorem SCol_ensureCols {df : DataFrame} {l : String} {xs : List Value}
    (names : List String) (h : SCol df l xs) : SCol (ensureCols names df) l xs := by
  induction names generalizing df with
  | nil => exact h
  | cons nm rest ih =>
    show SCol (ensureCols rest (if hasCol df nm then df else _)) l xs
    split
    · exact ih h
    · rename_i hnm
      have hne : nm ≠ l := by
        rintro rfl
        rw [hasCol_of_SCol h] at hnm
        exact hnm rfl
      exact ih (SCol_setCol_ne hne h _)

theorem nrows_ensureCols (names : List String) (df : DataFrame) :
    (ensureCols names df).nrows = df.nrows := by
  induction names generalizing df with
  | nil => rfl
  | cons nm rest ih =>
    show (ensureCols rest (if hasCol df nm then df else _)).nrows = _
    split
    · exact ih df
    · rw [ih, nrows_setCol]

theorem NoColL_ensureCols_mem {df : DataFrame} {l : String}
    (names : List String) (h : NoColL df l) (hm : l ∈ names) :
    SCol (ensureCols names df) l (List.replicate df.nrows .na) := by
  induction names generalizing df with
  | nil => simp at hm
  | cons nm rest ih =>
    show SCol (ensureCols rest (if hasCol df nm then df else _)) l _
    by_cases he : nm = l
    · subst he
      rw [if_neg (by simp [hasCol_of_NoColL h])]
      exact SCol_ensureCols rest (NoColL_setCol_self h _)
    · have hm2 : l ∈ rest := by
        rcases List.mem_cons.mp hm with h1 | h1
        · exact absurd h1.symm he
        · exact h1
      split
      · exact ih h hm2
      · have hrec := ih (NoColL_setCol_ne he h (List.replicate df.nrows .na)) hm2
        rwa [nrows_setCol] at hrec

theorem NoColL_ensureCols_not_mem {df : DataFrame} {l : String}
    (names : List String) (h : NoColL df l) (hm : l ∉ names) :
    NoColL (ensureCols names df) l := by
  induction names generalizing df with
  | nil => exact h
  | cons nm rest ih =>
    show NoColL (ensureCols rest (if hasCol df nm then df else _)) l
    have hne : nm ≠ l := fun e => hm (by simp [e])
    have hrest : l ∉ rest := fun e => hm (by simp [e])
    split
    · exact ih h hrest
    · exact ih (NoColL_setCol_ne hne h _) hrest

theorem SCol_maskRows {df : DataFrame} {l : String} {xs : List Value}
    (h : SCol df l xs) (m : List Bool) : SCol (maskRows m df) l (applyMask m xs) := by
  unfold SCol maskRows
  show (df.cols.map (fun c => (c.1, applyMask m c.2))).filter (fun c => c.1 == l) = _
  rw [filter_label_map (fun c => (c.1, applyMask m c.2)) (fun c => rfl), h]
  simp

theorem NoColL_maskRows {df : DataFrame} {l : String}
    (h : NoColL df l) (m : List Bool) : NoColL (maskRows m df) l := by
  unfold NoColL maskRows
  show (df.cols.map (fun c => (c.1, applyMask m c.2))).filter (fun c => c.1 == l) = _
  rw [filter_label_map (fun c => (c.1, applyMask m c.2)) (fun c => rfl), h]
  simp

theorem optStrColWith_of_SCol {df : DataFrame} {l : String} {xs : List Value}
    (f : String → String) (h : SCol df l xs) :
    optStrColWith f df l = .ok (setCol df l (xs.map (fun v => .str (f (pySafeStr v))))) := by
  unfold optStrColWith
  rw [h]

theorem optStrColWith_of_NoColL {df : DataFrame} {l : String}
    (f : String → String) (h : NoColL df l) :
    optStrColWith f df l = .ok (setCol df l (List.replicate df.nrows .na)) := by
  unfold optStrColWith
  rw [h]

theorem optStrColWith_ok_cases {f : String → String} {df df' : DataFrame} {l : String}
    (h : optStrColWith f df l = .ok df') :
    (∃ xs, SCol df l xs ∧ df' = setCol df l (xs.map (fun v => .str (f (pySafeStr v))))) ∨
    (NoColL df l ∧ df' = setCol df l (List.replicate df.nrows .na)) := by
  unfold optStrColWith at h
  rcases hf : df.cols.filter (fun c => c.1 == l) with _ | ⟨c, _ | ⟨d, t⟩⟩ <;> rw [hf] at h
  · right
    exact ⟨hf, by cases h; rfl⟩
  · left
    have hc : c ∈ df.cols.filter (fun c => c.1 == l) := by rw [hf]; simp
    have hcl : c.1 = l := by simpa using (List.mem_filter.mp hc).2
    refine ⟨c.2, ?_, by cases h; rfl⟩
    unfold SCol
    rw [hf, ← hcl]
  · simp at h

theorem filterNonEmptyStr_of_SCol {df : DataFrame} {l : String} {xs : List Value}
    (h : SCol df l xs) :
    filterNonEmptyStr df l = .ok (maskRows (xs.map keepNonEmptyStr) df) := by
  unfold filterNonEmptyStr
  rw [getSeries_of_SCol h]
  rfl

theorem filterNonEmptyStr_ok_cases {df df' : DataFrame} {l : String}
    (h : filterNonEmptyStr df l = .ok df') :
    ∃ xs, SCol df l xs ∧ df' = maskRows (xs.map keepNonEmptyStr) df := by
  unfold filterNonEmptyStr at h
  rcases hg : getSeries df l with e | xs <;> rw [hg] at h
  · simp [Bind.bind, Except.bind] at h
  · refine ⟨xs, getSeries_ok_SCol hg, ?_⟩
    simpa [Bind.bind, Except.bind, pure, Except.pure] using h.symm

-- ---------------------------------------------------------------
-- Lemma kit: masks and cell stability
-- ---------------------------------------------------------------

theorem applyMask_cons_true (t : List Bool) (x : Value) (u : List Value) :
    applyMask (true :: t) (x :: u) = x :: applyMask t u := by
  unfold applyMask
  rw [List.zip_cons_cons, List.filterMap_cons]
  simp

theorem applyMask_cons_false (t : List Bool) (x : Value) (u : List Value) :
    applyMask (false :: t) (x :: u) = applyMask t u := by
  unfold applyMask
  rw [List.zip_cons_cons, List.filterMap_cons]
  simp

theorem applyMask_nil_left (xs : List Value) : applyMask [] xs = [] := rfl

theorem applyMask_nil_right (m : List Bool) : applyMask m [] = [] := by
  unfold applyMask
  simp

theorem applyMask_sub {m : List Bool} {xs : List Value} {v : Value}
    (h : v ∈ applyMask m xs) : v ∈ xs := by
  induction m generalizing xs with
  | nil => simp [applyMask_nil_left] at h
  | cons b t ih =>
    cases xs with
    | nil => rw [applyMask_nil_right] at h; simp at h
    | cons x u =>
      cases b with
      | false =>
        rw [applyMask_cons_false] at h
        exact List.mem_cons_of_mem x (ih h)
      | true =>
        rw [applyMask_cons_true] at h
        rcases List.mem_cons.mp h with rfl | h2
        · simp
        · exact List.mem_cons_of_mem x (ih h2)

theorem applyMask_map_pred {p : Value → Bool} {xs : List Value} {v : Value}
    (h : v ∈ applyMask (xs.map p) xs) : p v = true := by
  induction xs with
  | nil => simp [applyMask_nil_left] at h
  | cons x t ih =>
    rw [List.map_cons] at h
    cases hp : p x with
    | false =>
      rw [hp, applyMask_cons_false] at h
      exact ih h
    | true =>
      rw [hp, applyMask_cons_true] at h
      rcases List.mem_cons.mp h with rfl | h2
      · exact hp
      · exact ih h2

theorem applyMask_all_true {m : List Bool} {xs : List Value}
    (hall : ∀ b ∈ m, b = true) (hlen : m.length = xs.length) :
    applyMask m xs = xs := by
  induction m generalizing xs with
  | nil =>
    cases xs
    · rfl
    · simp at hlen
  | cons b t ih =>
    cases xs with
    | nil => simp at hlen
    | cons x u =>
      have hb : b = true := hall b (by simp)
      subst hb
      rw [applyMask_cons_true]
      rw [ih (fun c hc => hall c (by simp [hc])) (by simpa using hlen)]

theorem applyMask_length {m : List Bool} {xs : List Value}
    (hlen : m.length = xs.length) :
    (applyMask m xs).length = m.count true := by
  induction m generalizing xs with
  | nil => simp [applyMask_nil_left]
  | cons b t ih =>
    cases xs with
    | nil => simp at hlen
    | cons x u =>
      have hrec := @ih u (by simpa using hlen)
      cases b with
      | false =>
        rw [applyMask_cons_false, hrec]
        simp [List.count_cons]
      | true =>
        rw [applyMask_cons_true, List.length_cons, hrec]
        simp [List.count_cons]

theorem map_fix {f : Value → Value} {xs : List Value}
    (h : ∀ v ∈ xs, f v = v) : xs.map f = xs := by
  rw [List.map_congr_left h]
  simp

-- ---------------------------------------------------------------
-- Lemma kit: cell shapes and stability of the per-field cleanups
-- ---------------------------------------------------------------

theorem stripCol_cells {xs : List Value} {v : Value} (h : v ∈ stripCol xs) :
    ∃ s, v = .str s ∧ pyStrip s = s := by
  obtain ⟨w, _, rfl⟩ := List.mem_map.mp h
  exact ⟨_, rfl, pyStrip_idem _⟩

theorem stripCol_fix {xs : List Value}
    (h : ∀ v ∈ xs, ∃ s, v = .str s ∧ pyStrip s = s) : stripCol xs = xs := by
  apply map_fix
  intro v hv
  obtain ⟨s, rfl, hs⟩ := h v hv
  simp [pySafeStr, stripCol, hs]

theorem stripUpperCol_cells {xs : List Value} {v : Value} (h : v ∈ stripUpperCol xs) :
    ∃ s, v = .str s ∧ pyStrip s = s ∧ pyUpper s = s := by
  obtain ⟨w, _, rfl⟩ := List.mem_map.mp h
  refine ⟨_, rfl, ?_, ?_⟩
  · rw [pyStrip_pyUpper, pyStrip_idem]
  · rw [pyUpper_idem]

theorem stripUpperCol_fix {xs : List Value}
    (h : ∀ v ∈ xs, ∃ s, v = .str s ∧ pyStrip s = s ∧ pyUpper s = s) :
    stripUpperCol xs = xs := by
  apply map_fix
  intro v hv
  obtain ⟨s, rfl, hs, hu⟩ := h v hv
  simp [pySafeStr, hs, hu]

theorem toUtc_shape (dparse : String → Option Int) (w : Value) :
    (∃ t, toUtc dparse w = .ts t) ∨ toUtc dparse w = .na := by
  rcases w with _ | s | n | q | t
  · right; rfl
  · simp only [toUtc]
    split
    · right; rfl
    · split
      · left; exact ⟨_, rfl⟩
      · right; rfl
  · simp only [toUtc]
    split
    · right; rfl
    · split
      · left; exact ⟨_, rfl⟩
      · right; rfl
  · simp only [toUtc]
    split
    · right; rfl
    · split
      · left; exact ⟨_, rfl⟩
      · right; rfl
  · left; exact ⟨t, rfl⟩

theorem toUtc_cells {dparse : String → Option Int} {xs : List Value} {v : Value}
    (h : v ∈ xs.map (toUtc dparse)) : (∃ t, v = .ts t) ∨ v = .na := by
  obtain ⟨w, _, rfl⟩ := List.mem_map.mp h
  exact toUtc_shape dparse w

theorem toUtc_fix {dparse : String → Option Int} {xs : List Value}
    (h : ∀ v ∈ xs, (∃ t, v = .ts t) ∨ v = .na) : xs.map (toUtc dparse) = xs := by
  apply map_fix
  intro v hv
  rcases h v hv with ⟨t, rfl⟩ | rfl <;> rfl

theorem ratTrunc_intCast (n : Int) : ratTrunc (n : Rat) = n := by
  unfold ratTrunc
  split <;> simp

theorem toIntVal_cells {nparse : String → Option Rat} {d : Int} {xs : List Value} {v : Value}
    (h : v ∈ xs.map (toIntVal nparse d)) : ∃ n, v = .int n := by
  obtain ⟨w, _, rfl⟩ := List.mem_map.mp h
  exact ⟨_, rfl⟩

theorem toIntVal_fix {nparse : String → Option Rat} {d : Int} {xs : List Value}
    (h : ∀ v ∈ xs, ∃ n, v = .int n) : xs.map (toIntVal nparse d) = xs := by
  apply map_fix
  intro v hv
  obtain ⟨n, rfl⟩ := h v hv
  simp [toIntVal, toNumeric, ratTrunc_intCast]

theorem clampPos_cells {xs : List Value} {v : Value}
    (hx : ∀ w ∈ xs, ∃ n, w = .int n) (h : v ∈ xs.map clampPos) :
    ∃ n, v = .int n ∧ 1 ≤ n := by
  obtain ⟨w, hw, rfl⟩ := List.mem_map.mp h
  obtain ⟨n, rfl⟩ := hx w hw
  simp only [clampPos]
  refine ⟨_, rfl, ?_⟩
  split <;> omega

theorem clampPos_fix {xs : List Value}
    (h : ∀ v ∈ xs, ∃ n, v = .int n ∧ 1 ≤ n) : xs.map clampPos = xs := by
  apply map_fix
  intro v hv
  obtain ⟨n, rfl, hn⟩ := h v hv
  simp only [clampPos, Value.int.injEq]
  rw [if_neg (by omega)]

theorem condTrunc2_cells {xs : List Value} {v : Value}
    (hx : ∀ w ∈ xs, ∃ s, w = .str s ∧ pyUpper s = s) (h : v ∈ xs.map condTrunc2) :
    ∃ s, v = .str s ∧ pyUpper s = s ∧ s.length ≤ 2 := by
  obtain ⟨w, hw, rfl⟩ := List.mem_map.mp h
  obtain ⟨s, rfl, hu⟩ := hx w hw
  simp only [condTrunc2]
  split
  · refine ⟨_, rfl, ?_, ?_⟩
    · rw [pyUpper_strTake, hu]
    · rw [strTake_length]
      omega
  · rename_i hlen
    exact ⟨_, rfl, hu, by omega⟩

theorem condTrunc2_fix {xs : List Value}
    (h : ∀ v ∈ xs, ∃ s, v = .str s ∧ s.length ≤ 2) : xs.map condTrunc2 = xs := by
  apply map_fix
  intro v hv
  obtain ⟨s, rfl, hs⟩ := h v hv
  simp only [condTrunc2]
  split
  · rw [strTake_of_le hs]
  · rfl

theorem toFloatVal_cells {nparse : String → Option Rat} {xs : List Value} {v : Value}
    (h : v ∈ xs.map (toFloatVal nparse)) : (∃ q, v = .float q) ∨ v = .na := by
  obtain ⟨w, _, rfl⟩ := List.mem_map.mp h
  unfold toFloatVal
  split <;> simp

theorem toFloatVal_fix {nparse : String → Option Rat} {xs : List Value}
    (h : ∀ v ∈ xs, (∃ q, v = .float q) ∨ v = .na) : xs.map (toFloatVal nparse) = xs := by
  apply map_fix
  intro v hv
  rcases h v hv with ⟨q, rfl⟩ | rfl <;> rfl

theorem supplierClean_cells {xs : List Value} {v : Value}
    (h : v ∈ xs.map (fun v => Value.str (supplierNameClean (pySafeStr v)))) :
    ∃ s, v = .str s ∧ pyStrip s = s ∧ s ≠ "" := by
  obtain ⟨w, _, rfl⟩ := List.mem_map.mp h
  unfold supplierNameClean
  split
  · exact ⟨_, rfl, by decide, by decide⟩
  · rename_i hne
    exact ⟨_, rfl, pyStrip_idem _, hne⟩

theorem supplierClean_fix {xs : List Value}
    (h : ∀ v ∈ xs, ∃ s, v = .str s ∧ pyStrip s = s ∧ s ≠ "") :
    xs.map (fun v => Value.str (supplierNameClean (pySafeStr v))) = xs := by
  apply map_fix
  intro v hv
  obtain ⟨s, rfl, hs, hne⟩ := h v hv
  simp [pySafeStr, supplierNameClean, hs, hne]

theorem shipCountry_cells {xs : List Value} {v : Value}
    (h : v ∈ xs.map (fun v => Value.str (shipCountryClean (pySafeStr v)))) :
    ∃ s, v = .str s ∧ pyUpper s = s ∧ s.length ≤ 2 := by
  obtain ⟨w, _, rfl⟩ := List.mem_map.mp h
  unfold shipCountryClean
  refine ⟨_, rfl, ?_, ?_⟩
  · rw [pyUpper_strTake, pyUpper_idem]
  · rw [strTake_length]
    omega

theorem shipCountry_fix {xs : List Value}
    (h : ∀ v ∈ xs, ∃ s, v = .str s ∧ pyStrip s = s ∧ pyUpper s = s ∧ s.length ≤ 2) :
    xs.map (fun v => Value.str (shipCountryClean (pySafeStr v))) = xs := by
  apply map_fix
  intro v hv
  obtain ⟨s, rfl, hs, hu, hlen⟩ := h v hv
  simp [pySafeStr, shipCountryClean, hs, hu, strTake_of_le hlen]

-- ---------------------------------------------------------------
-- Lemma kit: the alias step and detection (for C7/C8)
-- ---------------------------------------------------------------

theorem aliasOf_shopify_sku (l : String) :
    aliasOf SHOPIFY_COLUMN_MAP l = "sku" ↔
    (l = "lineitem sku" ∨ l = "variant sku" ∨ l = "lineitem name" ∨ l = "sku") := by
  unfold aliasOf SHOPIFY_COLUMN_MAP
  simp only [List.lookup]
  repeat' split
  all_goals simp_all

theorem colNames_applyAlias (m : List (String × String)) (df : DataFrame) :
    colNames (applyAlias m df) = (colNames df).map (aliasOf m) := by
  unfold colNames applyAlias
  simp [List.map_map, Function.comp]

theorem aliasAll_sku_count (names : List String) :
    (names.map (aliasOf SHOPIFY_COLUMN_MAP)).count "sku" =
    names.count "lineitem sku" + names.count "variant sku" +
    names.count "lineitem name" + names.count "sku" := by
  induction names with
  | nil => rfl
  | cons l t ih =>
    rw [List.map_cons, List.count_cons, List.count_cons, List.count_cons,
      List.count_cons, List.count_cons, ih]
    by_cases h : aliasOf SHOPIFY_COLUMN_MAP l = "sku"
    · rcases (aliasOf_shopify_sku l).mp h with rfl | rfl | rfl | rfl <;>
        simp [aliasOf, SHOPIFY_COLUMN_MAP, List.lookup] <;> omega
    · have hd := (aliasOf_shopify_sku l).not.mp h
      push_neg at hd
      obtain ⟨h1, h2, h3, h4⟩ := hd
      simp [h, h1, h2, h3, h4]

theorem shopifySignals_nodup : SHOPIFY_SIGNALS.Nodup := by decide

theorem detect_eq_spec (raw : DataFrame) :
    detect_shopify_orders raw = specShopifyDetect raw := by
  simp only [detect_shopify_orders, specShopifyDetect]
  set ns := colNames (lowerCols (cleanCols raw))
  have h2 : (SHOPIFY_SIGNALS.filter (fun s => ns.contains s)).toFinset =
      SHOPIFY_SIGNALS.toFinset ∩ ns.toFinset := by
    rw [List.toFinset_filter]
    ext x
    simp [List.elem_iff]
  have h1 : (SHOPIFY_SIGNALS.filter (fun s => ns.contains s)).length =
      (SHOPIFY_SIGNALS.toFinset ∩ ns.toFinset).card := by
    rw [← h2, List.toFinset_card_of_nodup (shopifySignals_nodup.filter _)]
  rw [h1]

-- ---------------------------------------------------------------
-- Lemma kit: Except inversion, presence monotonicity, projection
-- ---------------------------------------------------------------

theorem bind_ok_iff {ε α β : Type} {x : Except ε α} {f : α → Except ε β} {b : β} :
    (x >>= f) = .ok b ↔ ∃ a, x = .ok a ∧ f a = .ok b := by
  cases x with
  | error e => simp [Bind.bind, Except.bind]
  | ok a => simp [Bind.bind, Except.bind]

theorem pure_ok_iff {ε α : Type} {a b : α} :
    (pure a : Except ε α) = .ok b ↔ a = b := by
  simp [pure, Except.pure]

theorem SCol_unique {df : DataFrame} {l : String} {xs ys : List Value}
    (h1 : SCol df l xs) (h2 : SCol df l ys) : xs = ys := by
  unfold SCol at h1 h2
  rw [h1] at h2
  simpa using h2

theorem NoColL_of_hasCol_false {df : DataFrame} {l : String}
    (h : hasCol df l = false) : NoColL df l := by
  unfold NoColL
  rw [List.filter_eq_nil_iff]
  intro c hc hcl
  have hlm : l ∈ colNames df := mem_colNames_iff.mpr ⟨c, hc, by simpa using hcl⟩
  simp [hasCol, hlm] at h

theorem optCleanOrScalar_ok_cases {clean : List Value → List Value} {dflt : Value}
    {df df' : DataFrame} {l : String}
    (h : optCleanOrScalar clean dflt df l = .ok df') :
    (∃ xs, SCol df l xs ∧ df' = setCol df l (clean xs)) ∨
    (NoColL df l ∧ df' = setCol df l (List.replicate df.nrows dflt)) := by
  unfold optCleanOrScalar at h
  split at h
  · rw [bind_ok_iff] at h
    obtain ⟨xs, hxs, hp⟩ := h
    rw [pure_ok_iff] at hp
    exact Or.inl ⟨xs, getSeries_ok_SCol hxs, hp.symm⟩
  · rw [pure_ok_iff] at h
    rename_i hnc
    exact Or.inr ⟨NoColL_of_hasCol_false (by simpa using hnc), h.symm⟩

theorem optCleanOrScalar_of_SCol {clean : List Value → List Value} {dflt : Value}
    {df : DataFrame} {l : String} {xs : List Value} (h : SCol df l xs) :
    optCleanOrScalar clean dflt df l = .ok (setCol df l (clean xs)) := by
  unfold optCleanOrScalar
  rw [if_pos (hasCol_of_SCol h)]
  rw [getSeries_of_SCol h]
  rfl

theorem optCleanOrScalar_of_NoColL {clean : List Value → List Value} {dflt : Value}
    {df : DataFrame} {l : String} (h : NoColL df l) :
    optCleanOrScalar clean dflt df l = .ok (setCol df l (List.replicate df.nrows dflt)) := by
  unfold optCleanOrScalar
  rw [if_neg (by simp [hasCol_of_NoColL h])]
  rfl

theorem colNames_setCol_cases (df : DataFrame) (l : String) (ys : List Value) :
    colNames (setCol df l ys) = colNames df ∨
    colNames (setCol df l ys) = colNames df ++ [l] := by
  unfold setCol
  split
  · left
    unfold colNames
    show (df.cols.map _).map _ = _
    rw [List.map_map]
    apply List.map_congr_left
    intro c _
    by_cases hc : c.1 = l <;> simp [Function.comp, hc]
  · right
    unfold colNames
    simp

theorem hasCol_setCol_mono {df : DataFrame} {l : String}
    (h : hasCol df l = true) (l' : String) (ys : List Value) :
    hasCol (setCol df l' ys) l = true := by
  have hm : l ∈ colNames df := by simpa [hasCol] using h
  rcases colNames_setCol_cases df l' ys with he | he <;>
    simp [hasCol, he, hm]

theorem colNames_maskRows (m : List Bool) (df : DataFrame) :
    colNames (maskRows m df) = colNames df := by
  unfold colNames maskRows
  show (df.cols.map _).map _ = _
  rw [List.map_map]
  rfl

theorem hasCol_maskRows {df : DataFrame} {l : String} (m : List Bool) :
    hasCol (maskRows m df) l = hasCol df l := by
  simp [hasCol, colNames_maskRows]

theorem hasCol_ensureCols_mono {df : DataFrame} {l : String}
    (names : List String) (h : hasCol df l = true) :
    hasCol (ensureCols names df) l = true := by
  induction names generalizing df with
  | nil => exact h
  | cons nm rest ih =>
    show hasCol (ensureCols rest (if hasCol df nm then df else _)) l = true
    split
    · exact ih h
    · exact ih (hasCol_setCol_mono h _ _)

theorem hasCol_ensureCols_mem {df : DataFrame} {l : String}
    (names : List String) (hm : l ∈ names) :
    hasCol (ensureCols names df) l = true := by
  induction names generalizing df with
  | nil => simp at hm
  | cons nm rest ih =>
    show hasCol (ensureCols rest (if hasCol df nm then df else _)) l = true
    by_cases he : nm = l
    · subst he
      by_cases hc : hasCol df nm = true
      · rw [if_pos hc]
        exact hasCol_ensureCols_mono rest hc
      · rw [if_neg hc]
        refine hasCol_ensureCols_mono rest ?_
        have : NoColL df nm := NoColL_of_hasCol_false (by simpa using hc)
        exact hasCol_of_SCol (NoColL_setCol_self this _)
    · have hm2 : l ∈ rest := by
        rcases List.mem_cons.mp hm with h1 | h1
        · exact absurd h1.symm he
        · exact h1
      split
      · exact ih hm2
      · exact ih hm2

theorem filter_filter_ne {cols : List (String × List Value)} {l m : String}
    (hne : m ≠ l) :
    (cols.filter (fun c => c.1 == m)).filter (fun c => c.1 == l) = [] := by
  rw [List.filter_eq_nil_iff]
  intro c hc hcl
  have h1 : c.1 = m := by simpa using (List.mem_filter.mp hc).2
  have h2 : c.1 = l := by simpa using hcl
  exact hne (h1 ▸ h2)

theorem project_filter_not_mem {df : DataFrame} {l : String} {names : List String}
    (hm : ∀ m ∈ names, m ≠ l) :
    (project names df).cols.filter (fun c => c.1 == l) = [] := by
  unfold project
  induction names with
  | nil => rfl
  | cons nm rest ih =>
    show ((df.cols.filter (fun c => c.1 == nm)) ++ _).filter _ = []
    rw [List.filter_append, filter_filter_ne (hm nm (by simp)),
      List.nil_append]
    exact ih (fun m hmem => hm m (by simp [hmem]))

theorem SCol_project {df : DataFrame} {l : String} {xs : List Value}
    {names : List String} (h : SCol df l xs) (hm : l ∈ names)
    (hnd : names.Nodup) : SCol (project names df) l xs := by
  unfold SCol
  induction names with
  | nil => simp at hm
  | cons nm rest ih =>
    show ((df.cols.filter (fun c => c.1 == nm)) ++
      (project rest df).cols).filter _ = _
    rw [List.filter_append]
    by_cases he : nm = l
    · subst he
      have hrest : ∀ m ∈ rest, m ≠ nm :=
        fun m hmem heq => (List.nodup_cons.mp hnd).1 (heq ▸ hmem)
      rw [project_filter_not_mem hrest]
      unfold SCol at h
      rw [h, List.filter_cons]
      simp
    · have hm2 : l ∈ rest := by
        rcases List.mem_cons.mp hm with h1 | h1
        · exact absurd h1.symm he
        · exact h1
      rw [filter_filter_ne he, List.nil_append]
      exact ih hm2 (List.nodup_cons.mp hnd).2

theorem nrows_project (names : List String) (df : DataFrame) :
    (project names df).nrows = df.nrows := rfl

theorem uniqueLab_of_nodup {df : DataFrame} (hnd : (colNames df).Nodup)
    (l : String) : (∃ xs, SCol df l xs) ∨ NoColL df l := by
  rcases hf : df.cols.filter (fun c => c.1 == l) with _ | ⟨c, _ | ⟨d, t⟩⟩
  · exact Or.inr hf
  · left
    have hc : c ∈ df.cols.filter (fun c => c.1 == l) := by rw [hf]; simp
    have hcl : c.1 = l := by simpa using (List.mem_filter.mp hc).2
    have hc2 : c = (l, c.2) := by rw [← hcl]
    exact ⟨c.2, by unfold SCol; rw [hf, hc2]⟩
  · exfalso
    have hsub : List.Sublist ((df.cols.filter (fun c => c.1 == l)).map Prod.fst)
        (df.cols.map Prod.fst) := (List.filter_sublist _).map Prod.fst
    have hcount : ((df.cols.filter (fun c => c.1 == l)).map Prod.fst).count l ≤
        (df.cols.map Prod.fst).count l := hsub.count_le l
    have hcl : c.1 = l ∧ d.1 = l := by
      have hc : c ∈ df.cols.filter (fun c => c.1 == l) := by rw [hf]; simp
      have hd : d ∈ df.cols.filter (fun c => c.1 == l) := by rw [hf]; simp
      exact ⟨by simpa using (List.mem_filter.mp hc).2,
        by simpa using (List.mem_filter.mp hd).2⟩
    rw [hf] at hcount
    simp only [List.map_cons, List.count_cons, hcl.1, hcl.2] at hcount
    have hle1 : (colNames df).count l ≤ 1 :=
      List.nodup_iff_count_le_one.mp hnd l
    unfold colNames at hle1
    simp at hcount
    omega

theorem count_true_of_all {m : List Bool} (h : ∀ b ∈ m, b = true) :
    m.count true = m.length := by
  induction m with
  | nil => rfl
  | cons b t ih =>
    have hb : b = true := h b (by simp)
    subst hb
    rw [List.count_cons]
    simp [ih (fun c hc => h c (by simp [hc]))]

theorem maskRows_all_true {m : List Bool} {df : DataFrame}
    (hall : ∀ b ∈ m, b = true) (hlen : m.length = df.nrows) (hwf : df.WF) :
    maskRows m df = df := by
  unfold maskRows
  rcases df with ⟨cols, n⟩
  simp only [DataFrame.mk.injEq]
  constructor
  · have : ∀ c ∈ cols, (fun c => (c.1, applyMask m c.2)) c = c := by
      intro c hc
      have hclen : c.2.length = n := hwf c hc
      simp [applyMask_all_true hall (by rw [hlen]; exact hclen.symm)]
    rw [List.map_congr_left this]
    simp
  · rw [count_true_of_all hall, hlen]

-- ---------------------------------------------------------------
-- Lemma kit: well-formedness transport
-- ---------------------------------------------------------------

theorem WF_lowerCols {df : DataFrame} (h : df.WF) : (lowerCols df).WF := by
  intro c hc
  obtain ⟨c0, hc0, rfl⟩ := List.mem_map.mp hc
  exact h c0 hc0

theorem WF_cleanCols {df : DataFrame} (h : df.WF) : (cleanCols df).WF := by
  intro c hc
  obtain ⟨c0, hc0, rfl⟩ := List.mem_map.mp hc
  exact h c0 hc0

theorem WF_applyAlias {df : DataFrame} (m : List (String × String)) (h : df.WF) :
    (applyAlias m df).WF := by
  intro c hc
  obtain ⟨c0, hc0, rfl⟩ := List.mem_map.mp hc
  exact h c0 hc0

theorem WF_setCol {df : DataFrame} {l : String} {ys : List Value}
    (h : df.WF) (hlen : ys.length = df.nrows) : (setCol df l ys).WF := by
  intro c hc
  rw [nrows_setCol]
  unfold setCol at hc
  split at hc
  · obtain ⟨c0, hc0, rfl⟩ := List.mem_map.mp hc
    by_cases he : c0.1 = l <;> simp [he]
    · exact hlen
    · exact h c0 hc0
  · rcases List.mem_append.mp hc with h1 | h1
    · exact h c h1
    · simp at h1
      rw [h1]
      exact hlen

theorem WF_setScalar {df : DataFrame} (l : String) (v : Value) (h : df.WF) :
    (setScalar df l v).WF :=
  WF_setCol h (by simp)

theorem WF_ensureCols {df : DataFrame} (names : List String) (h : df.WF) :
    (ensureCols names df).WF := by
  induction names generalizing df with
  | nil => exact h
  | cons nm rest ih =>
    show (ensureCols rest (if hasCol df nm then df else _)).WF
    split
    · exact ih h
    · exact ih (WF_setCol h (by simp))

theorem WF_maskRows {df : DataFrame} {m : List Bool}
    (h : df.WF) (hlen : m.length = df.nrows) : (maskRows m df).WF := by
  intro c hc
  obtain ⟨c0, hc0, rfl⟩ := List.mem_map.mp hc
  show (applyMask m c0.2).length = m.count true
  exact applyMask_length (by rw [hlen, h c0 hc0])

theorem WF_project {df : DataFrame} (names : List String) (h : df.WF) :
    (project names df).WF := by
  intro c hc
  unfold project at hc
  simp only at hc
  obtain ⟨l, _, hmem⟩ := List.mem_flatMap.mp hc
  exact h c (List.mem_filter.mp hmem).1

theorem SCol_length {df : DataFrame} {l : String} {xs : List Value}
    (h : SCol df l xs) (hwf : df.WF) : xs.length = df.nrows := by
  have hm : (l, xs) ∈ df.cols.filter (fun c => c.1 == l) := by rw [h]; simp
  exact hwf (l, xs) (List.mem_filter.mp hm).1

theorem SCol_optStr_ne {f : String → String} {df df' : DataFrame} {l l0 : String}
    {xs : List Value} (h : optStrColWith f df l = .ok df') (hne : l ≠ l0)
    (hs : SCol df l0 xs) : SCol df' l0 xs := by
  rcases optStrColWith_ok_cases h with ⟨ys, _, rfl⟩ | ⟨_, rfl⟩ <;>
    exact SCol_setCol_ne hne hs _

theorem SCol_optClean_ne {clean : List Value → List Value} {dflt : Value}
    {df df' : DataFrame} {l l0 : String} {xs : List Value}
    (h : optCleanOrScalar clean dflt df l = .ok df') (hne : l ≠ l0)
    (hs : SCol df l0 xs) : SCol df' l0 xs := by
  rcases optCleanOrScalar_ok_cases h with ⟨ys, _, rfl⟩ | ⟨_, rfl⟩ <;>
    exact SCol_setCol_ne hne hs _

theorem nrows_optStr {f : String → String} {df df' : DataFrame} {l : String}
    (h : optStrColWith f df l = .ok df') : df'.nrows = df.nrows := by
  rcases optStrColWith_ok_cases h with ⟨ys, _, rfl⟩ | ⟨_, rfl⟩ <;>
    exact nrows_setCol ..

theorem nrows_optClean {clean : List Value → List Value} {dflt : Value}
    {df df' : DataFrame} {l : String}
    (h : optCleanOrScalar clean dflt df l = .ok df') : df'.nrows = df.nrows := by
  rcases optCleanOrScalar_ok_cases h with ⟨ys, _, rfl⟩ | ⟨_, rfl⟩ <;>
    exact nrows_setCol ..

-- ---------------------------------------------------------------
-- Lemma kit: unique labels, WF through the optional steps
-- ---------------------------------------------------------------

theorem uniqueLab_nodup {df : DataFrame} (hnd : (colNames df).Nodup)
    (l : String) : UniqueLab df l := uniqueLab_of_nodup hnd l

theorem UniqueLab_setCol_self {df : DataFrame} {l : String}
    (h : UniqueLab df l) (ys : List Value) : SCol (setCol df l ys) l ys := by
  rcases h with ⟨xs, hs⟩ | hn
  · exact SCol_setCol_self hs ys
  · exact NoColL_setCol_self hn ys

theorem UniqueLab_setCol_ne {df : DataFrame} {l l' : String}
    (hne : l' ≠ l) (h : UniqueLab df l) (ys : List Value) :
    UniqueLab (setCol df l' ys) l := by
  rcases h with ⟨xs, hs⟩ | hn
  · exact Or.inl ⟨xs, SCol_setCol_ne hne hs ys⟩
  · exact Or.inr (NoColL_setCol_ne hne hn ys)

theorem UniqueLab_ensureCols {df : DataFrame} {l : String}
    (names : List String) (h : UniqueLab df l) : UniqueLab (ensureCols names df) l := by
  rcases h with ⟨xs, hs⟩ | hn
  · exact Or.inl ⟨xs, SCol_ensureCols names hs⟩
  · by_cases hm : l ∈ names
    · exact Or.inl ⟨_, NoColL_ensureCols_mem names hn hm⟩
    · exact Or.inr (NoColL_ensureCols_not_mem names hn hm)

theorem UniqueLab_optStr_ne {f : String → String} {df df' : DataFrame} {l l0 : String}
    (h : optStrColWith f df l = .ok df') (hne : l ≠ l0) (hu : UniqueLab df l0) :
    UniqueLab df' l0 := by
  rcases optStrColWith_ok_cases h with ⟨ys, _, rfl⟩ | ⟨_, rfl⟩ <;>
    exact UniqueLab_setCol_ne hne hu _

theorem UniqueLab_optClean_ne {clean : List Value → List Value} {dflt : Value}
    {df df' : DataFrame} {l l0 : String}
    (h : optCleanOrScalar clean dflt df l = .ok df') (hne : l ≠ l0)
    (hu : UniqueLab df l0) : UniqueLab df' l0 := by
  rcases optCleanOrScalar_ok_cases h with ⟨ys, _, rfl⟩ | ⟨_, rfl⟩ <;>
    exact UniqueLab_setCol_ne hne hu _

theorem WF_optStr {f : String → String} {df df' : DataFrame} {l : String}
    (h : optStrColWith f df l = .ok df') (hwf : df.WF) : df'.WF := by
  rcases optStrColWith_ok_cases h with ⟨ys, hys, rfl⟩ | ⟨_, rfl⟩
  · exact WF_setCol hwf (by rw [List.length_map]; exact SCol_length hys hwf)
  · exact WF_setCol hwf (by simp)

theorem WF_optClean {clean : List Value → List Value} {dflt : Value}
    {df df' : DataFrame} {l : String}
    (h : optCleanOrScalar clean dflt df l = .ok df')
    (hwf : df.WF) (hclean : ∀ xs : List Value, (clean xs).length = xs.length) :
    df'.WF := by
  rcases optCleanOrScalar_ok_cases h with ⟨ys, hys, rfl⟩ | ⟨_, rfl⟩
  · exact WF_setCol hwf (by rw [hclean]; exact SCol_length hys hwf)
  · exact WF_setCol hwf (by simp)

theorem colNames_project_of_SCol {df : DataFrame} {names : List String}
    (h : ∀ l ∈ names, ∃ xs, SCol df l xs) :
    colNames (project names df) = names := by
  induction names with
  | nil => rfl
  | cons nm rest ih =>
    obtain ⟨xs, hxs⟩ := h nm (by simp)
    show ((df.cols.filter (fun c => c.1 == nm)) ++
      (project rest df).cols).map Prod.fst = nm :: rest
    rw [hxs]
    simp only [List.map_append, List.map_cons, List.map_nil, List.cons_append,
      List.nil_append]
    rw [show (project rest df).cols.map Prod.fst = rest from
      ih (fun l hl => h l (by simp [hl]))]

-- ---------------------------------------------------------------
-- Pipeline run characterizations (tier 1: no uniqueness assumptions)
-- ---------------------------------------------------------------

/-- Successful non-empty orders runs: empty report, and the emitted
`order_id`/`sku` columns hold non-empty strings (no nodup assumption). -/
theorem orders_ok_core {dp : String → Option Int} {np : String → Option Rat}
    {raw : DataFrame} {a s hint cur : String} {days : Int} {out : DataFrame} {rep : List String}
    (hne : pdEmpty raw = false)
    (h : normalize_orders dp np (some raw) a s hint cur days = .ok (out, rep)) :
    rep = [] ∧
    ∃ oidF skF, SCol out "order_id" oidF ∧ SCol out "sku" skF ∧
      (∀ v ∈ oidF, ∃ t, v = .str t ∧ 0 < t.length) ∧
      (∀ v ∈ skF, ∃ t, v = .str t ∧ 0 < t.length) := by
  unfold normalize_orders at h
  simp only [hne, Bool.false_eq_true, if_false, setScalar, bind_ok_iff, pure_ok_iff,
    Prod.mk.injEq] at h
  obtain ⟨oid, h1, sk, h2, dt, h3, qty, h4, qty2, h5, cc, h6, cc2, h7,
    dfH, h8, dfI, h9, dfJ, h10, dfK, h11, dfM, h12, dfN, h13, hout, hrep⟩ := h
  -- order_id column facts, pushed forward to the filter step
  have s1 := getSeries_ok_SCol h1
  have s2 := SCol_setCol_self s1 (stripCol oid)
  have s3 := SCol_setCol_ne (show "sku" ≠ "order_id" by decide) s2 (stripUpperCol sk)
  have s4 := SCol_setCol_ne (show "order_datetime_utc" ≠ "order_id" by decide) s3
    (dt.map (toUtc dp))
  have s5 := SCol_setCol_ne (show "quantity_ordered" ≠ "order_id" by decide) s4
    (qty.map (toIntVal np 1))
  have s6 := SCol_setCol_ne (show "quantity_ordered" ≠ "order_id" by decide) s5
    (qty2.map clampPos)
  have s7 := SCol_setCol_ne (show "customer_country" ≠ "order_id" by decide) s6
    (stripUpperCol cc)
  have s8 := SCol_setCol_ne (show "customer_country" ≠ "order_id" by decide) s7
    (cc2.map condTrunc2)
  have s9 := SCol_optStr_ne h8 (show "customer_state" ≠ "order_id" by decide) s8
  have s10 := SCol_optClean_ne h9 (show "order_revenue" ≠ "order_id" by decide) s9
  have s11 := SCol_optClean_ne h10 (show "currency" ≠ "order_id" by decide) s10
  have s12 := SCol_optClean_ne h11 (show "shipping_method" ≠ "order_id" by decide) s11
  have s13 := SCol_setCol_ne (show "promised_ship_days" ≠ "order_id" by decide) s12
    (List.replicate dfK.nrows (Value.int days))
  -- sku column facts
  have t1 := getSeries_ok_SCol h2
  have t2 := SCol_setCol_self t1 (stripUpperCol sk)
  have t3 := SCol_setCol_ne (show "order_datetime_utc" ≠ "sku" by decide) t2
    (dt.map (toUtc dp))
  have t4 := SCol_setCol_ne (show "quantity_ordered" ≠ "sku" by decide) t3
    (qty.map (toIntVal np 1))
  have t5 := SCol_setCol_ne (show "quantity_ordered" ≠ "sku" by decide) t4
    (qty2.map clampPos)
  have t6 := SCol_setCol_ne (show "customer_country" ≠ "sku" by decide) t5
    (stripUpperCol cc)
  have t7 := SCol_setCol_ne (show "customer_country" ≠ "sku" by decide) t6
    (cc2.map condTrunc2)
  have t8 := SCol_optStr_ne h8 (show "customer_state" ≠ "sku" by decide) t7
  have t9 := SCol_optClean_ne h9 (show "order_revenue" ≠ "sku" by decide) t8
  have t10 := SCol_optClean_ne h10 (show "currency" ≠ "sku" by decide) t9
  have t11 := SCol_optClean_ne h11 (show "shipping_method" ≠ "sku" by decide) t10
  have t12 := SCol_setCol_ne (show "promised_ship_days" ≠ "sku" by decide) t11
    (List.replicate dfK.nrows (Value.int days))
  -- presence of the remaining required columns at the validated frame
  have c1 := getSeries_ok_SCol h3
  have c2 := SCol_setCol_self c1 (dt.map (toUtc dp))
  have c3 := SCol_setCol_ne (show "quantity_ordered" ≠ "order_datetime_utc" by decide) c2
    (qty.map (toIntVal np 1))
  have c4 := SCol_setCol_ne (show "quantity_ordered" ≠ "order_datetime_utc" by decide) c3
    (qty2.map clampPos)
  have c5 := SCol_setCol_ne (show "customer_country" ≠ "order_datetime_utc" by decide) c4
    (stripUpperCol cc)
  have c6 := SCol_setCol_ne (show "customer_country" ≠ "order_datetime_utc" by decide) c5
    (cc2.map condTrunc2)
  have c7 := SCol_optStr_ne h8 (show "customer_state" ≠ "order_datetime_utc" by decide) c6
  have c8 := SCol_optClean_ne h9 (show "order_revenue" ≠ "order_datetime_utc" by decide) c7
  have c9 := SCol_optClean_ne h10 (show "currency" ≠ "order_datetime_utc" by decide) c8
  have c10 := SCol_optClean_ne h11 (show "shipping_method" ≠ "order_datetime_utc" by decide) c9
  have c11 := SCol_setCol_ne (show "promised_ship_days" ≠ "order_datetime_utc" by decide) c10
    (List.replicate dfK.nrows (Value.int days))
  have q1 := getSeries_ok_SCol h5
  have q2 := SCol_setCol_self q1 (qty2.map clampPos)
  have q3 := SCol_setCol_ne (show "customer_country" ≠ "quantity_ordered" by decide) q2
    (stripUpperCol cc)
  have q4 := SCol_setCol_ne (show "customer_country" ≠ "quantity_ordered" by decide) q3
    (cc2.map condTrunc2)
  have q5 := SCol_optStr_ne h8 (show "customer_state" ≠ "quantity_ordered" by decide) q4
  have q6 := SCol_optClean_ne h9 (show "order_revenue" ≠ "quantity_ordered" by decide) q5
  have q7 := SCol_optClean_ne h10 (show "currency" ≠ "quantity_ordered" by decide) q6
  have q8 := SCol_optClean_ne h11 (show "shipping_method" ≠ "quantity_ordered" by decide) q7
  have q9 := SCol_setCol_ne (show "promised_ship_days" ≠ "quantity_ordered" by decide) q8
    (List.replicate dfK.nrows (Value.int days))
  have g1 := getSeries_ok_SCol h7
  have g2 := SCol_setCol_self g1 (cc2.map condTrunc2)
  have g3 := SCol_optStr_ne h8 (show "customer_state" ≠ "customer_country" by decide) g2
  have g4 := SCol_optClean_ne h9 (show "order_revenue" ≠ "customer_country" by decide) g3
  have g5 := SCol_optClean_ne h10 (show "currency" ≠ "customer_country" by decide) g4
  have g6 := SCol_optClean_ne h11 (show "shipping_method" ≠ "customer_country" by decide) g5
  have g7 := SCol_setCol_ne (show "promised_ship_days" ≠ "customer_country" by decide) g6
    (List.replicate dfK.nrows (Value.int days))
  -- the report is empty
  have hreq : rep = [] := by
    rw [← hrep]
    simp [requireCols, ordersRequired, hasCol_of_SCol s13, hasCol_of_SCol t12,
      hasCol_of_SCol c11, hasCol_of_SCol q9, hasCol_of_SCol g7]
  refine ⟨hreq, ?_⟩
  -- row filters
  obtain ⟨xs1, hxs1, rfl⟩ := filterNonEmptyStr_ok_cases h12
  have hx1 : xs1 = stripCol oid := SCol_unique hxs1 s13
  subst hx1
  have s14 := SCol_maskRows s13 ((stripCol oid).map keepNonEmptyStr)
  have t13 := SCol_maskRows t12 ((stripCol oid).map keepNonEmptyStr)
  obtain ⟨xs2, hxs2, rfl⟩ := filterNonEmptyStr_ok_cases h13
  have hx2 : xs2 = applyMask ((stripCol oid).map keepNonEmptyStr) (stripUpperCol sk) :=
    SCol_unique hxs2 t13
  subst hx2
  have s15 := SCol_maskRows s14
    ((applyMask ((stripCol oid).map keepNonEmptyStr) (stripUpperCol sk)).map keepNonEmptyStr)
  have t14 := SCol_maskRows t13
    ((applyMask ((stripCol oid).map keepNonEmptyStr) (stripUpperCol sk)).map keepNonEmptyStr)
  have s16 := SCol_ensureCols ORDERS_OUT_COLS s15
  have t15 := SCol_ensureCols ORDERS_OUT_COLS t14
  have s17 := SCol_project s16 (List.mem_of_elem_eq_true (by decide) : _ ∈ ORDERS_OUT_COLS) (by decide)
  have t16 := SCol_project t15 (List.mem_of_elem_eq_true (by decide) : _ ∈ ORDERS_OUT_COLS) (by decide)
  rw [hout] at s17 t16
  refine ⟨_, _, s17, t16, ?_, ?_⟩
  · intro v hv
    have hp := applyMask_map_pred (applyMask_sub hv)
    obtain ⟨t, rfl, _⟩ := stripCol_cells (applyMask_sub (applyMask_sub hv))
    refine ⟨t, rfl, ?_⟩
    simpa [keepNonEmptyStr] using hp
  · intro v hv
    have hp := applyMask_map_pred hv
    obtain ⟨t, rfl, _, _⟩ := stripUpperCol_cells (applyMask_sub (applyMask_sub hv))
    refine ⟨t, rfl, ?_⟩
    simpa [keepNonEmptyStr] using hp


/-- Successful non-empty shipments runs: empty report, the emitted
`supplier_order_id`/`sku` columns hold non-empty strings, and the emitted
`quantity_shipped` column holds integers (no nodup assumption). -/
theorem shipments_ok_core {dp : String → Option Int} {np : String → Option Rat}
    {raw : DataFrame} {a s : String} {out : DataFrame} {rep : List String}
    (hne : pdEmpty raw = false)
    (h : normalize_shipments dp np (some raw) a s = .ok (out, rep)) :
    rep = [] ∧
    ∃ soF skF qF, SCol out "supplier_order_id" soF ∧ SCol out "sku" skF ∧
      SCol out "quantity_shipped" qF ∧
      (∀ v ∈ soF, ∃ t, v = .str t ∧ 0 < t.length) ∧
      (∀ v ∈ skF, ∃ t, v = .str t ∧ 0 < t.length) ∧
      (∀ v ∈ qF, ∃ n, v = .int n) := by
  unfold normalize_shipments at h
  simp only [hne, Bool.false_eq_true, if_false, setScalar, bind_ok_iff, pure_ok_iff,
    Prod.mk.injEq] at h
  obtain ⟨sn, h1, so, h2, dfO, h3, sk, h4, qs, h5, sd, h6,
    dfC, h7, dfT, h8, dfF, h9, dfT2, h10, dfM, h11, dfN, h12, hout, hrep⟩ := h
  -- supplier_order_id facts
  have s1 := getSeries_ok_SCol h2
  have s2 := SCol_setCol_self s1 (stripCol so)
  have s3 := SCol_optStr_ne h3 (show "order_id" ≠ "supplier_order_id" by decide) s2
  have s4 := SCol_setCol_ne (show "sku" ≠ "supplier_order_id" by decide) s3 (stripUpperCol sk)
  have s5 := SCol_setCol_ne (show "quantity_shipped" ≠ "supplier_order_id" by decide) s4
    (qs.map (toIntVal np 0))
  have s6 := SCol_setCol_ne (show "ship_datetime_utc" ≠ "supplier_order_id" by decide) s5
    (sd.map (toUtc dp))
  have s7 := SCol_optStr_ne h7 (show "carrier" ≠ "supplier_order_id" by decide) s6
  have s8 := SCol_optStr_ne h8 (show "tracking_number" ≠ "supplier_order_id" by decide) s7
  have s9 := SCol_optStr_ne h9 (show "ship_from_country" ≠ "supplier_order_id" by decide) s8
  have s10 := SCol_optStr_ne h10 (show "ship_to_country" ≠ "supplier_order_id" by decide) s9
  -- sku facts
  have t1 := getSeries_ok_SCol h4
  have t2 := SCol_setCol_self t1 (stripUpperCol sk)
  have t3 := SCol_setCol_ne (show "quantity_shipped" ≠ "sku" by decide) t2
    (qs.map (toIntVal np 0))
  have t4 := SCol_setCol_ne (show "ship_datetime_utc" ≠ "sku" by decide) t3
    (sd.map (toUtc dp))
  have t5 := SCol_optStr_ne h7 (show "carrier" ≠ "sku" by decide) t4
  have t6 := SCol_optStr_ne h8 (show "tracking_number" ≠ "sku" by decide) t5
  have t7 := SCol_optStr_ne h9 (show "ship_from_country" ≠ "sku" by decide) t6
  have t8 := SCol_optStr_ne h10 (show "ship_to_country" ≠ "sku" by decide) t7
  -- quantity facts
  have q1 := getSeries_ok_SCol h5
  have q2 := SCol_setCol_self q1 (qs.map (toIntVal np 0))
  have q3 := SCol_setCol_ne (show "ship_datetime_utc" ≠ "quantity_shipped" by decide) q2
    (sd.map (toUtc dp))
  have q4 := SCol_optStr_ne h7 (show "carrier" ≠ "quantity_shipped" by decide) q3
  have q5 := SCol_optStr_ne h8 (show "tracking_number" ≠ "quantity_shipped" by decide) q4
  have q6 := SCol_optStr_ne h9 (show "ship_from_country" ≠ "quantity_shipped" by decide) q5
  have q7 := SCol_optStr_ne h10 (show "ship_to_country" ≠ "quantity_shipped" by decide) q6
  -- supplier_name / ship_datetime_utc presence
  have n1 := getSeries_ok_SCol h1
  have n2 := SCol_setCol_self n1
    (sn.map (fun v => Value.str (supplierNameClean (pySafeStr v))))
  have n3 := SCol_setCol_ne (show "supplier_order_id" ≠ "supplier_name" by decide) n2
    (stripCol so)
  have n4 := SCol_optStr_ne h3 (show "order_id" ≠ "supplier_name" by decide) n3
  have n5 := SCol_setCol_ne (show "sku" ≠ "supplier_name" by decide) n4 (stripUpperCol sk)
  have n6 := SCol_setCol_ne (show "quantity_shipped" ≠ "supplier_name" by decide) n5
    (qs.map (toIntVal np 0))
  have n7 := SCol_setCol_ne (show "ship_datetime_utc" ≠ "supplier_name" by decide) n6
    (sd.map (toUtc dp))
  have n8 := SCol_optStr_ne h7 (show "carrier" ≠ "supplier_name" by decide) n7
  have n9 := SCol_optStr_ne h8 (show "tracking_number" ≠ "supplier_name" by decide) n8
  have n10 := SCol_optStr_ne h9 (show "ship_from_country" ≠ "supplier_name" by decide) n9
  have n11 := SCol_optStr_ne h10 (show "ship_to_country" ≠ "supplier_name" by decide) n10
  have d1 := getSeries_ok_SCol h6
  have d2 := SCol_setCol_self d1 (sd.map (toUtc dp))
  have d3 := SCol_optStr_ne h7 (show "carrier" ≠ "ship_datetime_utc" by decide) d2
  have d4 := SCol_optStr_ne h8 (show "tracking_number" ≠ "ship_datetime_utc" by decide) d3
  have d5 := SCol_optStr_ne h9 (show "ship_from_country" ≠ "ship_datetime_utc" by decide) d4
  have d6 := SCol_optStr_ne h10 (show "ship_to_country" ≠ "ship_datetime_utc" by decide) d5
  -- the report is empty
  have hreq : rep = [] := by
    rw [← hrep]
    simp [requireCols, shipmentsRequired, hasCol_of_SCol s10, hasCol_of_SCol t8,
      hasCol_of_SCol q7, hasCol_of_SCol n11, hasCol_of_SCol d6]
  refine ⟨hreq, ?_⟩
  -- row filters
  obtain ⟨xs1, hxs1, rfl⟩ := filterNonEmptyStr_ok_cases h11
  have hx1 : xs1 = stripCol so := SCol_unique hxs1 s10
  subst hx1
  have s11 := SCol_maskRows s10 ((stripCol so).map keepNonEmptyStr)
  have t9 := SCol_maskRows t8 ((stripCol so).map keepNonEmptyStr)
  have q8 := SCol_maskRows q7 ((stripCol so).map keepNonEmptyStr)
  obtain ⟨xs2, hxs2, rfl⟩ := filterNonEmptyStr_ok_cases h12
  have hx2 : xs2 = applyMask ((stripCol so).map keepNonEmptyStr) (stripUpperCol sk) :=
    SCol_unique hxs2 t9
  subst hx2
  have s12 := SCol_maskRows s11
    ((applyMask ((stripCol so).map keepNonEmptyStr) (stripUpperCol sk)).map keepNonEmptyStr)
  have t10 := SCol_maskRows t9
    ((applyMask ((stripCol so).map keepNonEmptyStr) (stripUpperCol sk)).map keepNonEmptyStr)
  have q9 := SCol_maskRows q8
    ((applyMask ((stripCol so).map keepNonEmptyStr) (stripUpperCol sk)).map keepNonEmptyStr)
  have s13 := SCol_ensureCols SHIPMENTS_OUT_COLS s12
  have t11 := SCol_ensureCols SHIPMENTS_OUT_COLS t10
  have q10 := SCol_ensureCols SHIPMENTS_OUT_COLS q9
  have s14 := SCol_project s13 (List.mem_of_elem_eq_true (by decide) : _ ∈ SHIPMENTS_OUT_COLS) (by decide)
  have t12 := SCol_project t11 (List.mem_of_elem_eq_true (by decide) : _ ∈ SHIPMENTS_OUT_COLS) (by decide)
  have q11 := SCol_project q10 (List.mem_of_elem_eq_true (by decide) : _ ∈ SHIPMENTS_OUT_COLS) (by decide)
  rw [hout] at s14 t12 q11
  refine ⟨_, _, _, s14, t12, q11, ?_, ?_, ?_⟩
  · intro v hv
    have hp := applyMask_map_pred (applyMask_sub hv)
    obtain ⟨t, rfl, _⟩ := stripCol_cells (applyMask_sub (applyMask_sub hv))
    refine ⟨t, rfl, ?_⟩
    simpa [keepNonEmptyStr] using hp
  · intro v hv
    have hp := applyMask_map_pred hv
    obtain ⟨t, rfl, _, _⟩ := stripUpperCol_cells (applyMask_sub (applyMask_sub hv))
    refine ⟨t, rfl, ?_⟩
    simpa [keepNonEmptyStr] using hp
  · intro v hv
    exact toIntVal_cells (applyMask_sub (applyMask_sub hv))

/-- Successful non-empty tracking runs: empty report and the emitted
`tracking_number` column holds non-empty strings (no nodup assumption). -/
theorem tracking_ok_core {dp : String → Option Int}
    {raw : DataFrame} {a s : String} {out : DataFrame} {rep : List String}
    (hne : pdEmpty raw = false)
    (h : normalize_tracking dp (some raw) a s = .ok (out, rep)) :
    rep = [] ∧
    ∃ tnF, SCol out "tracking_number" tnF ∧
      (∀ v ∈ tnF, ∃ t, v = .str t ∧ 0 < t.length) := by
  unfold normalize_tracking at h
  simp only [hne, Bool.false_eq_true, if_false, setScalar, bind_ok_iff, pure_ok_iff,
    Prod.mk.injEq] at h
  obtain ⟨dfC, h1, tn, h2, dfO, h3, dfS, h4, dfR, h5, dfN2, h6,
    dfL, h7, dfD, h8, dfE, h9, dfM, h10, hout, hrep⟩ := h
  have t1 := getSeries_ok_SCol h2
  have t2 := SCol_setCol_self t1 (stripCol tn)
  have t3 := SCol_optStr_ne h3 (show "order_id" ≠ "tracking_number" by decide) t2
  have t4 := SCol_optStr_ne h4 (show "supplier_order_id" ≠ "tracking_number" by decide) t3
  have t5 := SCol_optStr_ne h5 (show "tracking_status_raw" ≠ "tracking_number" by decide) t4
  have t6 := SCol_optStr_ne h6
    (show "tracking_status_normalized" ≠ "tracking_number" by decide) t5
  have t7 := SCol_optClean_ne h7 (show "last_update_utc" ≠ "tracking_number" by decide) t6
  have t8 := SCol_optClean_ne h8 (show "delivery_date_utc" ≠ "tracking_number" by decide) t7
  have t9 := SCol_optStr_ne h9 (show "delivery_exception" ≠ "tracking_number" by decide) t8
  have hreq : rep = [] := by
    rw [← hrep]
    simp [requireCols, trackingRequired, hasCol_of_SCol t9]
  refine ⟨hreq, ?_⟩
  obtain ⟨xs1, hxs1, rfl⟩ := filterNonEmptyStr_ok_cases h10
  have hx1 : xs1 = stripCol tn := SCol_unique hxs1 t9
  subst hx1
  have t10 := SCol_maskRows t9 ((stripCol tn).map keepNonEmptyStr)
  have t11 := SCol_ensureCols TRACKING_OUT_COLS t10
  have t12 := SCol_project t11 (List.mem_of_elem_eq_true (by decide) : _ ∈ TRACKING_OUT_COLS) (by decide)
  rw [hout] at t12
  refine ⟨_, t12, ?_⟩
  intro v hv
  have hp := applyMask_map_pred hv
  obtain ⟨t, rfl, _⟩ := stripCol_cells (applyMask_sub hv)
  refine ⟨t, rfl, ?_⟩
  simpa [keepNonEmptyStr] using hp

theorem col_eq_of_SCol {df : DataFrame} {c : String × List Value} {l : String}
    {xs : List Value} (h : SCol df l xs) (hc : c ∈ df.cols) (hl : c.1 = l) :
    c = (l, xs) := by
  have hm : c ∈ df.cols.filter (fun c => c.1 == l) :=
    List.mem_filter.mpr ⟨hc, by simp [hl]⟩
  rw [h] at hm
  simpa using hm

theorem ensureCols_all_present {df : DataFrame} {names : List String}
    (h : ∀ nm ∈ names, hasCol df nm = true) : ensureCols names df = df := by
  induction names with
  | nil => rfl
  | cons nm rest ih =>
    show ensureCols rest (if hasCol df nm then df else _) = df
    rw [if_pos (h nm (by simp))]
    exact ih (fun m hm => h m (by simp [hm]))

theorem optStr_ok_pack {f : String → String} {df df' : DataFrame} {l : String}
    (h : optStrColWith f df l = .ok df') (hwf : df.WF)
    (P : Value → Prop) (hP1 : ∀ w : Value, P (.str (f (pySafeStr w)))) (hP2 : P .na) :
    ∃ csv, df' = setCol df l csv ∧ csv.length = df.nrows ∧ ∀ v ∈ csv, P v := by
  rcases optStrColWith_ok_cases h with ⟨xs, hxs, rfl⟩ | ⟨hn, rfl⟩
  · refine ⟨_, rfl, ?_, ?_⟩
    · rw [List.length_map]
      exact SCol_length hxs hwf
    · intro v hv
      obtain ⟨w, _, rfl⟩ := List.mem_map.mp hv
      exact hP1 w
  · refine ⟨_, rfl, by simp, ?_⟩
    intro v hv
    rw [List.eq_of_mem_replicate hv]
    exact hP2

theorem optClean_ok_pack {clean : List Value → List Value} {dflt : Value}
    {df df' : DataFrame} {l : String}
    (h : optCleanOrScalar clean dflt df l = .ok df') (hwf : df.WF)
    (hlen : ∀ xs : List Value, (clean xs).length = xs.length)
    (P : Value → Prop) (hP1 : ∀ xs : List Value, ∀ v ∈ clean xs, P v) (hP2 : P dflt) :
    ∃ csv, df' = setCol df l csv ∧ csv.length = df.nrows ∧ ∀ v ∈ csv, P v := by
  rcases optCleanOrScalar_ok_cases h with ⟨xs, hxs, rfl⟩ | ⟨hn, rfl⟩
  · refine ⟨_, rfl, ?_, fun v hv => hP1 xs v hv⟩
    rw [hlen]
    exact SCol_length hxs hwf
  · refine ⟨_, rfl, by simp, ?_⟩
    intro v hv
    rw [List.eq_of_mem_replicate hv]
    exact hP2

theorem SCol_eq {df : DataFrame} {l : String} {xs : List Value} (h : SCol df l xs) :
    df.cols.filter (fun c => c.1 == l) = [(l, xs)] := h

theorem applyMask2_length {m1 m2 : List Bool} {xs : List Value}
    (h1 : m1.length = xs.length) (h2 : m2.length = m1.count true) :
    (applyMask m2 (applyMask m1 xs)).length = m2.count true :=
  applyMask_length (by rw [h2, applyMask_length h1])

theorem applyMask2_replicate {m1 m2 : List Bool} {N : Nat} {v : Value}
    (h1 : m1.length = N) (h2 : m2.length = m1.count true) :
    applyMask m2 (applyMask m1 (List.replicate N v)) =
    List.replicate (m2.count true) v :=
  List.eq_replicate_iff.mpr
    ⟨applyMask2_length (by simp [h1]) h2,
     fun b hb => List.eq_of_mem_replicate (applyMask_sub (applyMask_sub hb))⟩

-- ---------------------------------------------------------------

/-- Full shape of a successful non-empty orders run under duplicate-free
canonicalized headers: the output is exactly an `ordersOut` frame with an
empty report, and every column carries its cleanup invariant. -/
theorem orders_ok_shape {dp : String → Option Int} {np : String → Option Rat}
    {raw : DataFrame} {a s hint cur : String} {days : Int} {out : DataFrame}
    {rep : List String}
    (hwf : raw.WF)
    (hne : pdEmpty raw = false)
    (hnd : (colNames (applyAlias SHOPIFY_COLUMN_MAP (lowerCols (cleanCols raw)))).Nodup)
    (h : normalize_orders dp np (some raw) a s hint cur days = .ok (out, rep)) :
    rep = [] ∧
    ∃ n oidF dtF skF qtyF ccF csF revF curF smF,
      out = ordersOut a s
        (if (detect_shopify_orders raw || (pyLower hint == "shopify")) = true
         then "shopify" else pyOr hint "other") days n
        oidF dtF skF qtyF ccF csF revF curF smF ∧
      oidF.length = n ∧ dtF.length = n ∧ skF.length = n ∧ qtyF.length = n ∧
      ccF.length = n ∧ csF.length = n ∧ revF.length = n ∧ curF.length = n ∧
      smF.length = n ∧
      (∀ v ∈ oidF, ∃ t, v = .str t ∧ pyStrip t = t ∧ 0 < t.length) ∧
      (∀ v ∈ skF, ∃ t, v = .str t ∧ pyStrip t = t ∧ pyUpper t = t ∧ 0 < t.length) ∧
      (∀ v ∈ dtF, (∃ t, v = .ts t) ∨ v = .na) ∧
      (∀ v ∈ qtyF, ∃ m, v = .int m ∧ 1 ≤ m) ∧
      (∀ v ∈ ccF, ∃ t, v = .str t ∧ pyUpper t = t ∧ t.length ≤ 2) ∧
      (∀ v ∈ csF, (∃ t, v = .str t ∧ pyStrip t = t) ∨ v = .na) ∧
      (∀ v ∈ revF, (∃ q, v = .float q) ∨ v = .na) ∧
      (∀ v ∈ curF, ∃ t, v = .str t ∧ ((pyStrip t = t ∧ pyUpper t = t) ∨ t = cur)) ∧
      (∀ v ∈ smF, ∃ t, v = .str t ∧ pyStrip t = t) := by
  unfold normalize_orders at h
  simp only [hne, Bool.false_eq_true, if_false, setScalar, bind_ok_iff, pure_ok_iff,
    Prod.mk.injEq] at h
  set dfB := (if (detect_shopify_orders raw || (pyLower hint == "shopify")) = true
    then applyAlias SHOPIFY_COLUMN_MAP (lowerCols (cleanCols raw))
    else lowerCols (cleanCols raw)) with hdfB
  set pstr := (if (detect_shopify_orders raw || (pyLower hint == "shopify")) = true
    then "shopify" else pyOr hint "other") with hpstr
  have hndB : (colNames dfB).Nodup := by
    rw [hdfB]
    split
    · exact hnd
    · exact List.Nodup.of_map (aliasOf SHOPIFY_COLUMN_MAP)
        (by rw [← colNames_applyAlias]; exact hnd)
  have hwfB : dfB.WF := by
    rw [hdfB]
    split
    · exact WF_applyAlias _ (WF_lowerCols (WF_cleanCols hwf))
    · exact WF_lowerCols (WF_cleanCols hwf)
  have hnB : dfB.nrows = raw.nrows := by
    rw [hdfB]
    split <;> rfl
  simp only [nrows_setCol, nrows_ensureCols] at h
  rw [hnB] at h
  obtain ⟨oid, h1, sk, h2, dt, h3, qty, h4, qty2, h5, cc, h6, cc2, h7,
    dfH, h8, dfI, h9, dfJ, h10, dfK, h11, dfM, h12, dfN, h13, hout, hrep⟩ := h
  -- identify the two re-read columns
  have idq := SCol_setCol_self (getSeries_ok_SCol h4) (qty.map (toIntVal np 1))
  have hq2 : qty2 = qty.map (toIntVal np 1) := SCol_unique (getSeries_ok_SCol h5) idq
  subst hq2
  have idc := SCol_setCol_self (getSeries_ok_SCol h6) (stripUpperCol cc)
  have hc2 : cc2 = stripUpperCol cc := SCol_unique (getSeries_ok_SCol h7) idc
  subst hc2
  -- well-formedness through the ten in-place set steps
  have wf0 := WF_ensureCols (List.map ColumnRule.name ordersRequired) hwfB
  have wf1 := @WF_setCol _ "account_id" (List.replicate raw.nrows (Value.str a)) wf0
    (by simp [nrows_ensureCols, hnB])
  have wf2 := @WF_setCol _ "store_id" (List.replicate raw.nrows (Value.str s)) wf1
    (by simp [nrows_setCol, nrows_ensureCols, hnB])
  have wf3 := @WF_setCol _ "platform" (List.replicate raw.nrows (Value.str pstr)) wf2
    (by simp [nrows_setCol, nrows_ensureCols, hnB])
  have wf4 := @WF_setCol _ "order_id" (stripCol oid) wf3
    (by simpa [stripCol] using SCol_length (getSeries_ok_SCol h1) wf3)
  have wf5 := @WF_setCol _ "sku" (stripUpperCol sk) wf4
    (by simpa [stripUpperCol] using SCol_length (getSeries_ok_SCol h2) wf4)
  have wf6 := @WF_setCol _ "order_datetime_utc" (dt.map (toUtc dp)) wf5
    (by simpa using SCol_length (getSeries_ok_SCol h3) wf5)
  have wf7 := @WF_setCol _ "quantity_ordered" (qty.map (toIntVal np 1)) wf6
    (by simpa using SCol_length (getSeries_ok_SCol h4) wf6)
  have wf8 := @WF_setCol _ "quantity_ordered" ((qty.map (toIntVal np 1)).map clampPos) wf7
    (by simpa using SCol_length (getSeries_ok_SCol h5) wf7)
  have wf9 := @WF_setCol _ "customer_country" (stripUpperCol cc) wf8
    (by simpa [stripUpperCol] using SCol_length (getSeries_ok_SCol h6) wf8)
  have wf10 := @WF_setCol _ "customer_country" ((stripUpperCol cc).map condTrunc2) wf9
    (by simpa [stripUpperCol] using SCol_length (getSeries_ok_SCol h7) wf9)
  -- the four optional column steps
  obtain ⟨csv, heH, hlcsv, hPcsv⟩ := optStr_ok_pack h8 wf10
    (fun v => (∃ t, v = .str t ∧ pyStrip t = t) ∨ v = .na)
    (fun w => Or.inl ⟨_, rfl, pyStrip_idem _⟩) (Or.inr rfl)
  have wfH : dfH.WF := by
    rw [heH]
    exact WF_setCol wf10 hlcsv
  obtain ⟨rvv, heI, hlrvv, hPrvv⟩ := optClean_ok_pack h9 wfH (by simp)
    (fun v => (∃ q, v = .float q) ∨ v = .na)
    (fun xs v hv => toFloatVal_cells hv) (Or.inr rfl)
  have wfI : dfI.WF := by
    rw [heI]
    exact WF_setCol wfH hlrvv
  obtain ⟨cuv, heJ, hlcuv, hPcuv⟩ := optClean_ok_pack h10 wfI (by simp [stripUpperCol])
    (fun v => ∃ t, v = .str t ∧ ((pyStrip t = t ∧ pyUpper t = t) ∨ t = cur))
    (fun xs v hv => by
      obtain ⟨t, e, h1x, h2x⟩ := stripUpperCol_cells hv
      exact ⟨t, e, Or.inl ⟨h1x, h2x⟩⟩)
    ⟨cur, rfl, Or.inr rfl⟩
  have wfJ : dfJ.WF := by
    rw [heJ]
    exact WF_setCol wfI hlcuv
  obtain ⟨smv, heK, hlsmv, hPsmv⟩ := optClean_ok_pack h11 wfJ (by simp [stripCol])
    (fun v => ∃ t, v = .str t ∧ pyStrip t = t)
    (fun xs v hv => stripCol_cells hv)
    ⟨"", rfl, rfl⟩
  have wfK : dfK.WF := by
    rw [heK]
    exact WF_setCol wfJ hlsmv
  have wfT := @WF_setCol _ "promised_ship_days" (List.replicate dfK.nrows (Value.int days)) wfK
    (by simp)
  -- row counts
  have nH : dfH.nrows = raw.nrows := by
    rw [heH, nrows_setCol]
    simp [nrows_setCol, nrows_ensureCols, hnB]
  have nI : dfI.nrows = raw.nrows := by
    rw [heI, nrows_setCol, nH]
  have nJ : dfJ.nrows = raw.nrows := by
    rw [heJ, nrows_setCol, nI]
  have nK : dfK.nrows = raw.nrows := by
    rw [heK, nrows_setCol, nJ]
  -- per-label single-column facts pushed to the validated frame
  have Au0 : UniqueLab (ensureCols (List.map ColumnRule.name ordersRequired) dfB) "account_id" :=
    UniqueLab_ensureCols _ (uniqueLab_nodup hndB _)
  have A1 := UniqueLab_setCol_self Au0 (List.replicate raw.nrows (Value.str a))
  have A2 := SCol_setCol_ne (show "store_id" ≠ "account_id" by decide) A1 (List.replicate raw.nrows (Value.str s))
  have A3 := SCol_setCol_ne (show "platform" ≠ "account_id" by decide) A2 (List.replicate raw.nrows (Value.str pstr))
  have A4 := SCol_setCol_ne (show "order_id" ≠ "account_id" by decide) A3 (stripCol oid)
  have A5 := SCol_setCol_ne (show "sku" ≠ "account_id" by decide) A4 (stripUpperCol sk)
  have A6 := SCol_setCol_ne (show "order_datetime_utc" ≠ "account_id" by decide) A5 (dt.map (toUtc dp))
  have A7 := SCol_setCol_ne (show "quantity_ordered" ≠ "account_id" by decide) A6 (qty.map (toIntVal np 1))
  have A8 := SCol_setCol_ne (show "quantity_ordered" ≠ "account_id" by decide) A7 ((qty.map (toIntVal np 1)).map clampPos)
  have A9 := SCol_setCol_ne (show "customer_country" ≠ "account_id" by decide) A8 (stripUpperCol cc)
  have A10 := SCol_setCol_ne (show "customer_country" ≠ "account_id" by decide) A9 ((stripUpperCol cc).map condTrunc2)
  have A11 : SCol dfH "account_id" (List.replicate raw.nrows (Value.str a)) := by
    rw [heH]
    exact SCol_setCol_ne (show "customer_state" ≠ "account_id" by decide) A10 csv
  have A12 : SCol dfI "account_id" (List.replicate raw.nrows (Value.str a)) := by
    rw [heI]
    exact SCol_setCol_ne (show "order_revenue" ≠ "account_id" by decide) A11 rvv
  have A13 : SCol dfJ "account_id" (List.replicate raw.nrows (Value.str a)) := by
    rw [heJ]
    exact SCol_setCol_ne (show "currency" ≠ "account_id" by decide) A12 cuv
  have A14 : SCol dfK "account_id" (List.replicate raw.nrows (Value.str a)) := by
    rw [heK]
    exact SCol_setCol_ne (show "shipping_method" ≠ "account_id" by decide) A13 smv
  have A15 := SCol_setCol_ne (show "promised_ship_days" ≠ "account_id" by decide) A14 (List.replicate dfK.nrows (Value.int days))
  have Bu0 : UniqueLab (ensureCols (List.map ColumnRule.name ordersRequired) dfB) "store_id" :=
    UniqueLab_ensureCols _ (uniqueLab_nodup hndB _)
  have Bu1 := UniqueLab_setCol_ne (show "account_id" ≠ "store_id" by decide) Bu0 (List.replicate raw.nrows (Value.str a))
  have B2 := UniqueLab_setCol_self Bu1 (List.replicate raw.nrows (Value.str s))
  have B3 := SCol_setCol_ne (show "platform" ≠ "store_id" by decide) B2 (List.replicate raw.nrows (Value.str pstr))
  have B4 := SCol_setCol_ne (show "order_id" ≠ "store_id" by decide) B3 (stripCol oid)
  have B5 := SCol_setCol_ne (show "sku" ≠ "store_id" by decide) B4 (stripUpperCol sk)
  have B6 := SCol_setCol_ne (show "order_datetime_utc" ≠ "store_id" by decide) B5 (dt.map (toUtc dp))
  have B7 := SCol_setCol_ne (show "quantity_ordered" ≠ "store_id" by decide) B6 (qty.map (toIntVal np 1))
  have B8 := SCol_setCol_ne (show "quantity_ordered" ≠ "store_id" by decide) B7 ((qty.map (toIntVal np 1)).map clampPos)
  have B9 := SCol_setCol_ne (show "customer_country" ≠ "store_id" by decide) B8 (stripUpperCol cc)
  have B10 := SCol_setCol_ne (show "customer_country" ≠ "store_id" by decide) B9 ((stripUpperCol cc).map condTrunc2)
  have B11 : SCol dfH "store_id" (List.replicate raw.nrows (Value.str s)) := by
    rw [heH]
    exact SCol_setCol_ne (show "customer_state" ≠ "store_id" by decide) B10 csv
  have B12 : SCol dfI "store_id" (List.replicate raw.nrows (Value.str s)) := by
    rw [heI]
    exact SCol_setCol_ne (show "order_revenue" ≠ "store_id" by decide) B11 rvv
  have B13 : SCol dfJ "store_id" (List.replicate raw.nrows (Value.str s)) := by
    rw [heJ]
    exact SCol_setCol_ne (show "currency" ≠ "store_id" by decide) B12 cuv
  have B14 : SCol dfK "store_id" (List.replicate raw.nrows (Value.str s)) := by
    rw [heK]
    exact SCol_setCol_ne (show "shipping_method" ≠ "store_id" by decide) B13 smv
  have B15 := SCol_setCol_ne (show "promised_ship_days" ≠ "store_id" by decide) B14 (List.replicate dfK.nrows (Value.int days))
  have Pu0 : UniqueLab (ensureCols (List.map ColumnRule.name ordersRequired) dfB) "platform" :=
    UniqueLab_ensureCols _ (uniqueLab_nodup hndB _)
  have Pu1 := UniqueLab_setCol_ne (show "account_id" ≠ "platform" by decide) Pu0 (List.replicate raw.nrows (Value.str a))
  have Pu2 := UniqueLab_setCol_ne (show "store_id" ≠ "platform" by decide) Pu1 (List.replicate raw.nrows (Value.str s))
  have P3 := UniqueLab_setCol_self Pu2 (List.replicate raw.nrows (Value.str pstr))
  have P4 := SCol_setCol_ne (show "order_id" ≠ "platform" by decide) P3 (stripCol oid)
  have P5 := SCol_setCol_ne (show "sku" ≠ "platform" by decide) P4 (stripUpperCol sk)
  have P6 := SCol_setCol_ne (show "order_datetime_utc" ≠ "platform" by decide) P5 (dt.map (toUtc dp))
  have P7 := SCol_setCol_ne (show "quantity_ordered" ≠ "platform" by decide) P6 (qty.map (toIntVal np 1))
  have P8 := SCol_setCol_ne (show "quantity_ordered" ≠ "platform" by decide) P7 ((qty.map (toIntVal np 1)).map clampPos)
  have P9 := SCol_setCol_ne (show "customer_country" ≠ "platform" by decide) P8 (stripUpperCol cc)
  have P10 := SCol_setCol_ne (show "customer_country" ≠ "platform" by decide) P9 ((stripUpperCol cc).map condTrunc2)
  have P11 : SCol dfH "platform" (List.replicate raw.nrows (Value.str pstr)) := by
    rw [heH]
    exact SCol_setCol_ne (show "customer_state" ≠ "platform" by decide) P10 csv
  have P12 : SCol dfI "platform" (List.replicate raw.nrows (Value.str pstr)) := by
    rw [heI]
    exact SCol_setCol_ne (show "order_revenue" ≠ "platform" by decide) P11 rvv
  have P13 : SCol dfJ "platform" (List.replicate raw.nrows (Value.str pstr)) := by
    rw [heJ]
    exact SCol_setCol_ne (show "currency" ≠ "platform" by decide) P12 cuv
  have P14 : SCol dfK "platform" (List.replicate raw.nrows (Value.str pstr)) := by
    rw [heK]
    exact SCol_setCol_ne (show "shipping_method" ≠ "platform" by decide) P13 smv
  have P15 := SCol_setCol_ne (show "promised_ship_days" ≠ "platform" by decide) P14 (List.replicate dfK.nrows (Value.int days))
  have O4 := SCol_setCol_self (getSeries_ok_SCol h1) (stripCol oid)
  have O5 := SCol_setCol_ne (show "sku" ≠ "order_id" by decide) O4 (stripUpperCol sk)
  have O6 := SCol_setCol_ne (show "order_datetime_utc" ≠ "order_id" by decide) O5 (dt.map (toUtc dp))
  have O7 := SCol_setCol_ne (show "quantity_ordered" ≠ "order_id" by decide) O6 (qty.map (toIntVal np 1))
  have O8 := SCol_setCol_ne (show "quantity_ordered" ≠ "order_id" by decide) O7 ((qty.map (toIntVal np 1)).map clampPos)
  have O9 := SCol_setCol_ne (show "customer_country" ≠ "order_id" by decide) O8 (stripUpperCol cc)
  have O10 := SCol_setCol_ne (show "customer_country" ≠ "order_id" by decide) O9 ((stripUpperCol cc).map condTrunc2)
  have O11 : SCol dfH "order_id" (stripCol oid) := by
    rw [heH]
    exact SCol_setCol_ne (show "customer_state" ≠ "order_id" by decide) O10 csv
  have O12 : SCol dfI "order_id" (stripCol oid) := by
    rw [heI]
    exact SCol_setCol_ne (show "order_revenue" ≠ "order_id" by decide) O11 rvv
  have O13 : SCol dfJ "order_id" (stripCol oid) := by
    rw [heJ]
    exact SCol_setCol_ne (show "currency" ≠ "order_id" by decide) O12 cuv
  have O14 : SCol dfK "order_id" (stripCol oid) := by
    rw [heK]
    exact SCol_setCol_ne (show "shipping_method" ≠ "order_id" by decide) O13 smv
  have O15 := SCol_setCol_ne (show "promised_ship_days" ≠ "order_id" by decide) O14 (List.replicate dfK.nrows (Value.int days))
  have K5 := SCol_setCol_self (getSeries_ok_SCol h2) (stripUpperCol sk)
  have K6 := SCol_setCol_ne (show "order_datetime_utc" ≠ "sku" by decide) K5 (dt.map (toUtc dp))
  have K7 := SCol_setCol_ne (show "quantity_ordered" ≠ "sku" by decide) K6 (qty.map (toIntVal np 1))
  have K8 := SCol_setCol_ne (show "quantity_ordered" ≠ "sku" by decide) K7 ((qty.map (toIntVal np 1)).map clampPos)
  have K9 := SCol_setCol_ne (show "customer_country" ≠ "sku" by decide) K8 (stripUpperCol cc)
  have K10 := SCol_setCol_ne (show "customer_country" ≠ "sku" by decide) K9 ((stripUpperCol cc).map condTrunc2)
  have K11 : SCol dfH "sku" (stripUpperCol sk) := by
    rw [heH]
    exact SCol_setCol_ne (show "customer_state" ≠ "sku" by decide) K10 csv
  have K12 : SCol dfI "sku" (stripUpperCol sk) := by
    rw [heI]
    exact SCol_setCol_ne (show "order_revenue" ≠ "sku" by decide) K11 rvv
  have K13 : SCol dfJ "sku" (stripUpperCol sk) := by
    rw [heJ]
    exact SCol_setCol_ne (show "currency" ≠ "sku" by decide) K12 cuv
  have K14 : SCol dfK "sku" (stripUpperCol sk) := by
    rw [heK]
    exact SCol_setCol_ne (show "shipping_method" ≠ "sku" by decide) K13 smv
  have K15 := SCol_setCol_ne (show "promised_ship_days" ≠ "sku" by decide) K14 (List.replicate dfK.nrows (Value.int days))
  have D6 := SCol_setCol_self (getSeries_ok_SCol h3) (dt.map (toUtc dp))
  have D7 := SCol_setCol_ne (show "quantity_ordered" ≠ "order_datetime_utc" by decide) D6 (qty.map (toIntVal np 1))
  have D8 := SCol_setCol_ne (show "quantity_ordered" ≠ "order_datetime_utc" by decide) D7 ((qty.map (toIntVal np 1)).map clampPos)
  have D9 := SCol_setCol_ne (show "customer_country" ≠ "order_datetime_utc" by decide) D8 (stripUpperCol cc)
  have D10 := SCol_setCol_ne (show "customer_country" ≠ "order_datetime_utc" by decide) D9 ((stripUpperCol cc).map condTrunc2)
  have D11 : SCol dfH "order_datetime_utc" (dt.map (toUtc dp)) := by
    rw [heH]
    exact SCol_setCol_ne (show "customer_state" ≠ "order_datetime_utc" by decide) D10 csv
  have D12 : SCol dfI "order_datetime_utc" (dt.map (toUtc dp)) := by
    rw [heI]
    exact SCol_setCol_ne (show "order_revenue" ≠ "order_datetime_utc" by decide) D11 rvv
  have D13 : SCol dfJ "order_datetime_utc" (dt.map (toUtc dp)) := by
    rw [heJ]
    exact SCol_setCol_ne (show "currency" ≠ "order_datetime_utc" by decide) D12 cuv
  have D14 : SCol dfK "order_datetime_utc" (dt.map (toUtc dp)) := by
    rw [heK]
    exact SCol_setCol_ne (show "shipping_method" ≠ "order_datetime_utc" by decide) D13 smv
  have D15 := SCol_setCol_ne (show "promised_ship_days" ≠ "order_datetime_utc" by decide) D14 (List.replicate dfK.nrows (Value.int days))
  have Q8 := SCol_setCol_self (getSeries_ok_SCol h5) ((qty.map (toIntVal np 1)).map clampPos)
  have Q9 := SCol_setCol_ne (show "customer_country" ≠ "quantity_ordered" by decide) Q8 (stripUpperCol cc)
  have Q10 := SCol_setCol_ne (show "customer_country" ≠ "quantity_ordered" by decide) Q9 ((stripUpperCol cc).map condTrunc2)
  have Q11 : SCol dfH "quantity_ordered" ((qty.map (toIntVal np 1)).map clampPos) := by
    rw [heH]
    exact SCol_setCol_ne (show "customer_state" ≠ "quantity_ordered" by decide) Q10 csv
  have Q12 : SCol dfI "quantity_ordered" ((qty.map (toIntVal np 1)).map clampPos) := by
    rw [heI]
    exact SCol_setCol_ne (show "order_revenue" ≠ "quantity_ordered" by decide) Q11 rvv
  have Q13 : SCol dfJ "quantity_ordered" ((qty.map (toIntVal np 1)).map clampPos) := by
    rw [heJ]
    exact SCol_setCol_ne (show "currency" ≠ "quantity_ordered" by decide) Q12 cuv
  have Q14 : SCol dfK "quantity_ordered" ((qty.map (toIntVal np 1)).map clampPos) := by
    rw [heK]
    exact SCol_setCol_ne (show "shipping_method" ≠ "quantity_ordered" by decide) Q13 smv
  have Q15 := SCol_setCol_ne (show "promised_ship_days" ≠ "quantity_ordered" by decide) Q14 (List.replicate dfK.nrows (Value.int days))
  have C10 := SCol_setCol_self (getSeries_ok_SCol h7) ((stripUpperCol cc).map condTrunc2)
  have C11 : SCol dfH "customer_country" ((stripUpperCol cc).map condTrunc2) := by
    rw [heH]
    exact SCol_setCol_ne (show "customer_state" ≠ "customer_country" by decide) C10 csv
  have C12 : SCol dfI "customer_country" ((stripUpperCol cc).map condTrunc2) := by
    rw [heI]
    exact SCol_setCol_ne (show "order_revenue" ≠ "customer_country" by decide) C11 rvv
  have C13 : SCol dfJ "customer_country" ((stripUpperCol cc).map condTrunc2) := by
    rw [heJ]
    exact SCol_setCol_ne (show "currency" ≠ "customer_country" by decide) C12 cuv
  have C14 : SCol dfK "customer_country" ((stripUpperCol cc).map condTrunc2) := by
    rw [heK]
    exact SCol_setCol_ne (show "shipping_method" ≠ "customer_country" by decide) C13 smv
  have C15 := SCol_setCol_ne (show "promised_ship_days" ≠ "customer_country" by decide) C14 (List.replicate dfK.nrows (Value.int days))
  have Su0 : UniqueLab (ensureCols (List.map ColumnRule.name ordersRequired) dfB) "customer_state" :=
    UniqueLab_ensureCols _ (uniqueLab_nodup hndB _)
  have Su1 := UniqueLab_setCol_ne (show "account_id" ≠ "customer_state" by decide) Su0 (List.replicate raw.nrows (Value.str a))
  have Su2 := UniqueLab_setCol_ne (show "store_id" ≠ "customer_state" by decide) Su1 (List.replicate raw.nrows (Value.str s))
  have Su3 := UniqueLab_setCol_ne (show "platform" ≠ "customer_state" by decide) Su2 (List.replicate raw.nrows (Value.str pstr))
  have Su4 := UniqueLab_setCol_ne (show "order_id" ≠ "customer_state" by decide) Su3 (stripCol oid)
  have Su5 := UniqueLab_setCol_ne (show "sku" ≠ "customer_state" by decide) Su4 (stripUpperCol sk)
  have Su6 := UniqueLab_setCol_ne (show "order_datetime_utc" ≠ "customer_state" by decide) Su5 (dt.map (toUtc dp))
  have Su7 := UniqueLab_setCol_ne (show "quantity_ordered" ≠ "customer_state" by decide) Su6 (qty.map (toIntVal np 1))
  have Su8 := UniqueLab_setCol_ne (show "quantity_ordered" ≠ "customer_state" by decide) Su7 ((qty.map (toIntVal np 1)).map clampPos)
  have Su9 := UniqueLab_setCol_ne (show "customer_country" ≠ "customer_state" by decide) Su8 (stripUpperCol cc)
  have Su10 := UniqueLab_setCol_ne (show "customer_country" ≠ "customer_state" by decide) Su9 ((stripUpperCol cc).map condTrunc2)
  have S11 : SCol dfH "customer_state" csv := by
    rw [heH]
    exact UniqueLab_setCol_self Su10 csv
  have S12 : SCol dfI "customer_state" csv := by
    rw [heI]
    exact SCol_setCol_ne (show "order_revenue" ≠ "customer_state" by decide) S11 rvv
  have S13 : SCol dfJ "customer_state" csv := by
    rw [heJ]
    exact SCol_setCol_ne (show "currency" ≠ "customer_state" by decide) S12 cuv
  have S14 : SCol dfK "customer_state" csv := by
    rw [heK]
    exact SCol_setCol_ne (show "shipping_method" ≠ "customer_state" by decide) S13 smv
  have S15 := SCol_setCol_ne (show "promised_ship_days" ≠ "customer_state" by decide) S14 (List.replicate dfK.nrows (Value.int days))
  have Ru0 : UniqueLab (ensureCols (List.map ColumnRule.name ordersRequired) dfB) "order_revenue" :=
    UniqueLab_ensureCols _ (uniqueLab_nodup hndB _)
  have Ru1 := UniqueLab_setCol_ne (show "account_id" ≠ "order_revenue" by decide) Ru0 (List.replicate raw.nrows (Value.str a))
  have Ru2 := UniqueLab_setCol_ne (show "store_id" ≠ "order_revenue" by decide) Ru1 (List.replicate raw.nrows (Value.str s))
  have Ru3 := UniqueLab_setCol_ne (show "platform" ≠ "order_revenue" by decide) Ru2 (List.replicate raw.nrows (Value.str pstr))
  have Ru4 := UniqueLab_setCol_ne (show "order_id" ≠ "order_revenue" by decide) Ru3 (stripCol oid)
  have Ru5 := UniqueLab_setCol_ne (show "sku" ≠ "order_revenue" by decide) Ru4 (stripUpperCol sk)
  have Ru6 := UniqueLab_setCol_ne (show "order_datetime_utc" ≠ "order_revenue" by decide) Ru5 (dt.map (toUtc dp))
  have Ru7 := UniqueLab_setCol_ne (show "quantity_ordered" ≠ "order_revenue" by decide) Ru6 (qty.map (toIntVal np 1))
  have Ru8 := UniqueLab_setCol_ne (show "quantity_ordered" ≠ "order_revenue" by decide) Ru7 ((qty.map (toIntVal np 1)).map clampPos)
  have Ru9 := UniqueLab_setCol_ne (show "customer_country" ≠ "order_revenue" by decide) Ru8 (stripUpperCol cc)
  have Ru10 := UniqueLab_setCol_ne (show "customer_country" ≠ "order_revenue" by decide) Ru9 ((stripUpperCol cc).map condTrunc2)
  have Ru11 : UniqueLab dfH "order_revenue" := by
    rw [heH]
    exact UniqueLab_setCol_ne (show "customer_state" ≠ "order_revenue" by decide) Ru10 csv
  have R12 : SCol dfI "order_revenue" rvv := by
    rw [heI]
    exact UniqueLab_setCol_self Ru11 rvv
  have R13 : SCol dfJ "order_revenue" rvv := by
    rw [heJ]
    exact SCol_setCol_ne (show "currency" ≠ "order_revenue" by decide) R12 cuv
  have R14 : SCol dfK "order_revenue" rvv := by
    rw [heK]
    exact SCol_setCol_ne (show "shipping_method" ≠ "order_revenue" by decide) R13 smv
  have R15 := SCol_setCol_ne (show "promised_ship_days" ≠ "order_revenue" by decide) R14 (List.replicate dfK.nrows (Value.int days))
  have Uu0 : UniqueLab (ensureCols (List.map ColumnRule.name ordersRequired) dfB) "currency" :=
    UniqueLab_ensureCols _ (uniqueLab_nodup hndB _)
  have Uu1 := UniqueLab_setCol_ne (show "account_id" ≠ "currency" by decide) Uu0 (List.replicate raw.nrows (Value.str a))
  have Uu2 := UniqueLab_setCol_ne (show "store_id" ≠ "currency" by decide) Uu1 (List.replicate raw.nrows (Value.str s))
  have Uu3 := UniqueLab_setCol_ne (show "platform" ≠ "currency" by decide) Uu2 (List.replicate raw.nrows (Value.str pstr))
  have Uu4 := UniqueLab_setCol_ne (show "order_id" ≠ "currency" by decide) Uu3 (stripCol oid)
  have Uu5 := UniqueLab_setCol_ne (show "sku" ≠ "currency" by decide) Uu4 (stripUpperCol sk)
  have Uu6 := UniqueLab_setCol_ne (show "order_datetime_utc" ≠ "currency" by decide) Uu5 (dt.map (toUtc dp))
  have Uu7 := UniqueLab_setCol_ne (show "quantity_ordered" ≠ "currency" by decide) Uu6 (qty.map (toIntVal np 1))
  have Uu8 := UniqueLab_setCol_ne (show "quantity_ordered" ≠ "currency" by decide) Uu7 ((qty.map (toIntVal np 1)).map clampPos)
  have Uu9 := UniqueLab_setCol_ne (show "customer_country" ≠ "currency" by decide) Uu8 (stripUpperCol cc)
  have Uu10 := UniqueLab_setCol_ne (show "customer_country" ≠ "currency" by decide) Uu9 ((stripUpperCol cc).map condTrunc2)
  have Uu11 : UniqueLab dfH "currency" := by
    rw [heH]
    exact UniqueLab_setCol_ne (show "customer_state" ≠ "currency" by decide) Uu10 csv
  have Uu12 : UniqueLab dfI "currency" := by
    rw [heI]
    exact UniqueLab_setCol_ne (show "order_revenue" ≠ "currency" by decide) Uu11 rvv
  have U13 : SCol dfJ "currency" cuv := by
    rw [heJ]
    exact UniqueLab_setCol_self Uu12 cuv
  have U14 : SCol dfK "currency" cuv := by
    rw [heK]
    exact SCol_setCol_ne (show "shipping_method" ≠ "currency" by decide) U13 smv
  have U15 := SCol_setCol_ne (show "promised_ship_days" ≠ "currency" by decide) U14 (List.replicate dfK.nrows (Value.int days))
  have Mu0 : UniqueLab (ensureCols (List.map ColumnRule.name ordersRequired) dfB) "shipping_method" :=
    UniqueLab_ensureCols _ (uniqueLab_nodup hndB _)
  have Mu1 := UniqueLab_setCol_ne (show "account_id" ≠ "shipping_method" by decide) Mu0 (List.replicate raw.nrows (Value.str a))
  have Mu2 := UniqueLab_setCol_ne (show "store_id" ≠ "shipping_method" by decide) Mu1 (List.replicate raw.nrows (Value.str s))
  have Mu3 := UniqueLab_setCol_ne (show "platform" ≠ "shipping_method" by decide) Mu2 (List.replicate raw.nrows (Value.str pstr))
  have Mu4 := UniqueLab_setCol_ne (show "order_id" ≠ "shipping_method" by decide) Mu3 (stripCol oid)
  have Mu5 := UniqueLab_setCol_ne (show "sku" ≠ "shipping_method" by decide) Mu4 (stripUpperCol sk)
  have Mu6 := UniqueLab_setCol_ne (show "order_datetime_utc" ≠ "shipping_method" by decide) Mu5 (dt.map (toUtc dp))
  have Mu7 := UniqueLab_setCol_ne (show "quantity_ordered" ≠ "shipping_method" by decide) Mu6 (qty.map (toIntVal np 1))
  have Mu8 := UniqueLab_setCol_ne (show "quantity_ordered" ≠ "shipping_method" by decide) Mu7 ((qty.map (toIntVal np 1)).map clampPos)
  have Mu9 := UniqueLab_setCol_ne (show "customer_country" ≠ "shipping_method" by decide) Mu8 (stripUpperCol cc)
  have Mu10 := UniqueLab_setCol_ne (show "customer_country" ≠ "shipping_method" by decide) Mu9 ((stripUpperCol cc).map condTrunc2)
  have Mu11 : UniqueLab dfH "shipping_method" := by
    rw [heH]
    exact UniqueLab_setCol_ne (show "customer_state" ≠ "shipping_method" by decide) Mu10 csv
  have Mu12 : UniqueLab dfI "shipping_method" := by
    rw [heI]
    exact UniqueLab_setCol_ne (show "order_revenue" ≠ "shipping_method" by decide) Mu11 rvv
  have Mu13 : UniqueLab dfJ "shipping_method" := by
    rw [heJ]
    exact UniqueLab_setCol_ne (show "currency" ≠ "shipping_method" by decide) Mu12 cuv
  have M14 : SCol dfK "shipping_method" smv := by
    rw [heK]
    exact UniqueLab_setCol_self Mu13 smv
  have M15 := SCol_setCol_ne (show "promised_ship_days" ≠ "shipping_method" by decide) M14 (List.replicate dfK.nrows (Value.int days))
  have Wu0 : UniqueLab (ensureCols (List.map ColumnRule.name ordersRequired) dfB) "promised_ship_days" :=
    UniqueLab_ensureCols _ (uniqueLab_nodup hndB _)
  have Wu1 := UniqueLab_setCol_ne (show "account_id" ≠ "promised_ship_days" by decide) Wu0 (List.replicate raw.nrows (Value.str a))
  have Wu2 := UniqueLab_setCol_ne (show "store_id" ≠ "promised_ship_days" by decide) Wu1 (List.replicate raw.nrows (Value.str s))
  have Wu3 := UniqueLab_setCol_ne (show "platform" ≠ "promised_ship_days" by decide) Wu2 (List.replicate raw.nrows (Value.str pstr))
  have Wu4 := UniqueLab_setCol_ne (show "order_id" ≠ "promised_ship_days" by decide) Wu3 (stripCol oid)
  have Wu5 := UniqueLab_setCol_ne (show "sku" ≠ "promised_ship_days" by decide) Wu4 (stripUpperCol sk)
  have Wu6 := UniqueLab_setCol_ne (show "order_datetime_utc" ≠ "promised_ship_days" by decide) Wu5 (dt.map (toUtc dp))
  have Wu7 := UniqueLab_setCol_ne (show "quantity_ordered" ≠ "promised_ship_days" by decide) Wu6 (qty.map (toIntVal np 1))
  have Wu8 := UniqueLab_setCol_ne (show "quantity_ordered" ≠ "promised_ship_days" by decide) Wu7 ((qty.map (toIntVal np 1)).map clampPos)
  have Wu9 := UniqueLab_setCol_ne (show "customer_country" ≠ "promised_ship_days" by decide) Wu8 (stripUpperCol cc)
  have Wu10 := UniqueLab_setCol_ne (show "customer_country" ≠ "promised_ship_days" by decide) Wu9 ((stripUpperCol cc).map condTrunc2)
  have Wu11 : UniqueLab dfH "promised_ship_days" := by
    rw [heH]
    exact UniqueLab_setCol_ne (show "customer_state" ≠ "promised_ship_days" by decide) Wu10 csv
  have Wu12 : UniqueLab dfI "promised_ship_days" := by
    rw [heI]
    exact UniqueLab_setCol_ne (show "order_revenue" ≠ "promised_ship_days" by decide) Wu11 rvv
  have Wu13 : UniqueLab dfJ "promised_ship_days" := by
    rw [heJ]
    exact UniqueLab_setCol_ne (show "currency" ≠ "promised_ship_days" by decide) Wu12 cuv
  have Wu14 : UniqueLab dfK "promised_ship_days" := by
    rw [heK]
    exact UniqueLab_setCol_ne (show "shipping_method" ≠ "promised_ship_days" by decide) Wu13 smv
  have W15 := UniqueLab_setCol_self Wu14 (List.replicate dfK.nrows (Value.int days))
  -- lengths of that frame's columns
  have nT : (setCol dfK "promised_ship_days" (List.replicate dfK.nrows (Value.int days))).nrows
      = raw.nrows := by
    rw [nrows_setCol, nK]
  have lenO := nT ▸ SCol_length O15 wfT
  have lenK := nT ▸ SCol_length K15 wfT
  have lenD := nT ▸ SCol_length D15 wfT
  have lenQ := nT ▸ SCol_length Q15 wfT
  have lenC := nT ▸ SCol_length C15 wfT
  have lenS := nT ▸ SCol_length S15 wfT
  have lenR := nT ▸ SCol_length R15 wfT
  have lenU := nT ▸ SCol_length U15 wfT
  have lenM := nT ▸ SCol_length M15 wfT
  -- the report is empty
  have hrepE : rep = [] := by
    rw [← hrep]
    simp [requireCols, ordersRequired, hasCol_of_SCol O15, hasCol_of_SCol K15,
      hasCol_of_SCol D15, hasCol_of_SCol Q15, hasCol_of_SCol C15]
  -- row filters
  obtain ⟨xs1, hxs1, rfl⟩ := filterNonEmptyStr_ok_cases h12
  have hx1 : xs1 = stripCol oid := SCol_unique hxs1 O15
  subst hx1
  have A16 := SCol_maskRows A15 ((stripCol oid).map keepNonEmptyStr)
  have B16 := SCol_maskRows B15 ((stripCol oid).map keepNonEmptyStr)
  have P16 := SCol_maskRows P15 ((stripCol oid).map keepNonEmptyStr)
  have O16 := SCol_maskRows O15 ((stripCol oid).map keepNonEmptyStr)
  have D16 := SCol_maskRows D15 ((stripCol oid).map keepNonEmptyStr)
  have K16 := SCol_maskRows K15 ((stripCol oid).map keepNonEmptyStr)
  have Q16 := SCol_maskRows Q15 ((stripCol oid).map keepNonEmptyStr)
  have C16 := SCol_maskRows C15 ((stripCol oid).map keepNonEmptyStr)
  have S16 := SCol_maskRows S15 ((stripCol oid).map keepNonEmptyStr)
  have R16 := SCol_maskRows R15 ((stripCol oid).map keepNonEmptyStr)
  have U16 := SCol_maskRows U15 ((stripCol oid).map keepNonEmptyStr)
  have M16 := SCol_maskRows M15 ((stripCol oid).map keepNonEmptyStr)
  have W16 := SCol_maskRows W15 ((stripCol oid).map keepNonEmptyStr)
  obtain ⟨xs2, hxs2, rfl⟩ := filterNonEmptyStr_ok_cases h13
  have hx2 : xs2 = applyMask ((stripCol oid).map keepNonEmptyStr) (stripUpperCol sk) := SCol_unique hxs2 K16
  subst hx2
  have A17 := SCol_maskRows A16 ((applyMask ((stripCol oid).map keepNonEmptyStr) (stripUpperCol sk)).map keepNonEmptyStr)
  have B17 := SCol_maskRows B16 ((applyMask ((stripCol oid).map keepNonEmptyStr) (stripUpperCol sk)).map keepNonEmptyStr)
  have P17 := SCol_maskRows P16 ((applyMask ((stripCol oid).map keepNonEmptyStr) (stripUpperCol sk)).map keepNonEmptyStr)
  have O17 := SCol_maskRows O16 ((applyMask ((stripCol oid).map keepNonEmptyStr) (stripUpperCol sk)).map keepNonEmptyStr)
  have D17 := SCol_maskRows D16 ((applyMask ((stripCol oid).map keepNonEmptyStr) (stripUpperCol sk)).map keepNonEmptyStr)
  have K17 := SCol_maskRows K16 ((applyMask ((stripCol oid).map keepNonEmptyStr) (stripUpperCol sk)).map keepNonEmptyStr)
  have Q17 := SCol_maskRows Q16 ((applyMask ((stripCol oid).map keepNonEmptyStr) (stripUpperCol sk)).map keepNonEmptyStr)
  have C17 := SCol_maskRows C16 ((applyMask ((stripCol oid).map keepNonEmptyStr) (stripUpperCol sk)).map keepNonEmptyStr)
  have S17 := SCol_maskRows S16 ((applyMask ((stripCol oid).map keepNonEmptyStr) (stripUpperCol sk)).map keepNonEmptyStr)
  have R17 := SCol_maskRows R16 ((applyMask ((stripCol oid).map keepNonEmptyStr) (stripUpperCol sk)).map keepNonEmptyStr)
  have U17 := SCol_maskRows U16 ((applyMask ((stripCol oid).map keepNonEmptyStr) (stripUpperCol sk)).map keepNonEmptyStr)
  have M17 := SCol_maskRows M16 ((applyMask ((stripCol oid).map keepNonEmptyStr) (stripUpperCol sk)).map keepNonEmptyStr)
  have W17 := SCol_maskRows W16 ((applyMask ((stripCol oid).map keepNonEmptyStr) (stripUpperCol sk)).map keepNonEmptyStr)
  have A18 := SCol_ensureCols ORDERS_OUT_COLS A17
  have B18 := SCol_ensureCols ORDERS_OUT_COLS B17
  have P18 := SCol_ensureCols ORDERS_OUT_COLS P17
  have O18 := SCol_ensureCols ORDERS_OUT_COLS O17
  have D18 := SCol_ensureCols ORDERS_OUT_COLS D17
  have K18 := SCol_ensureCols ORDERS_OUT_COLS K17
  have Q18 := SCol_ensureCols ORDERS_OUT_COLS Q17
  have C18 := SCol_ensureCols ORDERS_OUT_COLS C17
  have S18 := SCol_ensureCols ORDERS_OUT_COLS S17
  have R18 := SCol_ensureCols ORDERS_OUT_COLS R17
  have U18 := SCol_ensureCols ORDERS_OUT_COLS U17
  have M18 := SCol_ensureCols ORDERS_OUT_COLS M17
  have W18 := SCol_ensureCols ORDERS_OUT_COLS W17
  -- mask lengths
  have lM1 : ((stripCol oid).map keepNonEmptyStr).length = raw.nrows := by
    rw [List.length_map]
    exact lenO
  have lM2 : ((applyMask ((stripCol oid).map keepNonEmptyStr) (stripUpperCol sk)).map keepNonEmptyStr).length = ((stripCol oid).map keepNonEmptyStr).count true := by
    rw [List.length_map]
    exact applyMask_length (by rw [lM1, lenK])
  -- broadcast columns stay broadcast
  have eacc := @applyMask2_replicate ((stripCol oid).map keepNonEmptyStr) ((applyMask ((stripCol oid).map keepNonEmptyStr) (stripUpperCol sk)).map keepNonEmptyStr) raw.nrows (Value.str a) lM1 lM2
  have esto := @applyMask2_replicate ((stripCol oid).map keepNonEmptyStr) ((applyMask ((stripCol oid).map keepNonEmptyStr) (stripUpperCol sk)).map keepNonEmptyStr) raw.nrows (Value.str s) lM1 lM2
  have epla := @applyMask2_replicate ((stripCol oid).map keepNonEmptyStr) ((applyMask ((stripCol oid).map keepNonEmptyStr) (stripUpperCol sk)).map keepNonEmptyStr) raw.nrows (Value.str pstr) lM1 lM2
  have eprom : applyMask ((applyMask ((stripCol oid).map keepNonEmptyStr) (stripUpperCol sk)).map keepNonEmptyStr) (applyMask ((stripCol oid).map keepNonEmptyStr) (List.replicate dfK.nrows (Value.int days))) =
      List.replicate (((applyMask ((stripCol oid).map keepNonEmptyStr) (stripUpperCol sk)).map keepNonEmptyStr).count true) (Value.int days) := by
    rw [nK]
    exact applyMask2_replicate lM1 lM2
  rw [eacc] at A18
  rw [esto] at B18
  rw [epla] at P18
  rw [eprom] at W18
  refine ⟨hrepE, (((applyMask ((stripCol oid).map keepNonEmptyStr) (stripUpperCol sk)).map keepNonEmptyStr).count true), _, _, _, _, _, _, _, _, _, ?_,
    applyMask2_length (by rw [lM1, lenO]) lM2,
    applyMask2_length (by rw [lM1, lenD]) lM2,
    applyMask2_length (by rw [lM1, lenK]) lM2,
    applyMask2_length (by rw [lM1, lenQ]) lM2,
    applyMask2_length (by rw [lM1, lenC]) lM2,
    applyMask2_length (by rw [lM1, lenS]) lM2,
    applyMask2_length (by rw [lM1, lenR]) lM2,
    applyMask2_length (by rw [lM1, lenU]) lM2,
    applyMask2_length (by rw [lM1, lenM]) lM2,
    ?_, ?_, ?_, ?_, ?_, ?_, ?_, ?_, ?_⟩
  · -- the frame itself
    rw [← hout]
    unfold ordersOut
    simp only [project, ORDERS_OUT_COLS, List.flatMap_cons, List.flatMap_nil]
    simp only [ORDERS_OUT_COLS] at A18 B18 P18 O18 D18 K18 Q18 C18 S18 R18 U18 M18 W18
    simp only [DataFrame.mk.injEq]
    constructor
    · rw [SCol_eq A18, SCol_eq B18, SCol_eq P18, SCol_eq O18, SCol_eq D18,
        SCol_eq K18, SCol_eq Q18, SCol_eq C18, SCol_eq S18, SCol_eq R18,
        SCol_eq U18, SCol_eq M18, SCol_eq W18]
      simp
    · rw [nrows_ensureCols]
      rfl
  · intro v hv
    have hp := applyMask_map_pred (applyMask_sub hv)
    obtain ⟨t, rfl, ht⟩ := stripCol_cells (applyMask_sub (applyMask_sub hv))
    exact ⟨t, rfl, ht, by simpa [keepNonEmptyStr] using hp⟩
  · intro v hv
    have hp := applyMask_map_pred hv
    obtain ⟨t, rfl, ht1, ht2⟩ := stripUpperCol_cells (applyMask_sub (applyMask_sub hv))
    exact ⟨t, rfl, ht1, ht2, by simpa [keepNonEmptyStr] using hp⟩
  · intro v hv
    exact toUtc_cells (applyMask_sub (applyMask_sub hv))
  · intro v hv
    exact clampPos_cells (fun w hw => toIntVal_cells hw) (applyMask_sub (applyMask_sub hv))
  · intro v hv
    exact condTrunc2_cells (fun w hw => by
      obtain ⟨t, e, _, hu⟩ := stripUpperCol_cells hw
      exact ⟨t, e, hu⟩) (applyMask_sub (applyMask_sub hv))
  · intro v hv
    exact hPcsv v (applyMask_sub (applyMask_sub hv))
  · intro v hv
    exact hPrvv v (applyMask_sub (applyMask_sub hv))
  · intro v hv
    exact hPcuv v (applyMask_sub (applyMask_sub hv))
  · intro v hv
    exact hPsmv v (applyMask_sub (applyMask_sub hv))

-- ---------------------------------------------------------------
-- Label-list nodup transport (canonical column-list claim)
-- ---------------------------------------------------------------

/-- `setCol` keeps a duplicate-free label list duplicate-free: replacement
leaves the labels alone, and the append case only fires when the label was
absent. -/
theorem nodup_setCol {df : DataFrame} {l : String} (ys : List Value)
    (h : (colNames df).Nodup) : (colNames (setCol df l ys)).Nodup := by
  unfold setCol
  split
  · have he : colNames ⟨df.cols.map (fun c => if c.1 == l then (c.1, ys) else c), df.nrows⟩
        = colNames df := by
      unfold colNames
      show (df.cols.map _).map _ = _
      rw [List.map_map]
      apply List.map_congr_left
      intro c _
      by_cases hc : c.1 = l <;> simp [Function.comp, hc]
    rw [he]
    exact h
  · rename_i hna
    have hnl : l ∉ colNames df := by
      intro hm
      obtain ⟨c, hc, hcl⟩ := mem_colNames_iff.mp hm
      exact hna (List.any_eq_true.mpr ⟨c, hc, by simp [hcl]⟩)
    have he : colNames ⟨df.cols ++ [(l, ys)], df.nrows⟩ = colNames df ++ [l] := by
      unfold colNames
      simp
    rw [he]
    simp [List.nodup_append, h, hnl]

/-- `ensureCols` keeps a duplicate-free label list duplicate-free. -/
theorem nodup_ensureCols (names : List String) {df : DataFrame}
    (h : (colNames df).Nodup) : (colNames (ensureCols names df)).Nodup := by
  induction names generalizing df with
  | nil => exact h
  | cons nm rest ih =>
    show (colNames (ensureCols rest (if hasCol df nm then df else _))).Nodup
    split
    · exact ih h
    · exact ih (nodup_setCol _ h)

/-- Row masking never touches the label list. -/
theorem nodup_maskRows {m : List Bool} {df : DataFrame}
    (h : (colNames df).Nodup) : (colNames (maskRows m df)).Nodup := by
  rw [colNames_maskRows]
  exact h

/-- A successful optional string-column step keeps the labels
duplicate-free. -/
theorem nodup_optStr {f : String → String} {df df' : DataFrame} {l : String}
    (hok : optStrColWith f df l = .ok df')
    (h : (colNames df).Nodup) : (colNames df').Nodup := by
  rcases optStrColWith_ok_cases hok with ⟨xs, _, rfl⟩ | ⟨_, rfl⟩ <;>
    exact nodup_setCol _ h

/-- A successful coerce-or-scalar step keeps the labels duplicate-free. -/
theorem nodup_optClean {clean : List Value → List Value} {dflt : Value}
    {df df' : DataFrame} {l : String}
    (hok : optCleanOrScalar clean dflt df l = .ok df')
    (h : (colNames df).Nodup) : (colNames df').Nodup := by
  rcases optCleanOrScalar_ok_cases hok with ⟨xs, _, rfl⟩ | ⟨_, rfl⟩ <;>
    exact nodup_setCol _ h

/-- A successful non-empty-string row filter keeps the labels
duplicate-free. -/
theorem nodup_filterNE {df df' : DataFrame} {l : String}
    (hok : filterNonEmptyStr df l = .ok df')
    (h : (colNames df).Nodup) : (colNames df').Nodup := by
  obtain ⟨xs, _, rfl⟩ := filterNonEmptyStr_ok_cases hok
  exact nodup_maskRows h

/-- The closing `ensureCols`/`project` pair of every pipeline emits exactly
the requested label list once the working frame is duplicate-free. -/
theorem colNames_project_ensure {df : DataFrame} {names : List String}
    (h : (colNames df).Nodup) :
    colNames (project names (ensureCols names df)) = names := by
  apply colNames_project_of_SCol
  intro l hl
  rcases uniqueLab_of_nodup (nodup_ensureCols names h) l with hx | hn
  · exact hx
  · have ht : hasCol (ensureCols names df) l = true := hasCol_ensureCols_mem names hl
    rw [hasCol_of_NoColL hn] at ht
    simp at ht

/-- Successful non-empty orders runs with duplicate-free canonicalized
headers emit exactly the canonical orders column list, in order. -/
theorem orders_colNames {dp : String → Option Int} {np : String → Option Rat}
    {raw : DataFrame} {a s hint cur : String} {days : Int} {out : DataFrame}
    {rep : List String}
    (hne : pdEmpty raw = false)
    (hnd : (colNames (applyAlias SHOPIFY_COLUMN_MAP (lowerCols (cleanCols raw)))).Nodup)
    (h : normalize_orders dp np (some raw) a s hint cur days = .ok (out, rep)) :
    colNames out = ORDERS_OUT_COLS := by
  unfold normalize_orders at h
  simp only [hne, Bool.false_eq_true, if_false, setScalar, bind_ok_iff, pure_ok_iff,
    Prod.mk.injEq] at h
  set dfB := (if (detect_shopify_orders raw || (pyLower hint == "shopify")) = true
    then applyAlias SHOPIFY_COLUMN_MAP (lowerCols (cleanCols raw))
    else lowerCols (cleanCols raw)) with hdfB
  have hndB : (colNames dfB).Nodup := by
    rw [hdfB]
    split
    · exact hnd
    · exact List.Nodup.of_map (aliasOf SHOPIFY_COLUMN_MAP)
        (by rw [← colNames_applyAlias]; exact hnd)
  obtain ⟨oid, h1, sk, h2, dt, h3, qty, h4, qty2, h5, cc, h6, cc2, h7,
    dfH, h8, dfI, h9, dfJ, h10, dfK, h11, dfM, h12, dfN, h13, hout, hrep⟩ := h
  have ndN : (colNames dfN).Nodup :=
    nodup_filterNE h13 (nodup_filterNE h12 (nodup_setCol _
      (nodup_optClean h11 (nodup_optClean h10 (nodup_optClean h9 (nodup_optStr h8
        (nodup_setCol _ (nodup_setCol _ (nodup_setCol _ (nodup_setCol _
          (nodup_setCol _ (nodup_setCol _ (nodup_setCol _ (nodup_setCol _
            (nodup_setCol _ (nodup_setCol _
              (nodup_ensureCols _ hndB)))))))))))))))))
  rw [← hout]
  exact colNames_project_ensure ndN

/-- Successful non-empty shipments runs with duplicate-free canonicalized
headers emit exactly the canonical shipments column list, in order. -/
theorem shipments_colNames {dp : String → Option Int} {np : String → Option Rat}
    {raw : DataFrame} {a s : String} {out : DataFrame} {rep : List String}
    (hne : pdEmpty raw = false)
    (hnd : (colNames (applyAlias shipmentsRenameCandidates (lowerCols (cleanCols raw)))).Nodup)
    (h : normalize_shipments dp np (some raw) a s = .ok (out, rep)) :
    colNames out = SHIPMENTS_OUT_COLS := by
  unfold normalize_shipments at h
  simp only [hne, Bool.false_eq_true, if_false, setScalar, bind_ok_iff, pure_ok_iff,
    Prod.mk.injEq] at h
  obtain ⟨sn, h1, so, h2, dfO, h3, sk, h4, qs, h5, sd, h6,
    dfC, h7, dfT, h8, dfF, h9, dfT2, h10, dfM, h11, dfN, h12, hout, hrep⟩ := h
  have ndN : (colNames dfN).Nodup :=
    nodup_filterNE h12 (nodup_filterNE h11 (nodup_optStr h10 (nodup_optStr h9
      (nodup_optStr h8 (nodup_optStr h7 (nodup_setCol _ (nodup_setCol _
        (nodup_setCol _ (nodup_optStr h3 (nodup_setCol _ (nodup_setCol _
          (nodup_setCol _ (nodup_setCol _
            (nodup_ensureCols _ hnd))))))))))))))
  rw [← hout]
  exact colNames_project_ensure ndN

/-- Successful non-empty tracking runs with duplicate-free canonicalized
headers emit exactly the canonical tracking column list, in order. -/
theorem tracking_colNames {dp : String → Option Int}
    {raw : DataFrame} {a s : String} {out : DataFrame} {rep : List String}
    (hne : pdEmpty raw = false)
    (hnd : (colNames (applyAlias trackingRenameCandidates (lowerCols (cleanCols raw)))).Nodup)
    (h : normalize_tracking dp (some raw) a s = .ok (out, rep)) :
    colNames out = TRACKING_OUT_COLS := by
  unfold normalize_tracking at h
  simp only [hne, Bool.false_eq_true, if_false, setScalar, bind_ok_iff, pure_ok_iff,
    Prod.mk.injEq] at h
  obtain ⟨dfC, h1, tn, h2, dfO, h3, dfS, h4, dfR, h5, dfN2, h6,
    dfL, h7, dfD, h8, dfE, h9, dfM, h10, hout, hrep⟩ := h
  have ndN : (colNames dfM).Nodup :=
    nodup_filterNE h10 (nodup_optStr h9 (nodup_optClean h8 (nodup_optClean h7
      (nodup_optStr h6 (nodup_optStr h5 (nodup_optStr h4 (nodup_optStr h3
        (nodup_setCol _ (nodup_optStr h1 (nodup_setCol _ (nodup_setCol _
          (nodup_ensureCols _ hnd))))))))))))
  rw [← hout]
  exact colNames_project_ensure ndN

/-- Cleaning/aliasing the headers of a canonical orders frame is the
identity: every canonical label is already trimmed and lowercase, and none
is a Shopify alias key. -/
theorem canon_labels_ordersOut {a s p : String} {days : Int} {n : Nat}
    {o1 o2 o3 o4 o5 o6 o7 o8 o9 : List Value} :
    applyAlias SHOPIFY_COLUMN_MAP (lowerCols (cleanCols
        (ordersOut a s p days n o1 o2 o3 o4 o5 o6 o7 o8 o9)))
      = ordersOut a s p days n o1 o2 o3 o4 o5 o6 o7 o8 o9 := by
  unfold ordersOut cleanCols lowerCols applyAlias
  simp only [List.map_cons, List.map_nil]
  simp only [
    show aliasOf SHOPIFY_COLUMN_MAP (pyLower (pyStrip (pyStrip "account_id"))) = "account_id" from by decide,
    show aliasOf SHOPIFY_COLUMN_MAP (pyLower (pyStrip (pyStrip "store_id"))) = "store_id" from by decide,
    show aliasOf SHOPIFY_COLUMN_MAP (pyLower (pyStrip (pyStrip "platform"))) = "platform" from by decide,
    show aliasOf SHOPIFY_COLUMN_MAP (pyLower (pyStrip (pyStrip "order_id"))) = "order_id" from by decide,
    show aliasOf SHOPIFY_COLUMN_MAP (pyLower (pyStrip (pyStrip "order_datetime_utc"))) = "order_datetime_utc" from by decide,
    show aliasOf SHOPIFY_COLUMN_MAP (pyLower (pyStrip (pyStrip "sku"))) = "sku" from by decide,
    show aliasOf SHOPIFY_COLUMN_MAP (pyLower (pyStrip (pyStrip "quantity_ordered"))) = "quantity_ordered" from by decide,
    show aliasOf SHOPIFY_COLUMN_MAP (pyLower (pyStrip (pyStrip "customer_country"))) = "customer_country" from by decide,
    show aliasOf SHOPIFY_COLUMN_MAP (pyLower (pyStrip (pyStrip "customer_state"))) = "customer_state" from by decide,
    show aliasOf SHOPIFY_COLUMN_MAP (pyLower (pyStrip (pyStrip "order_revenue"))) = "order_revenue" from by decide,
    show aliasOf SHOPIFY_COLUMN_MAP (pyLower (pyStrip (pyStrip "currency"))) = "currency" from by decide,
    show aliasOf SHOPIFY_COLUMN_MAP (pyLower (pyStrip (pyStrip "shipping_method"))) = "shipping_method" from by decide,
    show aliasOf SHOPIFY_COLUMN_MAP (pyLower (pyStrip (pyStrip "promised_ship_days"))) = "promised_ship_days" from by decide]

/-- The required-column pass leaves a canonical orders frame alone: all
five mandatory fields are present. -/
theorem ensure_req_ordersOut {a s p : String} {days : Int} {n : Nat}
    {o1 o2 o3 o4 o5 o6 o7 o8 o9 : List Value} :
    ensureCols (List.map ColumnRule.name ordersRequired)
        (ordersOut a s p days n o1 o2 o3 o4 o5 o6 o7 o8 o9)
      = ordersOut a s p days n o1 o2 o3 o4 o5 o6 o7 o8 o9 := by
  have hcn : colNames (ordersOut a s p days n o1 o2 o3 o4 o5 o6 o7 o8 o9)
      = ORDERS_OUT_COLS := rfl
  unfold ensureCols ordersRequired
  simp only [List.map_cons, List.map_nil, List.foldl_cons, List.foldl_nil]
  simp [hasCol, hcn,
    show "order_id" ∈ ORDERS_OUT_COLS from by decide,
    show "order_datetime_utc" ∈ ORDERS_OUT_COLS from by decide,
    show "sku" ∈ ORDERS_OUT_COLS from by decide,
    show "quantity_ordered" ∈ ORDERS_OUT_COLS from by decide,
    show "customer_country" ∈ ORDERS_OUT_COLS from by decide]


-- ---------------------------------------------------------------
-- Canonical re-feed of an orders output frame (idempotence analysis)
-- ---------------------------------------------------------------

/-- The canonical frame's unique `account_id` column. -/
theorem SCol_oo_account_id {a s p : String} {days : Int} {n : Nat}
    {o1 o2 o3 o4 o5 o6 o7 o8 o9 : List Value} :
    SCol (ordersOut a s p days n o1 o2 o3 o4 o5 o6 o7 o8 o9) "account_id" (List.replicate n (Value.str a)) := by
  unfold SCol ordersOut
  simp +decide

/-- The canonical frame's unique `store_id` column. -/
theorem SCol_oo_store_id {a s p : String} {days : Int} {n : Nat}
    {o1 o2 o3 o4 o5 o6 o7 o8 o9 : List Value} :
    SCol (ordersOut a s p days n o1 o2 o3 o4 o5 o6 o7 o8 o9) "store_id" (List.replicate n (Value.str s)) := by
  unfold SCol ordersOut
  simp +decide

/-- The canonical frame's unique `platform` column. -/
theorem SCol_oo_platform {a s p : String} {days : Int} {n : Nat}
    {o1 o2 o3 o4 o5 o6 o7 o8 o9 : List Value} :
    SCol (ordersOut a s p days n o1 o2 o3 o4 o5 o6 o7 o8 o9) "platform" (List.replicate n (Value.str p)) := by
  unfold SCol ordersOut
  simp +decide

/-- The canonical frame's unique `order_id` column. -/
theorem SCol_oo_order_id {a s p : String} {days : Int} {n : Nat}
    {o1 o2 o3 o4 o5 o6 o7 o8 o9 : List Value} :
    SCol (ordersOut a s p days n o1 o2 o3 o4 o5 o6 o7 o8 o9) "order_id" (o1) := by
  unfold SCol ordersOut
  simp +decide

/-- The canonical frame's unique `order_datetime_utc` column. -/
theorem SCol_oo_order_datetime_utc {a s p : String} {days : Int} {n : Nat}
    {o1 o2 o3 o4 o5 o6 o7 o8 o9 : List Value} :
    SCol (ordersOut a s p days n o1 o2 o3 o4 o5 o6 o7 o8 o9) "order_datetime_utc" (o2) := by
  unfold SCol ordersOut
  simp +decide

/-- The canonical frame's unique `sku` column. -/
theorem SCol_oo_sku {a s p : String} {days : Int} {n : Nat}
    {o1 o2 o3 o4 o5 o6 o7 o8 o9 : List Value} :
    SCol (ordersOut a s p days n o1 o2 o3 o4 o5 o6 o7 o8 o9) "sku" (o3) := by
  unfold SCol ordersOut
  simp +decide

/-- The canonical frame's unique `quantity_ordered` column. -/
theorem SCol_oo_quantity_ordered {a s p : String} {days : Int} {n : Nat}
    {o1 o2 o3 o4 o5 o6 o7 o8 o9 : List Value} :
    SCol (ordersOut a s p days n o1 o2 o3 o4 o5 o6 o7 o8 o9) "quantity_ordered" (o4) := by
  unfold SCol ordersOut
  simp +decide

/-- The canonical frame's unique `customer_country` column. -/
theorem SCol_oo_customer_country {a s p : String} {days : Int} {n : Nat}
    {o1 o2 o3 o4 o5 o6 o7 o8 o9 : List Value} :
    SCol (ordersOut a s p days n o1 o2 o3 o4 o5 o6 o7 o8 o9) "customer_country" (o5) := by
  unfold SCol ordersOut
  simp +decide

/-- The canonical frame's unique `customer_state` column. -/
theorem SCol_oo_customer_state {a s p : String} {days : Int} {n : Nat}
    {o1 o2 o3 o4 o5 o6 o7 o8 o9 : List Value} :
    SCol (ordersOut a s p days n o1 o2 o3 o4 o5 o6 o7 o8 o9) "customer_state" (o6) := by
  unfold SCol ordersOut
  simp +decide

/-- The canonical frame's unique `order_revenue` column. -/
theorem SCol_oo_order_revenue {a s p : String} {days : Int} {n : Nat}
    {o1 o2 o3 o4 o5 o6 o7 o8 o9 : List Value} :
    SCol (ordersOut a s p days n o1 o2 o3 o4 o5 o6 o7 o8 o9) "order_revenue" (o7) := by
  unfold SCol ordersOut
  simp +decide

/-- The canonical frame's unique `currency` column. -/
theorem SCol_oo_currency {a s p : String} {days : Int} {n : Nat}
    {o1 o2 o3 o4 o5 o6 o7 o8 o9 : List Value} :
    SCol (ordersOut a s p days n o1 o2 o3 o4 o5 o6 o7 o8 o9) "currency" (o8) := by
  unfold SCol ordersOut
  simp +decide

/-- The canonical frame's unique `shipping_method` column. -/
theorem SCol_oo_shipping_method {a s p : String} {days : Int} {n : Nat}
    {o1 o2 o3 o4 o5 o6 o7 o8 o9 : List Value} :
    SCol (ordersOut a s p days n o1 o2 o3 o4 o5 o6 o7 o8 o9) "shipping_method" (o9) := by
  unfold SCol ordersOut
  simp +decide

/-- The canonical frame's unique `promised_ship_days` column. -/
theorem SCol_oo_promised_ship_days {a s p : String} {days : Int} {n : Nat}
    {o1 o2 o3 o4 o5 o6 o7 o8 o9 : List Value} :
    SCol (ordersOut a s p days n o1 o2 o3 o4 o5 o6 o7 o8 o9) "promised_ship_days" (List.replicate n (Value.int days)) := by
  unfold SCol ordersOut
  simp +decide

/-- Writing a frame's unique `l`-column back to itself is the identity. -/
theorem setCol_self_of_SCol {df : DataFrame} {l : String} {xs : List Value}
    (h : SCol df l xs) : setCol df l xs = df := by
  have hall : ∀ c ∈ df.cols, (c.1 == l) = true → c = (l, xs) := by
    intro c hc hcl
    have hmem : c ∈ df.cols.filter (fun c => c.1 == l) := List.mem_filter.mpr ⟨hc, hcl⟩
    rw [h] at hmem
    simpa using hmem
  have hmap : ∀ L : List (String × List Value),
      (∀ c ∈ L, (c.1 == l) = true → c = (l, xs)) →
      L.map (fun c => if c.1 == l then (c.1, xs) else c) = L := by
    intro L
    induction L with
    | nil => intro _; rfl
    | cons c t ih =>
      intro hL
      simp only [List.map_cons]
      rw [ih (fun d hd hdl => hL d (List.mem_cons_of_mem c hd) hdl)]
      by_cases hcl : (c.1 == l) = true
      · have hce := hL c (List.mem_cons_self c t) hcl
        rw [if_pos hcl, hce]
      · rw [if_neg hcl]
  unfold setCol
  rw [if_pos (anyLabel_of_SCol h)]
  rcases df with ⟨cols, m⟩
  simp only [DataFrame.mk.injEq, and_true]
  exact hmap cols hall

/-- The closing `ensureCols` over the full canonical list is the identity
on a canonical frame. -/
theorem ensure_out_ordersOut {a s p : String} {days : Int} {n : Nat}
    {o1 o2 o3 o4 o5 o6 o7 o8 o9 : List Value} :
    ensureCols ORDERS_OUT_COLS (ordersOut a s p days n o1 o2 o3 o4 o5 o6 o7 o8 o9)
      = ordersOut a s p days n o1 o2 o3 o4 o5 o6 o7 o8 o9 := by
  have hcn : colNames (ordersOut a s p days n o1 o2 o3 o4 o5 o6 o7 o8 o9) = ORDERS_OUT_COLS := rfl
  unfold ensureCols ORDERS_OUT_COLS
  simp only [List.foldl_cons, List.foldl_nil]
  simp [hasCol, hcn,
    show "account_id" ∈ ORDERS_OUT_COLS from by decide,
    show "store_id" ∈ ORDERS_OUT_COLS from by decide,
    show "platform" ∈ ORDERS_OUT_COLS from by decide,
    show "order_id" ∈ ORDERS_OUT_COLS from by decide,
    show "order_datetime_utc" ∈ ORDERS_OUT_COLS from by decide,
    show "sku" ∈ ORDERS_OUT_COLS from by decide,
    show "quantity_ordered" ∈ ORDERS_OUT_COLS from by decide,
    show "customer_country" ∈ ORDERS_OUT_COLS from by decide,
    show "customer_state" ∈ ORDERS_OUT_COLS from by decide,
    show "order_revenue" ∈ ORDERS_OUT_COLS from by decide,
    show "currency" ∈ ORDERS_OUT_COLS from by decide,
    show "shipping_method" ∈ ORDERS_OUT_COLS from by decide,
    show "promised_ship_days" ∈ ORDERS_OUT_COLS from by decide]

/-- Projecting a canonical frame onto the canonical list is the identity. -/
theorem project_ordersOut {a s p : String} {days : Int} {n : Nat}
    {o1 o2 o3 o4 o5 o6 o7 o8 o9 : List Value} :
    project ORDERS_OUT_COLS (ordersOut a s p days n o1 o2 o3 o4 o5 o6 o7 o8 o9)
      = ordersOut a s p days n o1 o2 o3 o4 o5 o6 o7 o8 o9 := by
  unfold project
  simp only [ORDERS_OUT_COLS, List.flatMap_cons, List.flatMap_nil]
  rw [SCol_eq SCol_oo_account_id,
    SCol_eq SCol_oo_store_id,
    SCol_eq SCol_oo_platform,
    SCol_eq SCol_oo_order_id,
    SCol_eq SCol_oo_order_datetime_utc,
    SCol_eq SCol_oo_sku,
    SCol_eq SCol_oo_quantity_ordered,
    SCol_eq SCol_oo_customer_country,
    SCol_eq SCol_oo_customer_state,
    SCol_eq SCol_oo_order_revenue,
    SCol_eq SCol_oo_currency,
    SCol_eq SCol_oo_shipping_method,
    SCol_eq SCol_oo_promised_ship_days]
  rfl

/-- Re-feeding a canonical orders frame: under the cell invariants that
the pipeline's own cleaners are fixpoints on (trimmed non-empty ids and
skus, timestamp-or-NA datetimes, positive integer quantities, trimmed
uppercase country codes of length at most two, non-NA trimmed states,
float-or-NA revenues, trimmed uppercase currencies, trimmed shipping
methods), a second run with the same tenant parameters and a `"shopify"`
platform hint reproduces the frame exactly, with an empty report. -/
theorem orders_rerun {dp : String → Option Int} {np : String → Option Rat}
    {a s cur : String} {days : Int} {n : Nat}
    {oidF dtF skF qtyF ccF csF revF curF smF : List Value}
    (hn : n ≠ 0)
    (l1 : oidF.length = n) (l2 : dtF.length = n) (l3 : skF.length = n)
    (l4 : qtyF.length = n) (l5 : ccF.length = n) (l6 : csF.length = n)
    (l7 : revF.length = n) (l8 : curF.length = n) (l9 : smF.length = n)
    (hO : ∀ v ∈ oidF, ∃ t, v = .str t ∧ pyStrip t = t ∧ 0 < t.length)
    (hK : ∀ v ∈ skF, ∃ t, v = .str t ∧ pyStrip t = t ∧ pyUpper t = t ∧ 0 < t.length)
    (hD : ∀ v ∈ dtF, (∃ t, v = .ts t) ∨ v = .na)
    (hQ : ∀ v ∈ qtyF, ∃ m, v = .int m ∧ 1 ≤ m)
    (hC : ∀ v ∈ ccF, ∃ t, v = .str t ∧ pyStrip t = t ∧ pyUpper t = t ∧ t.length ≤ 2)
    (hS : ∀ v ∈ csF, ∃ t, v = .str t ∧ pyStrip t = t)
    (hR : ∀ v ∈ revF, (∃ q, v = .float q) ∨ v = .na)
    (hU : ∀ v ∈ curF, ∃ t, v = .str t ∧ pyStrip t = t ∧ pyUpper t = t)
    (hM : ∀ v ∈ smF, ∃ t, v = .str t ∧ pyStrip t = t) :
    normalize_orders dp np
        (some (ordersOut a s "shopify" days n oidF dtF skF qtyF ccF csF revF curF smF))
        a s "shopify" cur days
      = .ok (ordersOut a s "shopify" days n oidF dtF skF qtyF ccF csF revF curF smF, []) := by
  have hpd : pdEmpty (ordersOut a s "shopify" days n oidF dtF skF qtyF ccF csF revF curF smF) = false := by
    simp [pdEmpty, ordersOut, hn]
  have hnF0 : (ordersOut a s "shopify" days n oidF dtF skF qtyF ccF csF revF curF smF).nrows = n := rfl
  unfold normalize_orders
  simp only [hpd, Bool.false_eq_true, if_false]
  simp only [show (pyLower "shopify" == "shopify") = true from by decide, Bool.or_true,
    if_true, setScalar, bind_ok_iff, pure_ok_iff, Prod.mk.injEq]
  rw [canon_labels_ordersOut, ensure_req_ordersOut]
  simp only [hnF0, nrows_setCol]
  have gA0 : SCol (ordersOut a s "shopify" days n oidF dtF skF qtyF ccF csF revF curF smF) "order_id" (oidF) := SCol_oo_order_id
  have gA1 := SCol_setCol_ne (show "account_id" ≠ "order_id" by decide) gA0 (List.replicate n (Value.str a))
  have gA2 := SCol_setCol_ne (show "store_id" ≠ "order_id" by decide) gA1 (List.replicate n (Value.str s))
  have gA3 := SCol_setCol_ne (show "platform" ≠ "order_id" by decide) gA2 (List.replicate n (Value.str "shopify"))
  have gB0 : SCol (ordersOut a s "shopify" days n oidF dtF skF qtyF ccF csF revF curF smF) "sku" (skF) := SCol_oo_sku
  have gB1 := SCol_setCol_ne (show "account_id" ≠ "sku" by decide) gB0 (List.replicate n (Value.str a))
  have gB2 := SCol_setCol_ne (show "store_id" ≠ "sku" by decide) gB1 (List.replicate n (Value.str s))
  have gB3 := SCol_setCol_ne (show "platform" ≠ "sku" by decide) gB2 (List.replicate n (Value.str "shopify"))
  have gB4 := SCol_setCol_ne (show "order_id" ≠ "sku" by decide) gB3 (stripCol oidF)
  have gC0 : SCol (ordersOut a s "shopify" days n oidF dtF skF qtyF ccF csF revF curF smF) "order_datetime_utc" (dtF) := SCol_oo_order_datetime_utc
  have gC1 := SCol_setCol_ne (show "account_id" ≠ "order_datetime_utc" by decide) gC0 (List.replicate n (Value.str a))
  have gC2 := SCol_setCol_ne (show "store_id" ≠ "order_datetime_utc" by decide) gC1 (List.replicate n (Value.str s))
  have gC3 := SCol_setCol_ne (show "platform" ≠ "order_datetime_utc" by decide) gC2 (List.replicate n (Value.str "shopify"))
  have gC4 := SCol_setCol_ne (show "order_id" ≠ "order_datetime_utc" by decide) gC3 (stripCol oidF)
  have gC5 := SCol_setCol_ne (show "sku" ≠ "order_datetime_utc" by decide) gC4 (stripUpperCol skF)
  have gD0 : SCol (ordersOut a s "shopify" days n oidF dtF skF qtyF ccF csF revF curF smF) "quantity_ordered" (qtyF) := SCol_oo_quantity_ordered
  have gD1 := SCol_setCol_ne (show "account_id" ≠ "quantity_ordered" by decide) gD0 (List.replicate n (Value.str a))
  have gD2 := SCol_setCol_ne (show "store_id" ≠ "quantity_ordered" by decide) gD1 (List.replicate n (Value.str s))
  have gD3 := SCol_setCol_ne (show "platform" ≠ "quantity_ordered" by decide) gD2 (List.replicate n (Value.str "shopify"))
  have gD4 := SCol_setCol_ne (show "order_id" ≠ "quantity_ordered" by decide) gD3 (stripCol oidF)
  have gD5 := SCol_setCol_ne (show "sku" ≠ "quantity_ordered" by decide) gD4 (stripUpperCol skF)
  have gD6 := SCol_setCol_ne (show "order_datetime_utc" ≠ "quantity_ordered" by decide) gD5 (List.map (toUtc dp) dtF)
  have gE0 : SCol (ordersOut a s "shopify" days n oidF dtF skF qtyF ccF csF revF curF smF) "quantity_ordered" (qtyF) := SCol_oo_quantity_ordered
  have gE1 := SCol_setCol_ne (show "account_id" ≠ "quantity_ordered" by decide) gE0 (List.replicate n (Value.str a))
  have gE2 := SCol_setCol_ne (show "store_id" ≠ "quantity_ordered" by decide) gE1 (List.replicate n (Value.str s))
  have gE3 := SCol_setCol_ne (show "platform" ≠ "quantity_ordered" by decide) gE2 (List.replicate n (Value.str "shopify"))
  have gE4 := SCol_setCol_ne (show "order_id" ≠ "quantity_ordered" by decide) gE3 (stripCol oidF)
  have gE5 := SCol_setCol_ne (show "sku" ≠ "quantity_ordered" by decide) gE4 (stripUpperCol skF)
  have gE6 := SCol_setCol_ne (show "order_datetime_utc" ≠ "quantity_ordered" by decide) gE5 (List.map (toUtc dp) dtF)
  have gE7 := SCol_setCol_self gE6 (List.map (toIntVal np 1) qtyF)
  have gF0 : SCol (ordersOut a s "shopify" days n oidF dtF skF qtyF ccF csF revF curF smF) "customer_country" (ccF) := SCol_oo_customer_country
  have gF1 := SCol_setCol_ne (show "account_id" ≠ "customer_country" by decide) gF0 (List.replicate n (Value.str a))
  have gF2 := SCol_setCol_ne (show "store_id" ≠ "customer_country" by decide) gF1 (List.replicate n (Value.str s))
  have gF3 := SCol_setCol_ne (show "platform" ≠ "customer_country" by decide) gF2 (List.replicate n (Value.str "shopify"))
  have gF4 := SCol_setCol_ne (show "order_id" ≠ "customer_country" by decide) gF3 (stripCol oidF)
  have gF5 := SCol_setCol_ne (show "sku" ≠ "customer_country" by decide) gF4 (stripUpperCol skF)
  have gF6 := SCol_setCol_ne (show "order_datetime_utc" ≠ "customer_country" by decide) gF5 (List.map (toUtc dp) dtF)
  have gF7 := SCol_setCol_ne (show "quantity_ordered" ≠ "customer_country" by decide) gF6 (List.map (toIntVal np 1) qtyF)
  have gF8 := SCol_setCol_ne (show "quantity_ordered" ≠ "customer_country" by decide) gF7 (List.map clampPos (List.map (toIntVal np 1) qtyF))
  have gG0 : SCol (ordersOut a s "shopify" days n oidF dtF skF qtyF ccF csF revF curF smF) "customer_country" (ccF) := SCol_oo_customer_country
  have gG1 := SCol_setCol_ne (show "account_id" ≠ "customer_country" by decide) gG0 (List.replicate n (Value.str a))
  have gG2 := SCol_setCol_ne (show "store_id" ≠ "customer_country" by decide) gG1 (List.replicate n (Value.str s))
  have gG3 := SCol_setCol_ne (show "platform" ≠ "customer_country" by decide) gG2 (List.replicate n (Value.str "shopify"))
  have gG4 := SCol_setCol_ne (show "order_id" ≠ "customer_country" by decide) gG3 (stripCol oidF)
  have gG5 := SCol_setCol_ne (show "sku" ≠ "customer_country" by decide) gG4 (stripUpperCol skF)
  have gG6 := SCol_setCol_ne (show "order_datetime_utc" ≠ "customer_country" by decide) gG5 (List.map (toUtc dp) dtF)
  have gG7 := SCol_setCol_ne (show "quantity_ordered" ≠ "customer_country" by decide) gG6 (List.map (toIntVal np 1) qtyF)
  have gG8 := SCol_setCol_ne (show "quantity_ordered" ≠ "customer_country" by decide) gG7 (List.map clampPos (List.map (toIntVal np 1) qtyF))
  have gG9 := SCol_setCol_self gG8 (stripUpperCol ccF)
  have gH0 : SCol (ordersOut a s "shopify" days n oidF dtF skF qtyF ccF csF revF curF smF) "customer_state" (csF) := SCol_oo_customer_state
  have gH1 := SCol_setCol_ne (show "account_id" ≠ "customer_state" by decide) gH0 (List.replicate n (Value.str a))
  have gH2 := SCol_setCol_ne (show "store_id" ≠ "customer_state" by decide) gH1 (List.replicate n (Value.str s))
  have gH3 := SCol_setCol_ne (show "platform" ≠ "customer_state" by decide) gH2 (List.replicate n (Value.str "shopify"))
  have gH4 := SCol_setCol_ne (show "order_id" ≠ "customer_state" by decide) gH3 (stripCol oidF)
  have gH5 := SCol_setCol_ne (show "sku" ≠ "customer_state" by decide) gH4 (stripUpperCol skF)
  have gH6 := SCol_setCol_ne (show "order_datetime_utc" ≠ "customer_state" by decide) gH5 (List.map (toUtc dp) dtF)
  have gH7 := SCol_setCol_ne (show "quantity_ordered" ≠ "customer_state" by decide) gH6 (List.map (toIntVal np 1) qtyF)
  have gH8 := SCol_setCol_ne (show "quantity_ordered" ≠ "customer_state" by decide) gH7 (List.map clampPos (List.map (toIntVal np 1) qtyF))
  have gH9 := SCol_setCol_ne (show "customer_country" ≠ "customer_state" by decide) gH8 (stripUpperCol ccF)
  have gH10 := SCol_setCol_ne (show "customer_country" ≠ "customer_state" by decide) gH9 (List.map condTrunc2 (stripUpperCol ccF))
  have gI0 : SCol (ordersOut a s "shopify" days n oidF dtF skF qtyF ccF csF revF curF smF) "order_revenue" (revF) := SCol_oo_order_revenue
  have gI1 := SCol_setCol_ne (show "account_id" ≠ "order_revenue" by decide) gI0 (List.replicate n (Value.str a))
  have gI2 := SCol_setCol_ne (show "store_id" ≠ "order_revenue" by decide) gI1 (List.replicate n (Value.str s))
  have gI3 := SCol_setCol_ne (show "platform" ≠ "order_revenue" by decide) gI2 (List.replicate n (Value.str "shopify"))
  have gI4 := SCol_setCol_ne (show "order_id" ≠ "order_revenue" by decide) gI3 (stripCol oidF)
  have gI5 := SCol_setCol_ne (show "sku" ≠ "order_revenue" by decide) gI4 (stripUpperCol skF)
  have gI6 := SCol_setCol_ne (show "order_datetime_utc" ≠ "order_revenue" by decide) gI5 (List.map (toUtc dp) dtF)
  have gI7 := SCol_setCol_ne (show "quantity_ordered" ≠ "order_revenue" by decide) gI6 (List.map (toIntVal np 1) qtyF)
  have gI8 := SCol_setCol_ne (show "quantity_ordered" ≠ "order_revenue" by decide) gI7 (List.map clampPos (List.map (toIntVal np 1) qtyF))
  have gI9 := SCol_setCol_ne (show "customer_country" ≠ "order_revenue" by decide) gI8 (stripUpperCol ccF)
  have gI10 := SCol_setCol_ne (show "customer_country" ≠ "order_revenue" by decide) gI9 (List.map condTrunc2 (stripUpperCol ccF))
  have gI11 := SCol_setCol_ne (show "customer_state" ≠ "order_revenue" by decide) gI10 (List.map (fun v => Value.str (pyStrip (pySafeStr v))) csF)
  have gJ0 : SCol (ordersOut a s "shopify" days n oidF dtF skF qtyF ccF csF revF curF smF) "currency" (curF) := SCol_oo_currency
  have gJ1 := SCol_setCol_ne (show "account_id" ≠ "currency" by decide) gJ0 (List.replicate n (Value.str a))
  have gJ2 := SCol_setCol_ne (show "store_id" ≠ "currency" by decide) gJ1 (List.replicate n (Value.str s))
  have gJ3 := SCol_setCol_ne (show "platform" ≠ "currency" by decide) gJ2 (List.replicate n (Value.str "shopify"))
  have gJ4 := SCol_setCol_ne (show "order_id" ≠ "currency" by decide) gJ3 (stripCol oidF)
  have gJ5 := SCol_setCol_ne (show "sku" ≠ "currency" by decide) gJ4 (stripUpperCol skF)
  have gJ6 := SCol_setCol_ne (show "order_datetime_utc" ≠ "currency" by decide) gJ5 (List.map (toUtc dp) dtF)
  have gJ7 := SCol_setCol_ne (show "quantity_ordered" ≠ "currency" by decide) gJ6 (List.map (toIntVal np 1) qtyF)
  have gJ8 := SCol_setCol_ne (show "quantity_ordered" ≠ "currency" by decide) gJ7 (List.map clampPos (List.map (toIntVal np 1) qtyF))
  have gJ9 := SCol_setCol_ne (show "customer_country" ≠ "currency" by decide) gJ8 (stripUpperCol ccF)
  have gJ10 := SCol_setCol_ne (show "customer_country" ≠ "currency" by decide) gJ9 (List.map condTrunc2 (stripUpperCol ccF))
  have gJ11 := SCol_setCol_ne (show "customer_state" ≠ "currency" by decide) gJ10 (List.map (fun v => Value.str (pyStrip (pySafeStr v))) csF)
  have gJ12 := SCol_setCol_ne (show "order_revenue" ≠ "currency" by decide) gJ11 (List.map (toFloatVal np) revF)
  have gK0 : SCol (ordersOut a s "shopify" days n oidF dtF skF qtyF ccF csF revF curF smF) "shipping_method" (smF) := SCol_oo_shipping_method
  have gK1 := SCol_setCol_ne (show "account_id" ≠ "shipping_method" by decide) gK0 (List.replicate n (Value.str a))
  have gK2 := SCol_setCol_ne (show "store_id" ≠ "shipping_method" by decide) gK1 (List.replicate n (Value.str s))
  have gK3 := SCol_setCol_ne (show "platform" ≠ "shipping_method" by decide) gK2 (List.replicate n (Value.str "shopify"))
  have gK4 := SCol_setCol_ne (show "order_id" ≠ "shipping_method" by decide) gK3 (stripCol oidF)
  have gK5 := SCol_setCol_ne (show "sku" ≠ "shipping_method" by decide) gK4 (stripUpperCol skF)
  have gK6 := SCol_setCol_ne (show "order_datetime_utc" ≠ "shipping_method" by decide) gK5 (List.map (toUtc dp) dtF)
  have gK7 := SCol_setCol_ne (show "quantity_ordered" ≠ "shipping_method" by decide) gK6 (List.map (toIntVal np 1) qtyF)
  have gK8 := SCol_setCol_ne (show "quantity_ordered" ≠ "shipping_method" by decide) gK7 (List.map clampPos (List.map (toIntVal np 1) qtyF))
  have gK9 := SCol_setCol_ne (show "customer_country" ≠ "shipping_method" by decide) gK8 (stripUpperCol ccF)
  have gK10 := SCol_setCol_ne (show "customer_country" ≠ "shipping_method" by decide) gK9 (List.map condTrunc2 (stripUpperCol ccF))
  have gK11 := SCol_setCol_ne (show "customer_state" ≠ "shipping_method" by decide) gK10 (List.map (fun v => Value.str (pyStrip (pySafeStr v))) csF)
  have gK12 := SCol_setCol_ne (show "order_revenue" ≠ "shipping_method" by decide) gK11 (List.map (toFloatVal np) revF)
  have gK13 := SCol_setCol_ne (show "currency" ≠ "shipping_method" by decide) gK12 (stripUpperCol curF)
  have gL0 : SCol (ordersOut a s "shopify" days n oidF dtF skF qtyF ccF csF revF curF smF) "order_id" (oidF) := SCol_oo_order_id
  have gL1 := SCol_setCol_ne (show "account_id" ≠ "order_id" by decide) gL0 (List.replicate n (Value.str a))
  have gL2 := SCol_setCol_ne (show "store_id" ≠ "order_id" by decide) gL1 (List.replicate n (Value.str s))
  have gL3 := SCol_setCol_ne (show "platform" ≠ "order_id" by decide) gL2 (List.replicate n (Value.str "shopify"))
  have gL4 := SCol_setCol_self gL3 (stripCol oidF)
  have gL5 := SCol_setCol_ne (show "sku" ≠ "order_id" by decide) gL4 (stripUpperCol skF)
  have gL6 := SCol_setCol_ne (show "order_datetime_utc" ≠ "order_id" by decide) gL5 (List.map (toUtc dp) dtF)
  have gL7 := SCol_setCol_ne (show "quantity_ordered" ≠ "order_id" by decide) gL6 (List.map (toIntVal np 1) qtyF)
  have gL8 := SCol_setCol_ne (show "quantity_ordered" ≠ "order_id" by decide) gL7 (List.map clampPos (List.map (toIntVal np 1) qtyF))
  have gL9 := SCol_setCol_ne (show "customer_country" ≠ "order_id" by decide) gL8 (stripUpperCol ccF)
  have gL10 := SCol_setCol_ne (show "customer_country" ≠ "order_id" by decide) gL9 (List.map condTrunc2 (stripUpperCol ccF))
  have gL11 := SCol_setCol_ne (show "customer_state" ≠ "order_id" by decide) gL10 (List.map (fun v => Value.str (pyStrip (pySafeStr v))) csF)
  have gL12 := SCol_setCol_ne (show "order_revenue" ≠ "order_id" by decide) gL11 (List.map (toFloatVal np) revF)
  have gL13 := SCol_setCol_ne (show "currency" ≠ "order_id" by decide) gL12 (stripUpperCol curF)
  have gL14 := SCol_setCol_ne (show "shipping_method" ≠ "order_id" by decide) gL13 (stripCol smF)
  have gL15 := SCol_setCol_ne (show "promised_ship_days" ≠ "order_id" by decide) gL14 (List.replicate (setCol (setCol (setCol (setCol (setCol (setCol (setCol (setCol (setCol (setCol (setCol (setCol (setCol (setCol (ordersOut a s "shopify" days n oidF dtF skF qtyF ccF csF revF curF smF) "account_id" (List.replicate n (Value.str a))) "store_id" (List.replicate n (Value.str s))) "platform" (List.replicate n (Value.str "shopify"))) "order_id" (stripCol oidF)) "sku" (stripUpperCol skF)) "order_datetime_utc" (List.map (toUtc dp) dtF)) "quantity_ordered" (List.map (toIntVal np 1) qtyF)) "quantity_ordered" (List.map clampPos (List.map (toIntVal np 1) qtyF))) "customer_country" (stripUpperCol ccF)) "customer_country" (List.map condTrunc2 (stripUpperCol ccF))) "customer_state" (List.map (fun v => Value.str (pyStrip (pySafeStr v))) csF)) "order_revenue" (List.map (toFloatVal np) revF)) "currency" (stripUpperCol curF)) "shipping_method" (stripCol smF)).nrows (Value.int days))
  have gM0 : SCol (ordersOut a s "shopify" days n oidF dtF skF qtyF ccF csF revF curF smF) "sku" (skF) := SCol_oo_sku
  have gM1 := SCol_setCol_ne (show "account_id" ≠ "sku" by decide) gM0 (List.replicate n (Value.str a))
  have gM2 := SCol_setCol_ne (show "store_id" ≠ "sku" by decide) gM1 (List.replicate n (Value.str s))
  have gM3 := SCol_setCol_ne (show "platform" ≠ "sku" by decide) gM2 (List.replicate n (Value.str "shopify"))
  have gM4 := SCol_setCol_ne (show "order_id" ≠ "sku" by decide) gM3 (stripCol oidF)
  have gM5 := SCol_setCol_self gM4 (stripUpperCol skF)
  have gM6 := SCol_setCol_ne (show "order_datetime_utc" ≠ "sku" by decide) gM5 (List.map (toUtc dp) dtF)
  have gM7 := SCol_setCol_ne (show "quantity_ordered" ≠ "sku" by decide) gM6 (List.map (toIntVal np 1) qtyF)
  have gM8 := SCol_setCol_ne (show "quantity_ordered" ≠ "sku" by decide) gM7 (List.map clampPos (List.map (toIntVal np 1) qtyF))
  have gM9 := SCol_setCol_ne (show "customer_country" ≠ "sku" by decide) gM8 (stripUpperCol ccF)
  have gM10 := SCol_setCol_ne (show "customer_country" ≠ "sku" by decide) gM9 (List.map condTrunc2 (stripUpperCol ccF))
  have gM11 := SCol_setCol_ne (show "customer_state" ≠ "sku" by decide) gM10 (List.map (fun v => Value.str (pyStrip (pySafeStr v))) csF)
  have gM12 := SCol_setCol_ne (show "order_revenue" ≠ "sku" by decide) gM11 (List.map (toFloatVal np) revF)
  have gM13 := SCol_setCol_ne (show "currency" ≠ "sku" by decide) gM12 (stripUpperCol curF)
  have gM14 := SCol_setCol_ne (show "shipping_method" ≠ "sku" by decide) gM13 (stripCol smF)
  have gM15 := SCol_setCol_ne (show "promised_ship_days" ≠ "sku" by decide) gM14 (List.replicate (setCol (setCol (setCol (setCol (setCol (setCol (setCol (setCol (setCol (setCol (setCol (setCol (setCol (setCol (ordersOut a s "shopify" days n oidF dtF skF qtyF ccF csF revF curF smF) "account_id" (List.replicate n (Value.str a))) "store_id" (List.replicate n (Value.str s))) "platform" (List.replicate n (Value.str "shopify"))) "order_id" (stripCol oidF)) "sku" (stripUpperCol skF)) "order_datetime_utc" (List.map (toUtc dp) dtF)) "quantity_ordered" (List.map (toIntVal np 1) qtyF)) "quantity_ordered" (List.map clampPos (List.map (toIntVal np 1) qtyF))) "customer_country" (stripUpperCol ccF)) "customer_country" (List.map condTrunc2 (stripUpperCol ccF))) "customer_state" (List.map (fun v => Value.str (pyStrip (pySafeStr v))) csF)) "order_revenue" (List.map (toFloatVal np) revF)) "currency" (stripUpperCol curF)) "shipping_method" (stripCol smF)).nrows (Value.int days))
  have gN0 : SCol (ordersOut a s "shopify" days n oidF dtF skF qtyF ccF csF revF curF smF) "order_datetime_utc" (dtF) := SCol_oo_order_datetime_utc
  have gN1 := SCol_setCol_ne (show "account_id" ≠ "order_datetime_utc" by decide) gN0 (List.replicate n (Value.str a))
  have gN2 := SCol_setCol_ne (show "store_id" ≠ "order_datetime_utc" by decide) gN1 (List.replicate n (Value.str s))
  have gN3 := SCol_setCol_ne (show "platform" ≠ "order_datetime_utc" by decide) gN2 (List.replicate n (Value.str "shopify"))
  have gN4 := SCol_setCol_ne (show "order_id" ≠ "order_datetime_utc" by decide) gN3 (stripCol oidF)
  have gN5 := SCol_setCol_ne (show "sku" ≠ "order_datetime_utc" by decide) gN4 (stripUpperCol skF)
  have gN6 := SCol_setCol_self gN5 (List.map (toUtc dp) dtF)
  have gN7 := SCol_setCol_ne (show "quantity_ordered" ≠ "order_datetime_utc" by decide) gN6 (List.map (toIntVal np 1) qtyF)
  have gN8 := SCol_setCol_ne (show "quantity_ordered" ≠ "order_datetime_utc" by decide) gN7 (List.map clampPos (List.map (toIntVal np 1) qtyF))
  have gN9 := SCol_setCol_ne (show "customer_country" ≠ "order_datetime_utc" by decide) gN8 (stripUpperCol ccF)
  have gN10 := SCol_setCol_ne (show "customer_country" ≠ "order_datetime_utc" by decide) gN9 (List.map condTrunc2 (stripUpperCol ccF))
  have gN11 := SCol_setCol_ne (show "customer_state" ≠ "order_datetime_utc" by decide) gN10 (List.map (fun v => Value.str (pyStrip (pySafeStr v))) csF)
  have gN12 := SCol_setCol_ne (show "order_revenue" ≠ "order_datetime_utc" by decide) gN11 (List.map (toFloatVal np) revF)
  have gN13 := SCol_setCol_ne (show "currency" ≠ "order_datetime_utc" by decide) gN12 (stripUpperCol curF)
  have gN14 := SCol_setCol_ne (show "shipping_method" ≠ "order_datetime_utc" by decide) gN13 (stripCol smF)
  have gN15 := SCol_setCol_ne (show "promised_ship_days" ≠ "order_datetime_utc" by decide) gN14 (List.replicate (setCol (setCol (setCol (setCol (setCol (setCol (setCol (setCol (setCol (setCol (setCol (setCol (setCol (setCol (ordersOut a s "shopify" days n oidF dtF skF qtyF ccF csF revF curF smF) "account_id" (List.replicate n (Value.str a))) "store_id" (List.replicate n (Value.str s))) "platform" (List.replicate n (Value.str "shopify"))) "order_id" (stripCol oidF)) "sku" (stripUpperCol skF)) "order_datetime_utc" (List.map (toUtc dp) dtF)) "quantity_ordered" (List.map (toIntVal np 1) qtyF)) "quantity_ordered" (List.map clampPos (List.map (toIntVal np 1) qtyF))) "customer_country" (stripUpperCol ccF)) "customer_country" (List.map condTrunc2 (stripUpperCol ccF))) "customer_state" (List.map (fun v => Value.str (pyStrip (pySafeStr v))) csF)) "order_revenue" (List.map (toFloatVal np) revF)) "currency" (stripUpperCol curF)) "shipping_method" (stripCol smF)).nrows (Value.int days))
  have gP0 : SCol (ordersOut a s "shopify" days n oidF dtF skF qtyF ccF csF revF curF smF) "quantity_ordered" (qtyF) := SCol_oo_quantity_ordered
  have gP1 := SCol_setCol_ne (show "account_id" ≠ "quantity_ordered" by decide) gP0 (List.replicate n (Value.str a))
  have gP2 := SCol_setCol_ne (show "store_id" ≠ "quantity_ordered" by decide) gP1 (List.replicate n (Value.str s))
  have gP3 := SCol_setCol_ne (show "platform" ≠ "quantity_ordered" by decide) gP2 (List.replicate n (Value.str "shopify"))
  have gP4 := SCol_setCol_ne (show "order_id" ≠ "quantity_ordered" by decide) gP3 (stripCol oidF)
  have gP5 := SCol_setCol_ne (show "sku" ≠ "quantity_ordered" by decide) gP4 (stripUpperCol skF)
  have gP6 := SCol_setCol_ne (show "order_datetime_utc" ≠ "quantity_ordered" by decide) gP5 (List.map (toUtc dp) dtF)
  have gP7 := SCol_setCol_self gP6 (List.map (toIntVal np 1) qtyF)
  have gP8 := SCol_setCol_self gP7 (List.map clampPos (List.map (toIntVal np 1) qtyF))
  have gP9 := SCol_setCol_ne (show "customer_country" ≠ "quantity_ordered" by decide) gP8 (stripUpperCol ccF)
  have gP10 := SCol_setCol_ne (show "customer_country" ≠ "quantity_ordered" by decide) gP9 (List.map condTrunc2 (stripUpperCol ccF))
  have gP11 := SCol_setCol_ne (show "customer_state" ≠ "quantity_ordered" by decide) gP10 (List.map (fun v => Value.str (pyStrip (pySafeStr v))) csF)
  have gP12 := SCol_setCol_ne (show "order_revenue" ≠ "quantity_ordered" by decide) gP11 (List.map (toFloatVal np) revF)
  have gP13 := SCol_setCol_ne (show "currency" ≠ "quantity_ordered" by decide) gP12 (stripUpperCol curF)
  have gP14 := SCol_setCol_ne (show "shipping_method" ≠ "quantity_ordered" by decide) gP13 (stripCol smF)
  have gP15 := SCol_setCol_ne (show "promised_ship_days" ≠ "quantity_ordered" by decide) gP14 (List.replicate (setCol (setCol (setCol (setCol (setCol (setCol (setCol (setCol (setCol (setCol (setCol (setCol (setCol (setCol (ordersOut a s "shopify" days n oidF dtF skF qtyF ccF csF revF curF smF) "account_id" (List.replicate n (Value.str a))) "store_id" (List.replicate n (Value.str s))) "platform" (List.replicate n (Value.str "shopify"))) "order_id" (stripCol oidF)) "sku" (stripUpperCol skF)) "order_datetime_utc" (List.map (toUtc dp) dtF)) "quantity_ordered" (List.map (toIntVal np 1) qtyF)) "quantity_ordered" (List.map clampPos (List.map (toIntVal np 1) qtyF))) "customer_country" (stripUpperCol ccF)) "customer_country" (List.map condTrunc2 (stripUpperCol ccF))) "customer_state" (List.map (fun v => Value.str (pyStrip (pySafeStr v))) csF)) "order_revenue" (List.map (toFloatVal np) revF)) "currency" (stripUpperCol curF)) "shipping_method" (stripCol smF)).nrows (Value.int days))
  have gR0 : SCol (ordersOut a s "shopify" days n oidF dtF skF qtyF ccF csF revF curF smF) "customer_country" (ccF) := SCol_oo_customer_country
  have gR1 := SCol_setCol_ne (show "account_id" ≠ "customer_country" by decide) gR0 (List.replicate n (Value.str a))
  have gR2 := SCol_setCol_ne (show "store_id" ≠ "customer_country" by decide) gR1 (List.replicate n (Value.str s))
  have gR3 := SCol_setCol_ne (show "platform" ≠ "customer_country" by decide) gR2 (List.replicate n (Value.str "shopify"))
  have gR4 := SCol_setCol_ne (show "order_id" ≠ "customer_country" by decide) gR3 (stripCol oidF)
  have gR5 := SCol_setCol_ne (show "sku" ≠ "customer_country" by decide) gR4 (stripUpperCol skF)
  have gR6 := SCol_setCol_ne (show "order_datetime_utc" ≠ "customer_country" by decide) gR5 (List.map (toUtc dp) dtF)
  have gR7 := SCol_setCol_ne (show "quantity_ordered" ≠ "customer_country" by decide) gR6 (List.map (toIntVal np 1) qtyF)
  have gR8 := SCol_setCol_ne (show "quantity_ordered" ≠ "customer_country" by decide) gR7 (List.map clampPos (List.map (toIntVal np 1) qtyF))
  have gR9 := SCol_setCol_self gR8 (stripUpperCol ccF)
  have gR10 := SCol_setCol_self gR9 (List.map condTrunc2 (stripUpperCol ccF))
  have gR11 := SCol_setCol_ne (show "customer_state" ≠ "customer_country" by decide) gR10 (List.map (fun v => Value.str (pyStrip (pySafeStr v))) csF)
  have gR12 := SCol_setCol_ne (show "order_revenue" ≠ "customer_country" by decide) gR11 (List.map (toFloatVal np) revF)
  have gR13 := SCol_setCol_ne (show "currency" ≠ "customer_country" by decide) gR12 (stripUpperCol curF)
  have gR14 := SCol_setCol_ne (show "shipping_method" ≠ "customer_country" by decide) gR13 (stripCol smF)
  have gR15 := SCol_setCol_ne (show "promised_ship_days" ≠ "customer_country" by decide) gR14 (List.replicate (setCol (setCol (setCol (setCol (setCol (setCol (setCol (setCol (setCol (setCol (setCol (setCol (setCol (setCol (ordersOut a s "shopify" days n oidF dtF skF qtyF ccF csF revF curF smF) "account_id" (List.replicate n (Value.str a))) "store_id" (List.replicate n (Value.str s))) "platform" (List.replicate n (Value.str "shopify"))) "order_id" (stripCol oidF)) "sku" (stripUpperCol skF)) "order_datetime_utc" (List.map (toUtc dp) dtF)) "quantity_ordered" (List.map (toIntVal np 1) qtyF)) "quantity_ordered" (List.map clampPos (List.map (toIntVal np 1) qtyF))) "customer_country" (stripUpperCol ccF)) "customer_country" (List.map condTrunc2 (stripUpperCol ccF))) "customer_state" (List.map (fun v => Value.str (pyStrip (pySafeStr v))) csF)) "order_revenue" (List.map (toFloatVal np) revF)) "currency" (stripUpperCol curF)) "shipping_method" (stripCol smF)).nrows (Value.int days))
  have gM16 := SCol_maskRows gM15 (List.map keepNonEmptyStr (stripCol oidF))
  refine ⟨oidF, getSeries_of_SCol gA3, skF, getSeries_of_SCol gB4,
    dtF, getSeries_of_SCol gC5, qtyF, getSeries_of_SCol gD6,
    _, getSeries_of_SCol gE7, ccF, getSeries_of_SCol gF8,
    _, getSeries_of_SCol gG9,
    _, optStrColWith_of_SCol pyStrip gH10,
    _, optCleanOrScalar_of_SCol gI11,
    _, optCleanOrScalar_of_SCol gJ12,
    _, optCleanOrScalar_of_SCol gK13,
    _, filterNonEmptyStr_of_SCol gL15,
    _, filterNonEmptyStr_of_SCol gM16, ?_, ?_⟩
  · have eO : stripCol oidF = oidF :=
      stripCol_fix (fun v hv => (hO v hv).imp (fun t ht => ⟨ht.1, ht.2.1⟩))
    have eK : stripUpperCol skF = skF :=
      stripUpperCol_fix (fun v hv => (hK v hv).imp (fun t ht => ⟨ht.1, ht.2.1, ht.2.2.1⟩))
    have eD : List.map (toUtc dp) dtF = dtF := toUtc_fix hD
    have eQ1 : List.map (toIntVal np 1) qtyF = qtyF :=
      toIntVal_fix (fun v hv => (hQ v hv).imp (fun m hm => hm.1))
    have eQ2 : List.map clampPos qtyF = qtyF := clampPos_fix hQ
    have eC1 : stripUpperCol ccF = ccF :=
      stripUpperCol_fix (fun v hv => (hC v hv).imp (fun t ht => ⟨ht.1, ht.2.1, ht.2.2.1⟩))
    have eC2 : List.map condTrunc2 ccF = ccF :=
      condTrunc2_fix (fun v hv => (hC v hv).imp (fun t ht => ⟨ht.1, ht.2.2.2⟩))
    have eS : List.map (fun v => Value.str (pyStrip (pySafeStr v))) csF = csF :=
      stripCol_fix hS
    have eR : List.map (toFloatVal np) revF = revF := toFloatVal_fix hR
    have eU : stripUpperCol curF = curF := stripUpperCol_fix hU
    have eM : stripCol smF = smF := stripCol_fix hM
    rw [eO, eK, eD, eQ1, eQ2, eC1, eC2, eS, eR, eU, eM]
    have hnr : (setCol (setCol (setCol (setCol (setCol (setCol (setCol (setCol (setCol (setCol (setCol (setCol (setCol (setCol (ordersOut a s "shopify" days n oidF dtF skF qtyF ccF csF revF curF smF) "account_id" (List.replicate n (Value.str a))) "store_id" (List.replicate n (Value.str s))) "platform" (List.replicate n (Value.str "shopify"))) "order_id" (oidF)) "sku" (skF)) "order_datetime_utc" (dtF)) "quantity_ordered" (qtyF)) "quantity_ordered" (qtyF)) "customer_country" (ccF)) "customer_country" (ccF)) "customer_state" (csF)) "order_revenue" (revF)) "currency" (curF)) "shipping_method" (smF)).nrows = n := by
      simp only [nrows_setCol, hnF0]
    rw [hnr]
    have w0 : (ordersOut a s "shopify" days n oidF dtF skF qtyF ccF csF revF curF smF).WF := by
      intro c hc
      simp only [ordersOut, List.mem_cons, List.not_mem_nil, or_false] at hc
      rcases hc with rfl|rfl|rfl|rfl|rfl|rfl|rfl|rfl|rfl|rfl|rfl|rfl|rfl <;>
        simp [ordersOut, l1, l2, l3, l4, l5, l6, l7, l8, l9]
    have w1 := @WF_setCol _ "account_id" (List.replicate n (Value.str a)) w0 (by simp only [List.length_replicate, nrows_setCol, hnF0])
    have w2 := @WF_setCol _ "store_id" (List.replicate n (Value.str s)) w1 (by simp only [List.length_replicate, nrows_setCol, hnF0])
    have w3 := @WF_setCol _ "platform" (List.replicate n (Value.str "shopify")) w2 (by simp only [List.length_replicate, nrows_setCol, hnF0])
    have w4 := @WF_setCol _ "order_id" (oidF) w3 (by simp only [nrows_setCol, hnF0, l1])
    have w5 := @WF_setCol _ "sku" (skF) w4 (by simp only [nrows_setCol, hnF0, l3])
    have w6 := @WF_setCol _ "order_datetime_utc" (dtF) w5 (by simp only [nrows_setCol, hnF0, l2])
    have w7 := @WF_setCol _ "quantity_ordered" (qtyF) w6 (by simp only [nrows_setCol, hnF0, l4])
    have w8 := @WF_setCol _ "quantity_ordered" (qtyF) w7 (by simp only [nrows_setCol, hnF0, l4])
    have w9 := @WF_setCol _ "customer_country" (ccF) w8 (by simp only [nrows_setCol, hnF0, l5])
    have w10 := @WF_setCol _ "customer_country" (ccF) w9 (by simp only [nrows_setCol, hnF0, l5])
    have w11 := @WF_setCol _ "customer_state" (csF) w10 (by simp only [nrows_setCol, hnF0, l6])
    have w12 := @WF_setCol _ "order_revenue" (revF) w11 (by simp only [nrows_setCol, hnF0, l7])
    have w13 := @WF_setCol _ "currency" (curF) w12 (by simp only [nrows_setCol, hnF0, l8])
    have w14 := @WF_setCol _ "shipping_method" (smF) w13 (by simp only [nrows_setCol, hnF0, l9])
    have w15 := @WF_setCol _ "promised_ship_days" (List.replicate n (Value.int days)) w14 (by simp only [List.length_replicate, nrows_setCol, hnF0])
    have hM1rep : List.map keepNonEmptyStr oidF = List.replicate n true := by
      refine List.eq_replicate_iff.mpr ⟨by simp [l1], ?_⟩
      intro b hb
      obtain ⟨v, hv, rfl⟩ := List.mem_map.mp hb
      obtain ⟨t, rfl, _, htl⟩ := hO v hv
      simp [keepNonEmptyStr, htl]
    have hM2rep : List.map keepNonEmptyStr skF = List.replicate n true := by
      refine List.eq_replicate_iff.mpr ⟨by simp [l3], ?_⟩
      intro b hb
      obtain ⟨v, hv, rfl⟩ := List.mem_map.mp hb
      obtain ⟨t, rfl, _, _, htl⟩ := hK v hv
      simp [keepNonEmptyStr, htl]
    have happ : applyMask (List.replicate n true) skF = skF :=
      applyMask_all_true (fun b hb => List.eq_of_mem_replicate hb) (by simp [l3])
    have hmk : maskRows (List.replicate n true) (setCol (setCol (setCol (setCol (setCol (setCol (setCol (setCol (setCol (setCol (setCol (setCol (setCol (setCol (setCol (ordersOut a s "shopify" days n oidF dtF skF qtyF ccF csF revF curF smF) "account_id" (List.replicate n (Value.str a))) "store_id" (List.replicate n (Value.str s))) "platform" (List.replicate n (Value.str "shopify"))) "order_id" (oidF)) "sku" (skF)) "order_datetime_utc" (dtF)) "quantity_ordered" (qtyF)) "quantity_ordered" (qtyF)) "customer_country" (ccF)) "customer_country" (ccF)) "customer_state" (csF)) "order_revenue" (revF)) "currency" (curF)) "shipping_method" (smF)) "promised_ship_days" (List.replicate n (Value.int days))) = (setCol (setCol (setCol (setCol (setCol (setCol (setCol (setCol (setCol (setCol (setCol (setCol (setCol (setCol (setCol (ordersOut a s "shopify" days n oidF dtF skF qtyF ccF csF revF curF smF) "account_id" (List.replicate n (Value.str a))) "store_id" (List.replicate n (Value.str s))) "platform" (List.replicate n (Value.str "shopify"))) "order_id" (oidF)) "sku" (skF)) "order_datetime_utc" (dtF)) "quantity_ordered" (qtyF)) "quantity_ordered" (qtyF)) "customer_country" (ccF)) "customer_country" (ccF)) "customer_state" (csF)) "order_revenue" (revF)) "currency" (curF)) "shipping_method" (smF)) "promised_ship_days" (List.replicate n (Value.int days))) :=
      maskRows_all_true (fun b hb => List.eq_of_mem_replicate hb)
        (by simp only [List.length_replicate, nrows_setCol, hnF0]) w15
    rw [hM1rep, hmk, happ, hM2rep, hmk]
    have p15s0 : SCol (ordersOut a s "shopify" days n oidF dtF skF qtyF ccF csF revF curF smF) "promised_ship_days" (List.replicate n (Value.int days)) := SCol_oo_promised_ship_days
    have p15s1 := SCol_setCol_ne (show "account_id" ≠ "promised_ship_days" by decide) p15s0 (List.replicate n (Value.str a))
    have p15s2 := SCol_setCol_ne (show "store_id" ≠ "promised_ship_days" by decide) p15s1 (List.replicate n (Value.str s))
    have p15s3 := SCol_setCol_ne (show "platform" ≠ "promised_ship_days" by decide) p15s2 (List.replicate n (Value.str "shopify"))
    have p15s4 := SCol_setCol_ne (show "order_id" ≠ "promised_ship_days" by decide) p15s3 (oidF)
    have p15s5 := SCol_setCol_ne (show "sku" ≠ "promised_ship_days" by decide) p15s4 (skF)
    have p15s6 := SCol_setCol_ne (show "order_datetime_utc" ≠ "promised_ship_days" by decide) p15s5 (dtF)
    have p15s7 := SCol_setCol_ne (show "quantity_ordered" ≠ "promised_ship_days" by decide) p15s6 (qtyF)
    have p15s8 := SCol_setCol_ne (show "quantity_ordered" ≠ "promised_ship_days" by decide) p15s7 (qtyF)
    have p15s9 := SCol_setCol_ne (show "customer_country" ≠ "promised_ship_days" by decide) p15s8 (ccF)
    have p15s10 := SCol_setCol_ne (show "customer_country" ≠ "promised_ship_days" by decide) p15s9 (ccF)
    have p15s11 := SCol_setCol_ne (show "customer_state" ≠ "promised_ship_days" by decide) p15s10 (csF)
    have p15s12 := SCol_setCol_ne (show "order_revenue" ≠ "promised_ship_days" by decide) p15s11 (revF)
    have p15s13 := SCol_setCol_ne (show "currency" ≠ "promised_ship_days" by decide) p15s12 (curF)
    have p15s14 := SCol_setCol_ne (show "shipping_method" ≠ "promised_ship_days" by decide) p15s13 (smF)
    have p14s0 : SCol (ordersOut a s "shopify" days n oidF dtF skF qtyF ccF csF revF curF smF) "shipping_method" (smF) := SCol_oo_shipping_method
    have p14s1 := SCol_setCol_ne (show "account_id" ≠ "shipping_method" by decide) p14s0 (List.replicate n (Value.str a))
    have p14s2 := SCol_setCol_ne (show "store_id" ≠ "shipping_method" by decide) p14s1 (List.replicate n (Value.str s))
    have p14s3 := SCol_setCol_ne (show "platform" ≠ "shipping_method" by decide) p14s2 (List.replicate n (Value.str "shopify"))
    have p14s4 := SCol_setCol_ne (show "order_id" ≠ "shipping_method" by decide) p14s3 (oidF)
    have p14s5 := SCol_setCol_ne (show "sku" ≠ "shipping_method" by decide) p14s4 (skF)
    have p14s6 := SCol_setCol_ne (show "order_datetime_utc" ≠ "shipping_method" by decide) p14s5 (dtF)
    have p14s7 := SCol_setCol_ne (show "quantity_ordered" ≠ "shipping_method" by decide) p14s6 (qtyF)
    have p14s8 := SCol_setCol_ne (show "quantity_ordered" ≠ "shipping_method" by decide) p14s7 (qtyF)
    have p14s9 := SCol_setCol_ne (show "customer_country" ≠ "shipping_method" by decide) p14s8 (ccF)
    have p14s10 := SCol_setCol_ne (show "customer_country" ≠ "shipping_method" by decide) p14s9 (ccF)
    have p14s11 := SCol_setCol_ne (show "customer_state" ≠ "shipping_method" by decide) p14s10 (csF)
    have p14s12 := SCol_setCol_ne (show "order_revenue" ≠ "shipping_method" by decide) p14s11 (revF)
    have p14s13 := SCol_setCol_ne (show "currency" ≠ "shipping_method" by decide) p14s12 (curF)
    have p13s0 : SCol (ordersOut a s "shopify" days n oidF dtF skF qtyF ccF csF revF curF smF) "currency" (curF) := SCol_oo_currency
    have p13s1 := SCol_setCol_ne (show "account_id" ≠ "currency" by decide) p13s0 (List.replicate n (Value.str a))
    have p13s2 := SCol_setCol_ne (show "store_id" ≠ "currency" by decide) p13s1 (List.replicate n (Value.str s))
    have p13s3 := SCol_setCol_ne (show "platform" ≠ "currency" by decide) p13s2 (List.replicate n (Value.str "shopify"))
    have p13s4 := SCol_setCol_ne (show "order_id" ≠ "currency" by decide) p13s3 (oidF)
    have p13s5 := SCol_setCol_ne (show "sku" ≠ "currency" by decide) p13s4 (skF)
    have p13s6 := SCol_setCol_ne (show "order_datetime_utc" ≠ "currency" by decide) p13s5 (dtF)
    have p13s7 := SCol_setCol_ne (show "quantity_ordered" ≠ "currency" by decide) p13s6 (qtyF)
    have p13s8 := SCol_setCol_ne (show "quantity_ordered" ≠ "currency" by decide) p13s7 (qtyF)
    have p13s9 := SCol_setCol_ne (show "customer_country" ≠ "currency" by decide) p13s8 (ccF)
    have p13s10 := SCol_setCol_ne (show "customer_country" ≠ "currency" by decide) p13s9 (ccF)
    have p13s11 := SCol_setCol_ne (show "customer_state" ≠ "currency" by decide) p13s10 (csF)
    have p13s12 := SCol_setCol_ne (show "order_revenue" ≠ "currency" by decide) p13s11 (revF)
    have p12s0 : SCol (ordersOut a s "shopify" days n oidF dtF skF qtyF ccF csF revF curF smF) "order_revenue" (revF) := SCol_oo_order_revenue
    have p12s1 := SCol_setCol_ne (show "account_id" ≠ "order_revenue" by decide) p12s0 (List.replicate n (Value.str a))
    have p12s2 := SCol_setCol_ne (show "store_id" ≠ "order_revenue" by decide) p12s1 (List.replicate n (Value.str s))
    have p12s3 := SCol_setCol_ne (show "platform" ≠ "order_revenue" by decide) p12s2 (List.replicate n (Value.str "shopify"))
    have p12s4 := SCol_setCol_ne (show "order_id" ≠ "order_revenue" by decide) p12s3 (oidF)
    have p12s5 := SCol_setCol_ne (show "sku" ≠ "order_revenue" by decide) p12s4 (skF)
    have p12s6 := SCol_setCol_ne (show "order_datetime_utc" ≠ "order_revenue" by decide) p12s5 (dtF)
    have p12s7 := SCol_setCol_ne (show "quantity_ordered" ≠ "order_revenue" by decide) p12s6 (qtyF)
    have p12s8 := SCol_setCol_ne (show "quantity_ordered" ≠ "order_revenue" by decide) p12s7 (qtyF)
    have p12s9 := SCol_setCol_ne (show "customer_country" ≠ "order_revenue" by decide) p12s8 (ccF)
    have p12s10 := SCol_setCol_ne (show "customer_country" ≠ "order_revenue" by decide) p12s9 (ccF)
    have p12s11 := SCol_setCol_ne (show "customer_state" ≠ "order_revenue" by decide) p12s10 (csF)
    have p11s0 : SCol (ordersOut a s "shopify" days n oidF dtF skF qtyF ccF csF revF curF smF) "customer_state" (csF) := SCol_oo_customer_state
    have p11s1 := SCol_setCol_ne (show "account_id" ≠ "customer_state" by decide) p11s0 (List.replicate n (Value.str a))
    have p11s2 := SCol_setCol_ne (show "store_id" ≠ "customer_state" by decide) p11s1 (List.replicate n (Value.str s))
    have p11s3 := SCol_setCol_ne (show "platform" ≠ "customer_state" by decide) p11s2 (List.replicate n (Value.str "shopify"))
    have p11s4 := SCol_setCol_ne (show "order_id" ≠ "customer_state" by decide) p11s3 (oidF)
    have p11s5 := SCol_setCol_ne (show "sku" ≠ "customer_state" by decide) p11s4 (skF)
    have p11s6 := SCol_setCol_ne (show "order_datetime_utc" ≠ "customer_state" by decide) p11s5 (dtF)
    have p11s7 := SCol_setCol_ne (show "quantity_ordered" ≠ "customer_state" by decide) p11s6 (qtyF)
    have p11s8 := SCol_setCol_ne (show "quantity_ordered" ≠ "customer_state" by decide) p11s7 (qtyF)
    have p11s9 := SCol_setCol_ne (show "customer_country" ≠ "customer_state" by decide) p11s8 (ccF)
    have p11s10 := SCol_setCol_ne (show "customer_country" ≠ "customer_state" by decide) p11s9 (ccF)
    have p10s0 : SCol (ordersOut a s "shopify" days n oidF dtF skF qtyF ccF csF revF curF smF) "customer_country" (ccF) := SCol_oo_customer_country
    have p10s1 := SCol_setCol_ne (show "account_id" ≠ "customer_country" by decide) p10s0 (List.replicate n (Value.str a))
    have p10s2 := SCol_setCol_ne (show "store_id" ≠ "customer_country" by decide) p10s1 (List.replicate n (Value.str s))
    have p10s3 := SCol_setCol_ne (show "platform" ≠ "customer_country" by decide) p10s2 (List.replicate n (Value.str "shopify"))
    have p10s4 := SCol_setCol_ne (show "order_id" ≠ "customer_country" by decide) p10s3 (oidF)
    have p10s5 := SCol_setCol_ne (show "sku" ≠ "customer_country" by decide) p10s4 (skF)
    have p10s6 := SCol_setCol_ne (show "order_datetime_utc" ≠ "customer_country" by decide) p10s5 (dtF)
    have p10s7 := SCol_setCol_ne (show "quantity_ordered" ≠ "customer_country" by decide) p10s6 (qtyF)
    have p10s8 := SCol_setCol_ne (show "quantity_ordered" ≠ "customer_country" by decide) p10s7 (qtyF)
    have p10s9 := SCol_setCol_self p10s8 (ccF)
    have p9s0 : SCol (ordersOut a s "shopify" days n oidF dtF skF qtyF ccF csF revF curF smF) "customer_country" (ccF) := SCol_oo_customer_country
    have p9s1 := SCol_setCol_ne (show "account_id" ≠ "customer_country" by decide) p9s0 (List.replicate n (Value.str a))
    have p9s2 := SCol_setCol_ne (show "store_id" ≠ "customer_country" by decide) p9s1 (List.replicate n (Value.str s))
    have p9s3 := SCol_setCol_ne (show "platform" ≠ "customer_country" by decide) p9s2 (List.replicate n (Value.str "shopify"))
    have p9s4 := SCol_setCol_ne (show "order_id" ≠ "customer_country" by decide) p9s3 (oidF)
    have p9s5 := SCol_setCol_ne (show "sku" ≠ "customer_country" by decide) p9s4 (skF)
    have p9s6 := SCol_setCol_ne (show "order_datetime_utc" ≠ "customer_country" by decide) p9s5 (dtF)
    have p9s7 := SCol_setCol_ne (show "quantity_ordered" ≠ "customer_country" by decide) p9s6 (qtyF)
    have p9s8 := SCol_setCol_ne (show "quantity_ordered" ≠ "customer_country" by decide) p9s7 (qtyF)
    have p8s0 : SCol (ordersOut a s "shopify" days n oidF dtF skF qtyF ccF csF revF curF smF) "quantity_ordered" (qtyF) := SCol_oo_quantity_ordered
    have p8s1 := SCol_setCol_ne (show "account_id" ≠ "quantity_ordered" by decide) p8s0 (List.replicate n (Value.str a))
    have p8s2 := SCol_setCol_ne (show "store_id" ≠ "quantity_ordered" by decide) p8s1 (List.replicate n (Value.str s))
    have p8s3 := SCol_setCol_ne (show "platform" ≠ "quantity_ordered" by decide) p8s2 (List.replicate n (Value.str "shopify"))
    have p8s4 := SCol_setCol_ne (show "order_id" ≠ "quantity_ordered" by decide) p8s3 (oidF)
    have p8s5 := SCol_setCol_ne (show "sku" ≠ "quantity_ordered" by decide) p8s4 (skF)
    have p8s6 := SCol_setCol_ne (show "order_datetime_utc" ≠ "quantity_ordered" by decide) p8s5 (dtF)
    have p8s7 := SCol_setCol_self p8s6 (qtyF)
    have p7s0 : SCol (ordersOut a s "shopify" days n oidF dtF skF qtyF ccF csF revF curF smF) "quantity_ordered" (qtyF) := SCol_oo_quantity_ordered
    have p7s1 := SCol_setCol_ne (show "account_id" ≠ "quantity_ordered" by decide) p7s0 (List.replicate n (Value.str a))
    have p7s2 := SCol_setCol_ne (show "store_id" ≠ "quantity_ordered" by decide) p7s1 (List.replicate n (Value.str s))
    have p7s3 := SCol_setCol_ne (show "platform" ≠ "quantity_ordered" by decide) p7s2 (List.replicate n (Value.str "shopify"))
    have p7s4 := SCol_setCol_ne (show "order_id" ≠ "quantity_ordered" by decide) p7s3 (oidF)
    have p7s5 := SCol_setCol_ne (show "sku" ≠ "quantity_ordered" by decide) p7s4 (skF)
    have p7s6 := SCol_setCol_ne (show "order_datetime_utc" ≠ "quantity_ordered" by decide) p7s5 (dtF)
    have p6s0 : SCol (ordersOut a s "shopify" days n oidF dtF skF qtyF ccF csF revF curF smF) "order_datetime_utc" (dtF) := SCol_oo_order_datetime_utc
    have p6s1 := SCol_setCol_ne (show "account_id" ≠ "order_datetime_utc" by decide) p6s0 (List.replicate n (Value.str a))
    have p6s2 := SCol_setCol_ne (show "store_id" ≠ "order_datetime_utc" by decide) p6s1 (List.replicate n (Value.str s))
    have p6s3 := SCol_setCol_ne (show "platform" ≠ "order_datetime_utc" by decide) p6s2 (List.replicate n (Value.str "shopify"))
    have p6s4 := SCol_setCol_ne (show "order_id" ≠ "order_datetime_utc" by decide) p6s3 (oidF)
    have p6s5 := SCol_setCol_ne (show "sku" ≠ "order_datetime_utc" by decide) p6s4 (skF)
    have p5s0 : SCol (ordersOut a s "shopify" days n oidF dtF skF qtyF ccF csF revF curF smF) "sku" (skF) := SCol_oo_sku
    have p5s1 := SCol_setCol_ne (show "account_id" ≠ "sku" by decide) p5s0 (List.replicate n (Value.str a))
    have p5s2 := SCol_setCol_ne (show "store_id" ≠ "sku" by decide) p5s1 (List.replicate n (Value.str s))
    have p5s3 := SCol_setCol_ne (show "platform" ≠ "sku" by decide) p5s2 (List.replicate n (Value.str "shopify"))
    have p5s4 := SCol_setCol_ne (show "order_id" ≠ "sku" by decide) p5s3 (oidF)
    have p4s0 : SCol (ordersOut a s "shopify" days n oidF dtF skF qtyF ccF csF revF curF smF) "order_id" (oidF) := SCol_oo_order_id
    have p4s1 := SCol_setCol_ne (show "account_id" ≠ "order_id" by decide) p4s0 (List.replicate n (Value.str a))
    have p4s2 := SCol_setCol_ne (show "store_id" ≠ "order_id" by decide) p4s1 (List.replicate n (Value.str s))
    have p4s3 := SCol_setCol_ne (show "platform" ≠ "order_id" by decide) p4s2 (List.replicate n (Value.str "shopify"))
    have p3s0 : SCol (ordersOut a s "shopify" days n oidF dtF skF qtyF ccF csF revF curF smF) "platform" (List.replicate n (Value.str "shopify")) := SCol_oo_platform
    have p3s1 := SCol_setCol_ne (show "account_id" ≠ "platform" by decide) p3s0 (List.replicate n (Value.str a))
    have p3s2 := SCol_setCol_ne (show "store_id" ≠ "platform" by decide) p3s1 (List.replicate n (Value.str s))
    have p2s0 : SCol (ordersOut a s "shopify" days n oidF dtF skF qtyF ccF csF revF curF smF) "store_id" (List.replicate n (Value.str s)) := SCol_oo_store_id
    have p2s1 := SCol_setCol_ne (show "account_id" ≠ "store_id" by decide) p2s0 (List.replicate n (Value.str a))
    have p1s0 : SCol (ordersOut a s "shopify" days n oidF dtF skF qtyF ccF csF revF curF smF) "account_id" (List.replicate n (Value.str a)) := SCol_oo_account_id
    rw [setCol_self_of_SCol p15s14,
      setCol_self_of_SCol p14s13,
      setCol_self_of_SCol p13s12,
      setCol_self_of_SCol p12s11,
      setCol_self_of_SCol p11s10,
      setCol_self_of_SCol p10s9,
      setCol_self_of_SCol p9s8,
      setCol_self_of_SCol p8s7,
      setCol_self_of_SCol p7s6,
      setCol_self_of_SCol p6s5,
      setCol_self_of_SCol p5s4,
      setCol_self_of_SCol p4s3,
      setCol_self_of_SCol p3s2,
      setCol_self_of_SCol p2s1,
      setCol_self_of_SCol p1s0]
    rw [ensure_out_ordersOut, project_ordersOut]
  · simp [-List.map_map, requireCols, ordersRequired, hasCol_of_SCol gL15,
      hasCol_of_SCol gM15, hasCol_of_SCol gN15, hasCol_of_SCol gP15,
      hasCol_of_SCol gR15]

-- Claim theorems: closed counterexamples and evaluations
-- ---------------------------------------------------------------

/-- C2: the claim says the pipelines never raise on any raw input,
including duplicate headers.  The code does raise: with the two Shopify
headers "Name" and "Order ID" both present (both aliasing to `order_id`),
`df.rename` leaves two `order_id` columns and
`_safe_str(df["order_id"]).str.strip()` hits the missing `.str` accessor
of a DataFrame (AttributeError).  The embedded pipeline surfaces exactly
that failure. -/
theorem C2_never_raises_failing_input :
    normalize_orders noDate noNum
      (some ⟨[("Name", [.str "1001"]), ("Order ID", [.str "1001"]),
              ("Lineitem SKU", [.str "w"]), ("Created at", [.str ""])], 1⟩)
      "a" "s" "other" "USD" 3 =
    .error "Series operation on duplicated label: order_id" := by
  rfl

/-- C3: the empty-input (or absent-input) short-circuit returns an empty
table together with exactly one error naming the table for orders and
shipments, and an empty report for tracking. -/
theorem C3_empty_input_reports :
    (∀ dparse nparse raw a s hint cur days,
      (raw = none ∨ ∃ df, raw = some df ∧ pdEmpty df = true) →
      normalize_orders dparse nparse raw a s hint cur days =
        .ok (emptyDF, ["[orders] Input orders dataframe is empty."])) ∧
    (∀ dparse nparse raw a s,
      (raw = none ∨ ∃ df, raw = some df ∧ pdEmpty df = true) →
      normalize_shipments dparse nparse raw a s =
        .ok (emptyDF, ["[shipments] Input shipments dataframe is empty."])) ∧
    (∀ dparse raw a s,
      (raw = none ∨ ∃ df, raw = some df ∧ pdEmpty df = true) →
      normalize_tracking dparse raw a s = .ok (emptyDF, [])) := by
  refine ⟨?_, ?_, ?_⟩ <;>
  · intros
    rename_i h
    rcases h with h | ⟨df, rfl, h⟩
    · subst h; rfl
    · simp [normalize_orders, normalize_shipments, normalize_tracking, h]

/-- Witness for C3: the hypotheses hold at concrete zero-row inputs. -/
theorem C3_empty_input_reports_witness :
    normalize_orders noDate noNum (some ⟨[("order id", [])], 0⟩) "a" "s" "shopify" "USD" 3 =
      .ok (emptyDF, ["[orders] Input orders dataframe is empty."]) ∧
    normalize_shipments noDate noNum (some ⟨[("sku", [])], 0⟩) "a" "s" =
      .ok (emptyDF, ["[shipments] Input shipments dataframe is empty."]) ∧
    normalize_tracking noDate (some ⟨[("tracking", [])], 0⟩) "a" "s" =
      .ok (emptyDF, []) :=
  ⟨C3_empty_input_reports.1 noDate noNum _ "a" "s" "shopify" "USD" 3
      (Or.inr ⟨_, rfl, rfl⟩),
   C3_empty_input_reports.2.1 noDate noNum _ "a" "s" (Or.inr ⟨_, rfl, rfl⟩),
   C3_empty_input_reports.2.2 noDate _ "a" "s" (Or.inr ⟨_, rfl, rfl⟩)⟩

/-- C5 counterexample: the claim says `quantity_shipped` is always ≥ 0.
A shipment row with quantity -3 passes through `_to_int` unclamped and is
emitted with `quantity_shipped = -3`. -/
theorem C5_counterexample :
    normalize_shipments noDate noNum
      (some ⟨[("supplier", [.str "Acme"]), ("PO", [.str "P1"]), ("sku", [.str "x"]),
              ("qty", [.int (-3)]), ("ship date", [.str ""])], 1⟩) "a" "s" =
    .ok (⟨[("account_id", [.str "a"]), ("store_id", [.str "s"]),
           ("supplier_name", [.str "Acme"]), ("supplier_order_id", [.str "P1"]),
           ("order_id", [.na]), ("sku", [.str "X"]),
           ("quantity_shipped", [.int (-3)]), ("ship_datetime_utc", [.na]),
           ("carrier", [.na]), ("tracking_number", [.na]),
           ("ship_from_country", [.na]), ("ship_to_country", [.na])], 1⟩,
         []) := by
  rfl

/-- C6: country-code cleanup per pipeline.  In orders the (stripped,
uppercased) value is truncated to two characters only when its length is
≥ 2 and otherwise kept ("United States" → "UN", "U" → "U"); in shipments
the value is force-uppercased and truncated unconditionally
("United States" → "UN", "u" → "U"). -/
theorem C6_country_code_cleanup :
    normalize_orders noDate noNum
      (some ⟨[("order id", [.str "A1", .str "A2"]), ("lineitem sku", [.str "w", .str "w"]),
              ("shipping country", [.str "United States", .str "U"])], 2⟩)
      "a" "s" "shopify" "USD" 3 =
    .ok (⟨[("account_id", [.str "a", .str "a"]), ("store_id", [.str "s", .str "s"]),
           ("platform", [.str "shopify", .str "shopify"]),
           ("order_id", [.str "A1", .str "A2"]),
           ("order_datetime_utc", [.na, .na]), ("sku", [.str "W", .str "W"]),
           ("quantity_ordered", [.int 1, .int 1]),
           ("customer_country", [.str "UN", .str "U"]),
           ("customer_state", [.na, .na]), ("order_revenue", [.na, .na]),
           ("currency", [.str "USD", .str "USD"]),
           ("shipping_method", [.str "", .str ""]),
           ("promised_ship_days", [.int 3, .int 3])], 2⟩, []) ∧
    normalize_shipments noDate noNum
      (some ⟨[("supplier", [.str "Acme"]), ("PO", [.str "P1"]), ("sku", [.str "x"]),
              ("ship to country", [.str "United States"])], 1⟩) "a" "s" =
    .ok (⟨[("account_id", [.str "a"]), ("store_id", [.str "s"]),
           ("supplier_name", [.str "Acme"]), ("supplier_order_id", [.str "P1"]),
           ("order_id", [.na]), ("sku", [.str "X"]),
           ("quantity_shipped", [.int 0]), ("ship_datetime_utc", [.na]),
           ("carrier", [.na]), ("tracking_number", [.na]),
           ("ship_from_country", [.na]), ("ship_to_country", [.str "UN"])], 1⟩, []) ∧
    normalize_shipments noDate noNum
      (some ⟨[("supplier", [.str "Acme"]), ("PO", [.str "P1"]), ("sku", [.str "x"]),
              ("ship to country", [.str "u"])], 1⟩) "a" "s" =
    .ok (⟨[("account_id", [.str "a"]), ("store_id", [.str "s"]),
           ("supplier_name", [.str "Acme"]), ("supplier_order_id", [.str "P1"]),
           ("order_id", [.na]), ("sku", [.str "X"]),
           ("quantity_shipped", [.int 0]), ("ship_datetime_utc", [.na]),
           ("carrier", [.na]), ("tracking_number", [.na]),
           ("ship_from_country", [.na]), ("ship_to_country", [.str "U"])], 1⟩, []) := by
  refine ⟨?_, ?_, ?_⟩ <;> rfl

/-- C7 counterexample: the claim says the rename step leaves a single
column under the canonical name (last applied wins).  With both
"Lineitem SKU" and "Variant SKU" present, the renamed table instead has
two columns labelled `sku`, each keeping its own values. -/
theorem C7_counterexample :
    (applyAlias SHOPIFY_COLUMN_MAP
      (lowerCols (cleanCols ⟨[("Lineitem SKU", [.str "a"]), ("Variant SKU", [.str "b"])], 1⟩))).cols =
    [("sku", [.str "a"]), ("sku", [.str "b"])] := by
  rfl

/-- C9 counterexample: re-feeding the orders pipeline's own canonical
output (same parameters) does not reproduce it.  With three Shopify
signal headers and `platform_hint="other"`, the first run stamps
`platform="shopify"`; the re-run detects nothing on canonical headers and
stamps `platform="other"` (it also rewrites the synthesized-NA
`customer_state` to the empty string). -/
theorem C9_counterexample :
    normalize_orders noDate noNum
      (some ⟨[("name", [.str "A1"]), ("created at", [.na]),
              ("lineitem sku", [.str "widget"])], 1⟩) "a" "s" "other" "USD" 3 =
    .ok (⟨[("account_id", [.str "a"]), ("store_id", [.str "s"]),
           ("platform", [.str "shopify"]), ("order_id", [.str "A1"]),
           ("order_datetime_utc", [.na]), ("sku", [.str "WIDGET"]),
           ("quantity_ordered", [.int 1]), ("customer_country", [.str ""]),
           ("customer_state", [.na]), ("order_revenue", [.na]),
           ("currency", [.str "USD"]), ("shipping_method", [.str ""]),
           ("promised_ship_days", [.int 3])], 1⟩, []) ∧
    normalize_orders noDate noNum
      (some ⟨[("account_id", [.str "a"]), ("store_id", [.str "s"]),
              ("platform", [.str "shopify"]), ("order_id", [.str "A1"]),
              ("order_datetime_utc", [.na]), ("sku", [.str "WIDGET"]),
              ("quantity_ordered", [.int 1]), ("customer_country", [.str ""]),
              ("customer_state", [.na]), ("order_revenue", [.na]),
              ("currency", [.str "USD"]), ("shipping_method", [.str ""]),
              ("promised_ship_days", [.int 3])], 1⟩) "a" "s" "other" "USD" 3 =
    .ok (⟨[("account_id", [.str "a"]), ("store_id", [.str "s"]),
           ("platform", [.str "other"]), ("order_id", [.str "A1"]),
           ("order_datetime_utc", [.na]), ("sku", [.str "WIDGET"]),
           ("quantity_ordered", [.int 1]), ("customer_country", [.str ""]),
           ("customer_state", [.str ""]), ("order_revenue", [.na]),
           ("currency", [.str "USD"]), ("shipping_method", [.str ""]),
           ("promised_ship_days", [.int 3])], 1⟩, []) ∧
    Value.str "shopify" ≠ Value.str "other" := by
  refine ⟨?_, ?_, ?_⟩
  · rfl
  · rfl
  · simp

/-- C7 (amended): the rename step relabels every aliased header in place;
when several present headers map to the same canonical name, the renamed
table holds one column per source header, all labelled with the canonical
name (here: the `sku` column count after rename is the sum of the
`lineitem sku`, `variant sku`, `lineitem name` and `sku` header counts),
no last-wins merge occurs, and the pipeline subsequently fails on the
duplicated canonical field instead of emitting a single column. -/
theorem C7_alias_duplication_amended :
    (∀ df : DataFrame, countLabel (applyAlias SHOPIFY_COLUMN_MAP df) "sku" =
      countLabel df "lineitem sku" + countLabel df "variant sku" +
      countLabel df "lineitem name" + countLabel df "sku") ∧
    normalize_orders noDate noNum
      (some ⟨[("order id", [.str "A1"]), ("lineitem sku", [.str "a"]),
              ("variant sku", [.str "b"])], 1⟩) "a" "s" "shopify" "USD" 3 =
    .error "Series operation on duplicated label: sku" := by
  constructor
  · intro df
    unfold countLabel
    rw [colNames_applyAlias]
    exact aliasAll_sku_count (colNames df)
  · rfl

/-- C8: Shopify detection is exactly "intersection of the lowercased
trimmed header set with the 9 signals has size ≥ 3" (stated against the
spec-worded Finset formulation), the claim's concrete example
{"Name","Order Date"} scores below the threshold, and the pipeline's
platform decision is detection OR a case-insensitive "shopify" hint: with
hint "ShOpIfY" the same 2-signal input is processed as Shopify (headers
aliased, platform stamped "shopify"), while with hint "other" it is not
(no aliasing, so no order_id survives and the platform decision stays
non-Shopify). -/
theorem C8_shopify_detection :
    (∀ raw, detect_shopify_orders raw = specShopifyDetect raw) ∧
    detect_shopify_orders ⟨[("Name", [.str "o1"]), ("Order Date", [.str "d"])], 1⟩ = false ∧
    normalize_orders noDate noNum
      (some ⟨[("Name", [.str "o1"]), ("Order Date", [.str "d"]),
              ("Lineitem SKU", [.str "w"])], 1⟩) "a" "s" "ShOpIfY" "USD" 3 =
    .ok (⟨[("account_id", [.str "a"]), ("store_id", [.str "s"]),
           ("platform", [.str "shopify"]), ("order_id", [.str "o1"]),
           ("order_datetime_utc", [.na]), ("sku", [.str "W"]),
           ("quantity_ordered", [.int 1]), ("customer_country", [.str ""]),
           ("customer_state", [.na]), ("order_revenue", [.na]),
           ("currency", [.str "USD"]), ("shipping_method", [.str ""]),
           ("promised_ship_days", [.int 3])], 1⟩, []) ∧
    normalize_orders noDate noNum
      (some ⟨[("Name", [.str "o1"]), ("Order Date", [.str "d"]),
              ("Lineitem SKU", [.str "w"])], 1⟩) "a" "s" "other" "USD" 3 =
    .ok (⟨[("account_id", []), ("store_id", []), ("platform", []),
           ("order_id", []), ("order_datetime_utc", []), ("sku", []),
           ("quantity_ordered", []), ("customer_country", []),
           ("customer_state", []), ("order_revenue", []), ("currency", []),
           ("shipping_method", []), ("promised_ship_days", [])], 0⟩, []) := by
  refine ⟨detect_eq_spec, ?_, ?_, ?_⟩ <;> rfl


/-- C4: every emitted row has a non-empty string in its mandatory keys —
`order_id`/`sku` for orders, `supplier_order_id`/`sku` for shipments,
`tracking_number` for tracking; rows with an empty key are removed rather
than emitted with a null. -/
theorem C4_mandatory_row_keys :
    (∀ dp np (raw : Option DataFrame) a s hint cur days out rep,
      normalize_orders dp np raw a s hint cur days = .ok (out, rep) →
      ∀ c ∈ out.cols, ∀ v ∈ c.2,
        (c.1 = "order_id" → ∃ t, v = .str t ∧ 0 < t.length) ∧
        (c.1 = "sku" → ∃ t, v = .str t ∧ 0 < t.length)) ∧
    (∀ dp np (raw : Option DataFrame) a s out rep,
      normalize_shipments dp np raw a s = .ok (out, rep) →
      ∀ c ∈ out.cols, ∀ v ∈ c.2,
        (c.1 = "supplier_order_id" → ∃ t, v = .str t ∧ 0 < t.length) ∧
        (c.1 = "sku" → ∃ t, v = .str t ∧ 0 < t.length)) ∧
    (∀ dp (raw : Option DataFrame) a s out rep,
      normalize_tracking dp raw a s = .ok (out, rep) →
      ∀ c ∈ out.cols, ∀ v ∈ c.2,
        c.1 = "tracking_number" → ∃ t, v = .str t ∧ 0 < t.length) := by
  refine ⟨?_, ?_, ?_⟩
  · intro dp np raw a s hint cur days out rep h c hc v hv
    rcases raw with _ | raw
    · simp [normalize_orders, emptyDF] at h
      rw [← h.1] at hc
      simp at hc
    · by_cases hE : pdEmpty raw = true
      · simp [normalize_orders, hE, emptyDF] at h
        rw [← h.1] at hc
        simp at hc
      · obtain ⟨-, oidF, skF, hso, hsk, hoid, hskv⟩ :=
          orders_ok_core (by simpa using hE) h
        constructor
        · intro hl
          have := col_eq_of_SCol hso hc hl
          subst this
          exact hoid v hv
        · intro hl
          have := col_eq_of_SCol hsk hc hl
          subst this
          exact hskv v hv
  · intro dp np raw a s out rep h c hc v hv
    rcases raw with _ | raw
    · simp [normalize_shipments, emptyDF] at h
      rw [← h.1] at hc
      simp at hc
    · by_cases hE : pdEmpty raw = true
      · simp [normalize_shipments, hE, emptyDF] at h
        rw [← h.1] at hc
        simp at hc
      · obtain ⟨-, soF, skF, qF, hso, hsk, hq, hsov, hskv, hqv⟩ :=
          shipments_ok_core (by simpa using hE) h
        constructor
        · intro hl
          have := col_eq_of_SCol hso hc hl
          subst this
          exact hsov v hv
        · intro hl
          have := col_eq_of_SCol hsk hc hl
          subst this
          exact hskv v hv
  · intro dp raw a s out rep h c hc v hv hl
    rcases raw with _ | raw
    · simp [normalize_tracking, emptyDF] at h
      rw [← h.1] at hc
      simp at hc
    · by_cases hE : pdEmpty raw = true
      · simp [normalize_tracking, hE, emptyDF] at h
        rw [← h.1] at hc
        simp at hc
      · obtain ⟨-, tnF, htn, htnv⟩ := tracking_ok_core (by simpa using hE) h
        have := col_eq_of_SCol htn hc hl
        subst this
        exact htnv v hv

/-- Witness for C4: the theorem applied at concrete one-row runs of each
pipeline. -/
theorem C4_mandatory_row_keys_witness :
    (∀ c ∈ (DataFrame.mk
      [("account_id", [Value.str "a"]), ("store_id", [.str "s"]),
       ("platform", [.str "shopify"]), ("order_id", [.str "A9"]),
       ("order_datetime_utc", [.na]), ("sku", [.str "K1"]),
       ("quantity_ordered", [.int 1]), ("customer_country", [.str ""]),
       ("customer_state", [.na]), ("order_revenue", [.na]),
       ("currency", [.str "USD"]), ("shipping_method", [.str ""]),
       ("promised_ship_days", [.int 3])] 1).cols, ∀ v ∈ c.2,
        (c.1 = "order_id" → ∃ t, v = .str t ∧ 0 < t.length) ∧
        (c.1 = "sku" → ∃ t, v = .str t ∧ 0 < t.length)) :=
  C4_mandatory_row_keys.1 noDate noNum
    (some ⟨[("order id", [.str "A9"]), ("lineitem sku", [.str "k1"])], 1⟩)
    "a" "s" "shopify" "USD" 3 _ _ (by rfl)

/-- C10: for every non-empty input that a pipeline processes to
completion, the validation report is empty — the Missing-required-column
branch of `_require_cols` is unreachable because every required field was
synthesized as a null column before validation. -/
theorem C10_validator_unreachable :
    (∀ dp np raw a s hint cur days out rep, pdEmpty raw = false →
      normalize_orders dp np (some raw) a s hint cur days = .ok (out, rep) →
      rep = []) ∧
    (∀ dp np raw a s out rep, pdEmpty raw = false →
      normalize_shipments dp np (some raw) a s = .ok (out, rep) → rep = []) ∧
    (∀ dp raw a s out rep, pdEmpty raw = false →
      normalize_tracking dp (some raw) a s = .ok (out, rep) → rep = []) :=
  ⟨fun _ _ _ _ _ _ _ _ _ _ hne h => (orders_ok_core hne h).1,
   fun _ _ _ _ _ _ _ hne h => (shipments_ok_core hne h).1,
   fun _ _ _ _ _ _ hne h => (tracking_ok_core hne h).1⟩

/-- Witness for C10: concrete non-empty runs of each pipeline with empty
reports. -/
theorem C10_validator_unreachable_witness :
    ([] : List String) = [] ∧ ([] : List String) = [] ∧ ([] : List String) = [] :=
  ⟨C10_validator_unreachable.1 noDate noNum
      ⟨[("order id", [Value.str "A9"]), ("lineitem sku", [.str "k1"])], 1⟩
      "a" "s" "shopify" "USD" 3 _ [] (by rfl) (by rfl),
   C10_validator_unreachable.2.1 noDate noNum
      ⟨[("supplier", [Value.str "Acme"]), ("PO", [.str "P1"]), ("sku", [.str "x"])], 1⟩
      "a" "s" _ [] (by rfl) (by rfl),
   C10_validator_unreachable.2.2 noDate
      ⟨[("tracking", [Value.str "T1"])], 1⟩ "a" "s" _ [] (by rfl) (by rfl)⟩

/-- C5 (amended): `quantity_shipped` is always an integer; null or
non-numeric input becomes the default 0; negative numeric input is
preserved, so the value may be below 0. -/
theorem C5_quantity_shipped_amended :
    (∀ dp np (raw : Option DataFrame) a s out rep,
      normalize_shipments dp np raw a s = .ok (out, rep) →
      ∀ c ∈ out.cols, c.1 = "quantity_shipped" → ∀ v ∈ c.2, ∃ n, v = .int n) ∧
    (∀ np : String → Option Rat, toIntVal np 0 .na = .int 0) ∧
    (∀ (np : String → Option Rat) t, np t = none → toIntVal np 0 (.str t) = .int 0) := by
  refine ⟨?_, fun np => rfl, fun np t h => by simp [toIntVal, toNumeric, h]⟩
  intro dp np raw a s out rep h c hc hl v hv
  rcases raw with _ | raw
  · simp [normalize_shipments, emptyDF] at h
    rw [← h.1] at hc
    simp at hc
  · by_cases hE : pdEmpty raw = true
    · simp [normalize_shipments, hE, emptyDF] at h
      rw [← h.1] at hc
      simp at hc
    · obtain ⟨-, soF, skF, qF, hso, hsk, hq, hsov, hskv, hqv⟩ :=
        shipments_ok_core (by simpa using hE) h
      have := col_eq_of_SCol hq hc hl
      subst this
      exact hqv v hv

/-- Witness for C5 (amended): the theorem applied at the concrete run
with a negative quantity and at concrete coercion inputs. -/
theorem C5_quantity_shipped_amended_witness :
    (∀ c ∈ (DataFrame.mk
      [("account_id", [Value.str "a"]), ("store_id", [.str "s"]),
       ("supplier_name", [.str "Acme"]), ("supplier_order_id", [.str "P1"]),
       ("order_id", [.na]), ("sku", [.str "X"]),
       ("quantity_shipped", [.int (-3)]), ("ship_datetime_utc", [.na]),
       ("carrier", [.na]), ("tracking_number", [.na]),
       ("ship_from_country", [.na]), ("ship_to_country", [.na])] 1).cols,
      c.1 = "quantity_shipped" → ∀ v ∈ c.2, ∃ n, v = .int n) ∧
    toIntVal noNum 0 .na = .int 0 ∧
    toIntVal noNum 0 (.str "not a number") = .int 0 :=
  ⟨C5_quantity_shipped_amended.1 noDate noNum
      (some ⟨[("supplier", [.str "Acme"]), ("PO", [.str "P1"]), ("sku", [.str "x"]),
              ("qty", [.int (-3)]), ("ship date", [.str ""])], 1⟩) "a" "s" _ _ (by rfl),
   C5_quantity_shipped_amended.2.1 noNum,
   C5_quantity_shipped_amended.2.2 noNum "not a number" rfl⟩


/-- C1: (corrected — counterexample) the claim includes the empty-input
case, where the spec promises an empty *canonical* table; the code instead
returns a bare `pd.DataFrame()` with no columns at all, so the output
column list is empty rather than the canonical thirteen. -/
theorem C1_counterexample :
    normalize_orders noDate noNum (some ⟨[("order_id", [])], 0⟩) "a" "s" "shopify" "USD" 3
      = .ok (emptyDF, ["[orders] Input orders dataframe is empty."]) ∧
    colNames emptyDF ≠ ORDERS_OUT_COLS :=
  ⟨rfl, by decide⟩

/-- C1 (amended): for every *non-empty* accepted input whose cleaned,
lowercased and alias-mapped header list is duplicate-free, each of the
three pipelines emits exactly its canonical column list, in order,
regardless of the raw headers. -/
theorem C1_canonical_columns_amended :
    (∀ (dp : String → Option Int) (np : String → Option Rat) (raw : DataFrame)
       (a s hint cur : String) (days : Int) (out : DataFrame) (rep : List String),
       pdEmpty raw = false →
       (colNames (applyAlias SHOPIFY_COLUMN_MAP (lowerCols (cleanCols raw)))).Nodup →
       normalize_orders dp np (some raw) a s hint cur days = .ok (out, rep) →
       colNames out = ORDERS_OUT_COLS) ∧
    (∀ (dp : String → Option Int) (np : String → Option Rat) (raw : DataFrame)
       (a s : String) (out : DataFrame) (rep : List String),
       pdEmpty raw = false →
       (colNames (applyAlias shipmentsRenameCandidates (lowerCols (cleanCols raw)))).Nodup →
       normalize_shipments dp np (some raw) a s = .ok (out, rep) →
       colNames out = SHIPMENTS_OUT_COLS) ∧
    (∀ (dp : String → Option Int) (raw : DataFrame) (a s : String)
       (out : DataFrame) (rep : List String),
       pdEmpty raw = false →
       (colNames (applyAlias trackingRenameCandidates (lowerCols (cleanCols raw)))).Nodup →
       normalize_tracking dp (some raw) a s = .ok (out, rep) →
       colNames out = TRACKING_OUT_COLS) :=
  ⟨fun _ _ _ _ _ _ _ _ _ _ h1 h2 h3 => orders_colNames h1 h2 h3,
   fun _ _ _ _ _ _ _ h1 h2 h3 => shipments_colNames h1 h2 h3,
   fun _ _ _ _ _ _ h1 h2 h3 => tracking_colNames h1 h2 h3⟩

/-- C1 witness: a concrete one-row orders run reaching the amended
theorem's conclusion through its hypotheses. -/
theorem C1_canonical_columns_amended_witness :
    ∃ out rep,
      normalize_orders noDate noNum
          (some ⟨[("order_id", [.str " A1 "]), ("order_datetime_utc", [.na]),
                  ("sku", [.str "sk"]), ("quantity_ordered", [.int 2]),
                  ("customer_country", [.str "us"])], 1⟩)
          "a" "s" "shopify" "USD" 3 = .ok (out, rep) ∧
      colNames out = ORDERS_OUT_COLS := by
  refine ⟨_, _, rfl, ?_⟩
  exact C1_canonical_columns_amended.1 noDate noNum
    ⟨[("order_id", [.str " A1 "]), ("order_datetime_utc", [.na]),
      ("sku", [.str "sk"]), ("quantity_ordered", [.int 2]),
      ("customer_country", [.str "us"])], 1⟩
    "a" "s" "shopify" "USD" 3 _ _ (by decide) (by decide) rfl

/-- C9 (amended): orders is idempotent on its own canonical output under
the platform hint `"shopify"` and the cell conditions the counterexample
shows to be necessary: customer_state cells non-NA trimmed strings,
currency cells already trimmed uppercase, customer_country cells trimmed
(the remaining invariants — trimmed non-empty ids/skus, timestamp-or-NA
datetimes, positive integer quantities, uppercase ≤2-char countries,
float-or-NA revenues, trimmed shipping methods — hold of every first-run
output).  Re-feeding then reproduces the frame exactly. -/
theorem C9_idempotent_amended {dp : String → Option Int} {np : String → Option Rat}
    {a s cur : String} {days : Int} {n : Nat}
    {oidF dtF skF qtyF ccF csF revF curF smF : List Value}
    (hn : n ≠ 0)
    (l1 : oidF.length = n) (l2 : dtF.length = n) (l3 : skF.length = n)
    (l4 : qtyF.length = n) (l5 : ccF.length = n) (l6 : csF.length = n)
    (l7 : revF.length = n) (l8 : curF.length = n) (l9 : smF.length = n)
    (hO : ∀ v ∈ oidF, ∃ t, v = .str t ∧ pyStrip t = t ∧ 0 < t.length)
    (hK : ∀ v ∈ skF, ∃ t, v = .str t ∧ pyStrip t = t ∧ pyUpper t = t ∧ 0 < t.length)
    (hD : ∀ v ∈ dtF, (∃ t, v = .ts t) ∨ v = .na)
    (hQ : ∀ v ∈ qtyF, ∃ m, v = .int m ∧ 1 ≤ m)
    (hC : ∀ v ∈ ccF, ∃ t, v = .str t ∧ pyStrip t = t ∧ pyUpper t = t ∧ t.length ≤ 2)
    (hS : ∀ v ∈ csF, ∃ t, v = .str t ∧ pyStrip t = t)
    (hR : ∀ v ∈ revF, (∃ q, v = .float q) ∨ v = .na)
    (hU : ∀ v ∈ curF, ∃ t, v = .str t ∧ pyStrip t = t ∧ pyUpper t = t)
    (hM : ∀ v ∈ smF, ∃ t, v = .str t ∧ pyStrip t = t) :
    normalize_orders dp np
        (some (ordersOut a s "shopify" days n oidF dtF skF qtyF ccF csF revF curF smF))
        a s "shopify" cur days
      = .ok (ordersOut a s "shopify" days n oidF dtF skF qtyF ccF csF revF curF smF, []) :=
  orders_rerun hn l1 l2 l3 l4 l5 l6 l7 l8 l9 hO hK hD hQ hC hS hR hU hM

/-- C9 witness: a concrete one-row canonical frame is reproduced exactly
by a second run. -/
theorem C9_idempotent_amended_witness :
    normalize_orders noDate noNum
        (some (ordersOut "a" "s" "shopify" 3 1 [.str "O1"] [.na] [.str "K"]
          [.int 1] [.str "US"] [.str ""] [.na] [.str "USD"] [.str ""]))
        "a" "s" "shopify" "USD" 3
      = .ok (ordersOut "a" "s" "shopify" 3 1 [.str "O1"] [.na] [.str "K"]
          [.int 1] [.str "US"] [.str ""] [.na] [.str "USD"] [.str ""], []) :=
  C9_idempotent_amended (by decide) rfl rfl rfl rfl rfl rfl rfl rfl rfl
    (by intro v hv; rw [List.mem_singleton] at hv; subst hv
        exact ⟨"O1", rfl, by decide, by decide⟩)
    (by intro v hv; rw [List.mem_singleton] at hv; subst hv
        exact ⟨"K", rfl, by decide, by decide, by decide⟩)
    (by intro v hv; rw [List.mem_singleton] at hv; subst hv
        exact Or.inr rfl)
    (by intro v hv; rw [List.mem_singleton] at hv; subst hv
        exact ⟨1, rfl, by decide⟩)
    (by intro v hv; rw [List.mem_singleton] at hv; subst hv
        exact ⟨"US", rfl, by decide, by decide, by decide⟩)
    (by intro v hv; rw [List.mem_singleton] at hv; subst hv
        exact ⟨"", rfl, by decide⟩)
    (by intro v hv; rw [List.mem_singleton] at hv; subst hv
        exact Or.inr rfl)
    (by intro v hv; rw [List.mem_singleton] at hv; subst hv
        exact ⟨"USD", rfl, by decide, by decide⟩)
    (by intro v hv; rw [List.mem_singleton] at hv; subst hv
        exact ⟨"", rfl, by decide⟩)

end ClearOps
